import Mathlib

/-! State layer of `selfdrive/ui`.

A shallow embedding of the projection / line-builder / model-update /
lead-update / driver-pose code and the `Device` wakefulness code of
`selfdrive/ui/ui.cc`, of `Alert` of `selfdrive/ui/ui.h`, and of `Sound::update`
and `Sound::setAlert` of `selfdrive/ui/soundd/sound.cc`.

Conventions of the embedding

* C `float` / `double` values are exact rationals (`ℚ`); rounding and overflow
  are outside the model, except for the two conversions to `float` of ui.cc
  lines 112-113, which round with `float_round`.
* The quotients of the perspective divide (ui.cc line 29) and the screen
  coordinates computed from them are values of `qreal`: a number, a signed
  infinity or NaN.  A division by zero follows IEEE 754 (`x / 0` is an infinity
  for `x ≠ 0` and NaN for `x = 0`), and so do the products, sums and comparisons
  of such values.
* A capnp list reader is a `List ℚ`; reading past its end makes the embedded
  function return `none`.
* A `QPolygonF` is a `List QPointF`; `push_back` appends at the end,
  `push_front` conses at the head, `back()` is the last element.
* An output parameter `T *out` is modelled by passing the old content of `*out`
  and returning the new content next to the return value.
* `uint64_t` values are natural numbers; a `uint64_t` subtraction is taken
  modulo `2^64`.
* `sinf`, `cosf`, `nanos_since_boot()` and `Hardware::PC()` are arguments of the
  embedded functions.
-/

set_option autoImplicit false

/-! ## Data model -/

/-- The `vec3` of `common/mat.h`: `struct { float v[3]; }`. -/
structure vec3 where
  v0 : ℚ
  v1 : ℚ
  v2 : ℚ
deriving DecidableEq

/-- The `mat3` of `common/mat.h`: `struct { float v[9]; }`, row major. -/
structure mat3 where
  v0 : ℚ
  v1 : ℚ
  v2 : ℚ
  v3 : ℚ
  v4 : ℚ
  v5 : ℚ
  v6 : ℚ
  v7 : ℚ
  v8 : ℚ
deriving DecidableEq

/-- Qt's `qreal` (a `double`), as the value of a screen coordinate: a number, an
infinity with its sign, or NaN. -/
inductive qreal where
  | num (q : ℚ)
  | inf (negative : Bool)
  | nan
deriving DecidableEq

/-- Qt's `QPointF`: a point of the plane, `x()` and `y()`. -/
structure QPointF where
  x : qreal
  y : qreal
deriving DecidableEq

/-- The default-constructed `QPointF`, the point `(0, 0)`. -/
def QPointF.null : QPointF := ⟨qreal.num 0, qreal.num 0⟩

/-- The part of `cereal::XYZTData::Reader` that `ui.cc` reads: the three
coordinate lists `getX()`, `getY()`, `getZ()`. -/
structure XYZTData where
  x : List ℚ
  y : List ℚ
  z : List ℚ
deriving DecidableEq

/-- Qt's `QRectF`: top-left corner `(xp, yp)`, width `w`, height `h`. -/
structure QRectF where
  xp : ℚ
  yp : ℚ
  w : ℚ
  h : ℚ
deriving DecidableEq

/-- Modelled from the spec: Qt's `QTransform`, which is not part of the
excerpt; "a 2D affine transform mapping camera-view coordinates to screen
pixels", with Qt's names for the six coefficients. -/
structure QTransform where
  m11 : ℚ
  m12 : ℚ
  m21 : ℚ
  m22 : ℚ
  dx : ℚ
  dy : ℚ
deriving DecidableEq

/-- The constants of `common/modeldata.h` that `ui.cc` uses besides
`TRAJECTORY_SIZE`.  The header is not part of the excerpt, so they are
parameters of the embedding. -/
structure ModelConstants where
  FCAM_INTRINSIC_MATRIX : mat3
  ECAM_INTRINSIC_MATRIX : mat3
  MIN_DRAW_DISTANCE : ℚ
  MAX_DRAW_DISTANCE : ℚ

/-- The part of `cereal::RadarState::LeadData::Reader` that `ui.cc` reads. -/
structure LeadData where
  status : Bool
  dRel : ℚ
  yRel : ℚ
deriving DecidableEq

/-- The part of `cereal::RadarState::Reader` that `ui.cc` reads. -/
structure RadarState where
  leadOne : LeadData
  leadTwo : LeadData
deriving DecidableEq

/-- The enumerators of `cereal::ControlsState::AlertSize`. -/
inductive AlertSize where
  | NONE
  | SMALL
  | MID
  | FULL
deriving DecidableEq

/-- The enumerators of `cereal::ControlsState::AlertStatus` (the keys of
`alert_colors` in ui.h). -/
inductive AlertStatus where
  | NORMAL
  | USER_PROMPT
  | CRITICAL
deriving DecidableEq

/-- The `AudibleAlert` of ui.h (`cereal::CarControl::HUDControl::AudibleAlert`):
the two enumerators that ui.h and sound.cc name, and `OTHER n` for the
remaining enumerators of the cereal schema. -/
inductive AudibleAlert where
  | NONE
  | WARNING_IMMEDIATE
  | OTHER (n : Nat)
deriving DecidableEq

/-- The part of `cereal::ControlsState::Reader` that `Alert::get` reads. -/
structure ControlsState where
  alertText1 : String
  alertText2 : String
  alertType : String
  alertSize : AlertSize
  alertStatus : AlertStatus
  alertSound : AudibleAlert
  enabled : Bool
deriving DecidableEq

/-- The state that `SubMaster` keeps for the service `"controlsState"`:
`sm.updated("controlsState")`, `sm.rcv_frame("controlsState")`,
`sm.rcv_time("controlsState")` (nanoseconds, `uint64_t`) and the last message
`sm["controlsState"].getControlsState()`. -/
structure ControlsStateService where
  updated : Bool
  rcv_frame : Nat
  rcv_time : Nat
  msg : ControlsState
deriving DecidableEq

/-- The part of `SubMaster` that the embedded code reads: the frame counter
`sm.frame` (`uint64_t`), the state of the service `"controlsState"`, and
`(*s->sm)["radarState"].getRadarState()`. -/
structure SubMaster where
  frame : Nat
  controlsState : ControlsStateService
  radarState : RadarState
deriving DecidableEq

/-- The part of `cereal::DriverStateV2::DriverData::Reader` that
`update_dmonitoring` reads. -/
structure DriverData where
  faceOrientation : List ℚ
deriving DecidableEq

/-- The part of `cereal::DriverStateV2::Reader` that `update_dmonitoring`
reads. -/
structure DriverStateV2 where
  leftDriverData : DriverData
  rightDriverData : DriverData
deriving DecidableEq

/-- The `Alert` of ui.h. -/
structure Alert where
  text1 : String
  text2 : String
  type : String
  size : AlertSize
  status : AlertStatus
  sound : AudibleAlert
deriving DecidableEq

/-- The part of `cereal::ModelDataV2::Reader` that `update_model` reads. -/
structure ModelDataV2 where
  position : XYZTData
  laneLines : List XYZTData
  laneLineProbs : List ℚ
  roadEdges : List XYZTData
  roadEdgeStds : List ℚ

/-- The part of `cereal::UiPlan::Reader` that `update_model` reads. -/
structure UiPlan where
  position : XYZTData

/-- The fields of `UIScene` (ui.h) that the embedded code reads or writes.
The fixed-size arrays `lane_line_probs[4]`, `road_edge_stds[2]`,
`lane_line_vertices[4]`, `road_edge_vertices[2]`, `lead_vertices[2]` and
`face_kpts_draw[33]` are lists; the arrays `float driver_pose_*[3]` are
functions on `Fin 3`. -/
structure UIScene where
  wide_cam : Bool
  view_from_calib : mat3
  view_from_wide_calib : mat3
  lane_line_probs : List ℚ
  road_edge_stds : List ℚ
  track_vertices : List QPointF
  lane_line_vertices : List (List QPointF)
  road_edge_vertices : List (List QPointF)
  lead_vertices : List QPointF
  driver_pose_vals : Fin 3 → ℚ
  driver_pose_diff : Fin 3 → ℚ
  driver_pose_sins : Fin 3 → ℚ
  driver_pose_coss : Fin 3 → ℚ
  face_kpts_draw : List vec3
  ignition : Bool

/-- The fields of `UIState` (ui.h) that the geometry pipeline reads or writes. -/
structure UIState where
  fb_w : Int
  fb_h : Int
  sm : SubMaster
  scene : UIScene
  car_space_transform : QTransform

/-- `DEFAULT_CALIBRATION` of ui.h. -/
def DEFAULT_CALIBRATION : mat3 := ⟨0, 1, 0, 0, 0, 1, 1, 0, 0⟩

/-- Modelled from the spec: `TRAJECTORY_SIZE` of `common/modeldata.h`, which
is not part of the excerpt; the trajectory capacity is 33 samples. -/
def TRAJECTORY_SIZE : Nat := 33

/-! ## `get_path_length_idx` (ui.cc, lines 37-44) -/

/-- The loop of `get_path_length_idx`:
`for (i; i < TRAJECTORY_SIZE && line_x[i] <= path_height; ++i) max_idx = i;`
followed by `return max_idx`.  The first argument is fuel; `none` is an
exhausted fuel or a read past the end of `line_x`. -/
def get_path_length_idx.loop (line_x : List ℚ) (path_height : ℚ) :
    Nat → Nat → Nat → Option Nat
  | 0, _, _ => none
  | fuel + 1, i, max_idx =>
    if i < TRAJECTORY_SIZE then
      match line_x[i]? with
      | none => none
      | some v =>
        if v ≤ path_height then
          get_path_length_idx.loop line_x path_height fuel (i + 1) i
        else some max_idx
    else some max_idx

/-- `int get_path_length_idx(const cereal::XYZTData::Reader &line, const float path_height)`:
`max_idx = 0`, then the loop from `i = 1`. -/
def get_path_length_idx (line : XYZTData) (path_height : ℚ) : Option Nat :=
  get_path_length_idx.loop line.x path_height TRAJECTORY_SIZE 1 0

/-! ## Library functions and conversions -/

/-- Modelled from the spec: `matvecmul3` of `common/mat.h`, which is not part
of the excerpt; the product of a row-major 3×3 matrix and a vector ("apply
calibration rotation, then intrinsic projection"). -/
def matvecmul3 (a : mat3) (b : vec3) : vec3 :=
  ⟨a.v0 * b.v0 + a.v1 * b.v1 + a.v2 * b.v2,
   a.v3 * b.v0 + a.v4 * b.v1 + a.v5 * b.v2,
   a.v6 * b.v0 + a.v7 * b.v1 + a.v8 * b.v2⟩

/-- The IEEE 754 quotient `a / b` of two numbers: for `b = 0` it is NaN when
`a = 0` and an infinity otherwise.  The rational model has one zero; the zero
denominator counts as `+0.0`, so the infinity has the sign of `a`. -/
def qreal.div (a b : ℚ) : qreal :=
  if b = 0 then (if a = 0 then qreal.nan else qreal.inf (decide (a < 0)))
  else qreal.num (a / b)

/-- The IEEE 754 product `c * v` of a number and a `qreal`: `0 * ∞` is NaN. -/
def qreal.mul (c : ℚ) : qreal → qreal
  | qreal.num q => qreal.num (c * q)
  | qreal.inf negative =>
    if c = 0 then qreal.nan else qreal.inf (if c < 0 then !negative else negative)
  | qreal.nan => qreal.nan

/-- The IEEE 754 sum: `∞ + (-∞)` is NaN. -/
def qreal.add : qreal → qreal → qreal
  | qreal.num a, qreal.num b => qreal.num (a + b)
  | qreal.num _, qreal.inf m => qreal.inf m
  | qreal.inf n, qreal.num _ => qreal.inf n
  | qreal.inf n, qreal.inf m => if n = m then qreal.inf n else qreal.nan
  | qreal.nan, _ => qreal.nan
  | _, qreal.nan => qreal.nan

/-- The IEEE 754 comparison `a < b`: false when either side is NaN. -/
def qreal.lt : qreal → qreal → Bool
  | qreal.num a, qreal.num b => decide (a < b)
  | qreal.num _, qreal.inf m => !m
  | qreal.inf n, qreal.num _ => n
  | qreal.inf n, qreal.inf m => n && !m
  | qreal.nan, _ => false
  | _, qreal.nan => false

/-- The IEEE 754 comparison `a <= b`: false when either side is NaN. -/
def qreal.le : qreal → qreal → Bool
  | qreal.num a, qreal.num b => decide (a ≤ b)
  | qreal.num _, qreal.inf m => !m
  | qreal.inf n, qreal.num _ => n
  | qreal.inf n, qreal.inf m => n || !m
  | qreal.nan, _ => false
  | _, qreal.nan => false

/-- The operator `<` on `qreal` (`a > b` is `b < a`). -/
instance qreal.instLT : LT qreal := ⟨fun a b => qreal.lt a b = true⟩

/-- The operator `<=` on `qreal`. -/
instance qreal.instLE : LE qreal := ⟨fun a b => qreal.le a b = true⟩

/-- The comparison `<` on `qreal` is decidable. -/
instance qreal.decLT (a b : qreal) : Decidable (a < b) :=
  inferInstanceAs (Decidable (qreal.lt a b = true))

/-- The comparison `<=` on `qreal` is decidable. -/
instance qreal.decLE (a b : qreal) : Decidable (a ≤ b) :=
  inferInstanceAs (Decidable (qreal.le a b = true))

/-- Qt's `QTransform::map(const QPointF &)` for an affine transform (the header
is not part of the excerpt; the spec calls `car_space_transform` "a 2D affine
transform").  Qt switches on the type of the transform and evaluates the terms
of that type only: the point itself for the identity, `x + dx` for a
translation, `m11*x + dx` for a scaling, and `m11*x + m21*y + dx` with a rotation
or shear (`y` alike).  On a point with two numbers as coordinates every branch
is `x' = m11*x + m21*y + dx`, `y' = m12*x + m22*y + dy`; the branches differ on
infinities and NaN.  The type is read off the six coefficients (Qt compares
them up to `1e-12`). -/
def QTransform.map (t : QTransform) (p : QPointF) : QPointF :=
  if t.m12 ≠ 0 ∨ t.m21 ≠ 0 then
    ⟨((qreal.mul t.m11 p.x).add (qreal.mul t.m21 p.y)).add (qreal.num t.dx),
     ((qreal.mul t.m12 p.x).add (qreal.mul t.m22 p.y)).add (qreal.num t.dy)⟩
  else if t.m11 ≠ 1 ∨ t.m22 ≠ 1 then
    ⟨(qreal.mul t.m11 p.x).add (qreal.num t.dx), (qreal.mul t.m22 p.y).add (qreal.num t.dy)⟩
  else if t.dx ≠ 0 ∨ t.dy ≠ 0 then
    ⟨p.x.add (qreal.num t.dx), p.y.add (qreal.num t.dy)⟩
  else p

/-- Qt's `QRectF::contains(const QPointF &)`: the rectangle is normalised (a
negative width or height extends to the left or upwards), a rectangle of zero
width or height contains nothing, and the point is rejected when `p.x() < l ||
p.x() > r` or `p.y() < t || p.y() > b`, so the edges belong to the rectangle
(and a NaN coordinate, for which every comparison is false, is not rejected). -/
def QRectF.contains (r : QRectF) (p : QPointF) : Bool :=
  let l := if r.w < 0 then r.xp + r.w else r.xp
  let rr := if r.w < 0 then r.xp else r.xp + r.w
  if l = rr then false
  else if p.x < qreal.num l ∨ p.x > qreal.num rr then false
  else
    let t := if r.h < 0 then r.yp + r.h else r.yp
    let b := if r.h < 0 then r.yp else r.yp + r.h
    if t = b then false
    else if p.y < qreal.num t ∨ p.y > qreal.num b then false
    else true

/-- `std::clamp(v, lo, hi)`: `(v < lo) ? lo : (hi < v) ? hi : v`. -/
def std_clamp (v lo hi : ℚ) : ℚ :=
  if v < lo then lo else if hi < v then hi else v

/-- The position of the leading bit of `n`: the `k` with `2^k ≤ n < 2^(k+1)`,
and 0 for `n ≤ 1`.  The first argument is fuel; `n` itself is enough. -/
def float_round.log2 : Nat → Nat → Nat
  | 0, _ => 0
  | fuel + 1, n => if 2 ≤ n then float_round.log2 fuel (n / 2) + 1 else 0

/-- The exponent of a positive number `a`: the integer `e` with
`2^e ≤ a < 2^(e+1)`, from the leading bits of numerator and denominator. -/
def float_round.exponent (a : ℚ) : Int :=
  let e0 : Int := (float_round.log2 a.num.natAbs a.num.natAbs : Int) -
    (float_round.log2 a.den a.den : Int)
  if (2 : ℚ) ^ e0 ≤ a then e0 else e0 - 1

/-- The conversion of a `double` to `float` (IEEE 754 binary32): the nearest
number with a significand of 24 bits, ties to the even significand.  The
exponent range of `float` (overflow, subnormal numbers) is not modelled. -/
def float_round (q : ℚ) : ℚ :=
  if q = 0 then 0
  else
    let a := |q|
    let ulp : ℚ := (2 : ℚ) ^ (float_round.exponent a - 23)
    let n := a / ulp
    let f : Int := Rat.floor n
    let r := n - f
    let m : Int :=
      if r < 1 / 2 then f else if 1 / 2 < r then f + 1 else if f % 2 = 0 then f else f + 1
    (if q < 0 then -1 else 1) * (m : ℚ) * ulp

/-- The largest value of a C `int` (32 bits). -/
def INT_MAX : Int := 2147483647

/-- The smallest value of a C `int` (32 bits). -/
def INT_MIN : Int := -2147483648

/-- The conversion to `int` of a `double` whose integer part is `q`.  Outside
the range of `int` the conversion is undefined in C++; the value is then the
one that the conversion instruction of x86-64 delivers, `INT_MIN`. -/
def double_to_int (q : Int) : Int :=
  if INT_MIN ≤ q ∧ q ≤ INT_MAX then q else INT_MIN

/-! ## `calib_frame_to_full_frame` (ui.cc, lines 20-35) -/

/-- The `clip_region` of `calib_frame_to_full_frame` (lines 21-22):
`QRectF{-margin, -margin, s->fb_w + 2 * margin, s->fb_h + 2 * margin}` with
`margin = 500`. -/
def calib_frame_to_full_frame.clip_region (s : UIState) : QRectF :=
  let margin : ℚ := 500
  ⟨-margin, -margin, s.fb_w + 2 * margin, s.fb_h + 2 * margin⟩

/-- The vector `KEp` of `calib_frame_to_full_frame` (lines 24-26): the input
point after the calibration and the intrinsic multiplies. -/
def calib_frame_to_full_frame.KEp (md : ModelConstants) (s : UIState) (in_x in_y in_z : ℚ) :
    vec3 :=
  let pt : vec3 := ⟨in_x, in_y, in_z⟩
  let Ep := matvecmul3
    (if s.scene.wide_cam then s.scene.view_from_wide_calib else s.scene.view_from_calib) pt
  matvecmul3
    (if s.scene.wide_cam then md.ECAM_INTRINSIC_MATRIX else md.FCAM_INTRINSIC_MATRIX) Ep

/-- The `point` of `calib_frame_to_full_frame` (line 29):
`s->car_space_transform.map(QPointF{KEp.v[0] / KEp.v[2], KEp.v[1] / KEp.v[2]})`.
The code divides without testing `KEp.v[2]`; at a zero depth the quotients are
infinities or NaN. -/
def calib_frame_to_full_frame.point (md : ModelConstants) (s : UIState) (in_x in_y in_z : ℚ) :
    QPointF :=
  let KEp := calib_frame_to_full_frame.KEp md s in_x in_y in_z
  s.car_space_transform.map ⟨qreal.div KEp.v0 KEp.v2, qreal.div KEp.v1 KEp.v2⟩

/-- `static bool calib_frame_to_full_frame(const UIState *s, float in_x, float in_y,
float in_z, QPointF *out)`.  The argument `out` is the old content of `*out`; the
result is the returned flag and the new content of `*out`. -/
def calib_frame_to_full_frame (md : ModelConstants) (s : UIState) (in_x in_y in_z : ℚ)
    (out : QPointF) : Bool × QPointF :=
  let point := calib_frame_to_full_frame.point md s in_x in_y in_z
  if (calib_frame_to_full_frame.clip_region s).contains point then (true, point)
  else (false, out)

/-! ## `update_line_data` (ui.cc, lines 56-79) -/

/-- Line 67: `QPointF left; bool l = calib_frame_to_full_frame(s, line_x[i],
line_y[i] - y_off, line_z[i] + z_off, &left);` — the flag `l` and the content of
`left` after the call (`left` is default-constructed, the point `(0, 0)`).
`none`: a read past the end of a list. -/
def update_line_data.left (md : ModelConstants) (s : UIState) (line : XYZTData)
    (y_off z_off : ℚ) (i : Nat) : Option (Bool × QPointF) :=
  match line.x[i]?, line.y[i]?, line.z[i]? with
  | some x, some y, some z =>
    some (calib_frame_to_full_frame md s x (y - y_off) (z + z_off) QPointF.null)
  | _, _, _ => none

/-- Line 68: `QPointF right; bool r = calib_frame_to_full_frame(s, line_x[i],
line_y[i] + y_off, line_z[i] + z_off, &right);`. -/
def update_line_data.right (md : ModelConstants) (s : UIState) (line : XYZTData)
    (y_off z_off : ℚ) (i : Nat) : Option (Bool × QPointF) :=
  match line.x[i]?, line.y[i]?, line.z[i]? with
  | some x, some y, some z =>
    some (calib_frame_to_full_frame md s x (y + y_off) (z + z_off) QPointF.null)
  | _, _, _ => none

/-- The body of the `for` loop of `update_line_data` (lines 64-76) for the index
`i`, on the state `st = (left_points, right_points)`.  A `continue` returns the
state unchanged; `none` is a read past the end of a list. -/
def update_line_data.body (md : ModelConstants) (s : UIState) (line : XYZTData)
    (y_off z_off : ℚ) (allow_invert : Bool) (st : List QPointF × List QPointF) (i : Nat) :
    Option (List QPointF × List QPointF) :=
  match line.x[i]? with
  | none => none
  | some xi =>
    if xi < 0 then some st
    else
      match update_line_data.left md s line y_off z_off i,
          update_line_data.right md s line y_off z_off i with
      | some (l, left), some (r, right) =>
        if l = true ∧ r = true then
          if allow_invert = false ∧ st.1.length ≠ 0 ∧
              left.y > (st.1.getLastD QPointF.null).y then
            some st
          else some (st.1 ++ [left], right :: st.2)
        else some st
      | _, _ => none

/-- The loop `for (int i = 0; i <= max_idx; i++)` of `update_line_data`, started
with empty `left_points` and `right_points`; the result is the pair
`(left_points, right_points)` after the loop. -/
def update_line_data.loop (md : ModelConstants) (s : UIState) (line : XYZTData)
    (y_off z_off : ℚ) (max_idx : Int) (allow_invert : Bool) :
    Option (List QPointF × List QPointF) :=
  (List.range (max_idx + 1).toNat).foldlM
    (update_line_data.body md s line y_off z_off allow_invert) ([], [])

/-- `void update_line_data(const UIState *s, const cereal::XYZTData::Reader &line,
float y_off, float z_off, QPolygonF *pvd, int max_idx, bool allow_invert=true)`:
the result is the polygon written to `*pvd`, `left_points + right_points`. -/
def update_line_data (md : ModelConstants) (s : UIState) (line : XYZTData)
    (y_off z_off : ℚ) (max_idx : Int) (allow_invert : Bool) : Option (List QPointF) :=
  (update_line_data.loop md s line y_off z_off max_idx allow_invert).map
    (fun st => st.1 ++ st.2)

/-! ## `update_model` (ui.cc, lines 81-117) -/

/-- Lines 89-90: `std::clamp(plan_position.getX()[TRAJECTORY_SIZE - 1],
MIN_DRAW_DISTANCE, MAX_DRAW_DISTANCE)`, the draw distance before the lead is
considered. -/
def update_model.max_distance (md : ModelConstants) (plan_position : XYZTData) : Option ℚ :=
  match plan_position.x[TRAJECTORY_SIZE - 1]? with
  | none => none
  | some x_last => some (std_clamp x_last md.MIN_DRAW_DISTANCE md.MAX_DRAW_DISTANCE)

/-- Lines 110-114: the draw distance of the path,
`if (lead_one.getStatus()) { const float lead_d = lead_one.getDRel() * 2.;
max_distance = std::clamp((float)(lead_d - fmin(lead_d * 0.35, 10.)), 0.0f, max_distance); }`.
The `double` product `dRel * 2.` is rounded to the `float` `lead_d`, and the cast
`(float)` rounds the `double` difference; the `double` operations themselves
are exact in the model. -/
def update_model.path_distance (lead_one : LeadData) (max_distance : ℚ) : ℚ :=
  if lead_one.status = true then
    let lead_d := float_round (lead_one.dRel * 2)
    std_clamp (float_round (lead_d - min (lead_d * 0.35) 10)) 0 max_distance
  else max_distance

/-- Lines 97-98, the body of the lane-line loop for the index `i`:
`scene.lane_line_probs[i] = lane_line_probs[i]; update_line_data(s, lane_lines[i],
0.025 * scene.lane_line_probs[i], 0, &scene.lane_line_vertices[i], max_idx);`. -/
def update_model.lane_line_step (md : ModelConstants) (model : ModelDataV2) (max_idx : Int)
    (s : UIState) (i : Nat) : Option UIState :=
  match model.laneLineProbs[i]?, model.laneLines[i]? with
  | some prob, some line =>
    let s1 : UIState :=
      { s with scene := { s.scene with lane_line_probs := s.scene.lane_line_probs.set i prob } }
    match s1.scene.lane_line_probs[i]? with
    | none => none
    | some p =>
      match update_line_data md s1 line (0.025 * p) 0 max_idx true with
      | none => none
      | some pvd =>
        some { s1 with
          scene := { s1.scene with
            lane_line_vertices := s1.scene.lane_line_vertices.set i pvd } }
  | _, _ => none

/-- Lines 105-106, the body of the road-edge loop for the index `i`:
`scene.road_edge_stds[i] = road_edge_stds[i]; update_line_data(s, road_edges[i],
0.025, 0, &scene.road_edge_vertices[i], max_idx);`. -/
def update_model.road_edge_step (md : ModelConstants) (model : ModelDataV2) (max_idx : Int)
    (s : UIState) (i : Nat) : Option UIState :=
  match model.roadEdgeStds[i]?, model.roadEdges[i]? with
  | some std, some line =>
    let s1 : UIState :=
      { s with scene := { s.scene with road_edge_stds := s.scene.road_edge_stds.set i std } }
    match update_line_data md s1 line 0.025 0 max_idx true with
    | none => none
    | some pvd =>
      some { s1 with
        scene := { s1.scene with
          road_edge_vertices := s1.scene.road_edge_vertices.set i pvd } }
  | _, _ => none

/-- `void update_model(UIState *s, const cereal::ModelDataV2::Reader &model,
const cereal::UiPlan::Reader &plan)`; the result is the state after the call.
The two loops run over `std::size(scene.lane_line_vertices)` and
`std::size(scene.road_edge_vertices)`, the lengths of the two arrays. -/
def update_model (md : ModelConstants) (s : UIState) (model : ModelDataV2) (plan : UiPlan) :
    Option UIState :=
  let plan_position :=
    if plan.position.x.length < TRAJECTORY_SIZE then model.position else plan.position
  match update_model.max_distance md plan_position with
  | none => none
  | some max_distance =>
    match model.laneLines[0]? with
    | none => none
    | some line0 =>
      match get_path_length_idx line0 max_distance with
      | none => none
      | some max_idx =>
        match (List.range s.scene.lane_line_vertices.length).foldlM
            (update_model.lane_line_step md model max_idx) s with
        | none => none
        | some s1 =>
          match (List.range s1.scene.road_edge_vertices.length).foldlM
              (update_model.road_edge_step md model max_idx) s1 with
          | none => none
          | some s2 =>
            let lead_one := s2.sm.radarState.leadOne
            let max_distance2 := update_model.path_distance lead_one max_distance
            match get_path_length_idx plan_position max_distance2 with
            | none => none
            | some max_idx2 =>
              match update_line_data md s2 plan_position 0.9 1.22 max_idx2 false with
              | none => none
              | some pvd => some { s2 with scene := { s2.scene with track_vertices := pvd } }

/-! ## `update_leads` (ui.cc, lines 46-54) -/

/-- The body of the loop of `update_leads` for the index `i` (lines 48-52).  The
output parameter of the projection is `&s->scene.lead_vertices[i]`. -/
def update_leads.body (md : ModelConstants) (radar_state : RadarState) (line : XYZTData)
    (s : UIState) (i : Nat) : Option UIState :=
  let lead_data := if i = 0 then radar_state.leadOne else radar_state.leadTwo
  if lead_data.status = true then
    match get_path_length_idx line lead_data.dRel with
    | none => none
    | some idx =>
      match line.z[idx]?, s.scene.lead_vertices[i]? with
      | some z, some out =>
        let out' :=
          (calib_frame_to_full_frame md s lead_data.dRel (-lead_data.yRel) (z + 1.22) out).2
        some { s with
          scene := { s.scene with lead_vertices := s.scene.lead_vertices.set i out' } }
      | _, _ => none
  else some s

/-- `void update_leads(UIState *s, const cereal::RadarState::Reader &radar_state,
const cereal::XYZTData::Reader &line)`: the loop `for (int i = 0; i < 2; ++i)`. -/
def update_leads (md : ModelConstants) (s : UIState) (radar_state : RadarState)
    (line : XYZTData) : Option UIState :=
  (List.range 2).foldlM (update_leads.body md radar_state line) s

/-! ## `update_dmonitoring` (ui.cc, lines 119-150) -/

/-- `default_face_kpts_3d` of ui.h (lines 28-36). -/
def default_face_kpts_3d : List vec3 :=
  [⟨-5.98, -51.20, 8.00⟩, ⟨-17.64, -49.14, 8.00⟩, ⟨-23.81, -46.40, 8.00⟩, ⟨-29.98, -40.91, 8.00⟩,
   ⟨-32.04, -37.49, 8.00⟩, ⟨-34.10, -32.00, 8.00⟩, ⟨-36.16, -21.03, 8.00⟩, ⟨-36.16, 6.40, 8.00⟩,
   ⟨-35.47, 10.51, 8.00⟩, ⟨-32.73, 19.43, 8.00⟩, ⟨-29.30, 26.29, 8.00⟩, ⟨-24.50, 33.83, 8.00⟩,
   ⟨-19.01, 41.37, 8.00⟩, ⟨-14.21, 46.17, 8.00⟩, ⟨-12.16, 47.54, 8.00⟩, ⟨-4.61, 49.60, 8.00⟩,
   ⟨4.99, 49.60, 8.00⟩, ⟨12.53, 47.54, 8.00⟩, ⟨14.59, 46.17, 8.00⟩, ⟨19.39, 41.37, 8.00⟩,
   ⟨24.87, 33.83, 8.00⟩, ⟨29.67, 26.29, 8.00⟩, ⟨33.10, 19.43, 8.00⟩, ⟨35.84, 10.51, 8.00⟩,
   ⟨36.53, 6.40, 8.00⟩, ⟨36.53, -21.03, 8.00⟩, ⟨34.47, -32.00, 8.00⟩, ⟨32.42, -37.49, 8.00⟩,
   ⟨30.36, -40.91, 8.00⟩, ⟨24.19, -46.40, 8.00⟩, ⟨18.02, -49.14, 8.00⟩, ⟨6.36, -51.20, 8.00⟩,
   ⟨-5.98, -51.20, 8.00⟩]

/-- The body of the first loop of `update_dmonitoring` for the axis `i`
(lines 123-127).  `sinf` and `cosf` are the functions of the C library, which
are parameters of the embedding. -/
def update_dmonitoring.axis (sinf cosf : ℚ → ℚ) (driver_orient : List ℚ) (dm_fade_state : ℚ)
    (scene : UIScene) (i : Fin 3) : Option UIScene :=
  match driver_orient[i.val]? with
  | none => none
  | some r =>
    let v_this := (if i.val = 0 then (if r < 0 then 0.7 else 0.9) else 0.4) * r
    let diff := Function.update scene.driver_pose_diff i |scene.driver_pose_vals i - v_this|
    let vals := Function.update scene.driver_pose_vals i
      (0.8 * v_this + (1 - 0.8) * scene.driver_pose_vals i)
    let sins := Function.update scene.driver_pose_sins i (sinf (vals i * (1 - dm_fade_state)))
    let coss := Function.update scene.driver_pose_coss i (cosf (vals i * (1 - dm_fade_state)))
    some { scene with
      driver_pose_diff := diff, driver_pose_vals := vals,
      driver_pose_sins := sins, driver_pose_coss := coss }

/-- The matrix `r_xyz` of `update_dmonitoring` (lines 130-142), from the sine
and cosine caches. -/
def update_dmonitoring.r_xyz (sins coss : Fin 3 → ℚ) : mat3 :=
  ⟨coss 1 * coss 2,
   coss 1 * sins 2,
   -sins 1,
   -sins 0 * sins 1 * coss 2 - coss 0 * sins 2,
   -sins 0 * sins 1 * sins 2 + coss 0 * coss 2,
   -sins 0 * coss 1,
   coss 0 * sins 1 * coss 2 - sins 0 * sins 2,
   coss 0 * sins 1 * sins 2 + sins 0 * coss 2,
   coss 0 * coss 1⟩

/-- The body of the second loop of `update_dmonitoring` (lines 146-148): the
drawn keypoint for the template keypoint `kpt`. -/
def update_dmonitoring.draw (r_xyz : mat3) (dm_fade_state : ℚ) (kpt : vec3) : vec3 :=
  let kpt_this := matvecmul3 r_xyz kpt
  ⟨kpt_this.v0, kpt_this.v1, kpt_this.v2 * (1 - dm_fade_state) + 8 * dm_fade_state⟩

/-- `void update_dmonitoring(UIState *s, const cereal::DriverStateV2::Reader
&driverstate, float dm_fade_state, bool is_rhd)`.  The first loop runs over the
three axes; the second loop writes every element of `face_kpts_draw`, whose
size is that of `default_face_kpts_3d`. -/
def update_dmonitoring (sinf cosf : ℚ → ℚ) (s : UIState) (driverstate : DriverStateV2)
    (dm_fade_state : ℚ) (is_rhd : Bool) : Option UIState :=
  let driver_orient :=
    if is_rhd then driverstate.rightDriverData.faceOrientation
    else driverstate.leftDriverData.faceOrientation
  match (List.finRange 3).foldlM
      (update_dmonitoring.axis sinf cosf driver_orient dm_fade_state) s.scene with
  | none => none
  | some scene =>
    let r_xyz := update_dmonitoring.r_xyz scene.driver_pose_sins scene.driver_pose_coss
    some { s with
      scene := { scene with
        face_kpts_draw := default_face_kpts_3d.map (update_dmonitoring.draw r_xyz dm_fade_state) } }

/-! ## `Alert` (ui.h, lines 38-90) -/

/-- `UI_FREQ` of ui.h, in Hz. -/
def UI_FREQ : Nat := 20

/-- `bool Alert::equal(const Alert &a2)`. -/
def Alert.equal (a a2 : Alert) : Bool :=
  decide (a.text1 = a2.text1 ∧ a.text2 = a2.text2 ∧ a.type = a2.type ∧ a.sound = a2.sound)

/-- The value-initialised alert `Alert alert = {}`: empty strings and the first
enumerator of every enum. -/
def Alert.empty : Alert :=
  ⟨"", "", "", AlertSize.NONE, AlertStatus.NORMAL, AudibleAlert.NONE⟩

/-- `static Alert Alert::get(const SubMaster &sm, uint64_t started_frame)`.
The value of `nanos_since_boot()` and of `Hardware::PC()` are arguments.  The
`uint64_t` subtractions wrap modulo `2^64`; `controls_missing` is the staleness
in nanoseconds divided by `1e9` (a `double`) and converted to `int`: the integer
quotient, as long as it fits an `int` (a staleness below `2^31` seconds). -/
def Alert.get (sm : SubMaster) (started_frame : Nat) (nanos_since_boot : Nat) (is_pc : Bool) :
    Alert :=
  let cs := sm.controlsState.msg
  let controls_frame := sm.controlsState.rcv_frame
  let alert : Alert :=
    if controls_frame ≥ started_frame then
      ⟨cs.alertText1, cs.alertText2, cs.alertType, cs.alertSize, cs.alertStatus, cs.alertSound⟩
    else Alert.empty
  if sm.controlsState.updated = false ∧
      ((sm.frame : Int) - (started_frame : Int)) % 2 ^ 64 > 5 * (UI_FREQ : Int) then
    let CONTROLS_TIMEOUT : Int := 5
    let controls_missing : Int :=
      double_to_int
        ((((nanos_since_boot : Int) - (sm.controlsState.rcv_time : Int)) % 2 ^ 64) / 10 ^ 9)
    if controls_frame < started_frame then
      ⟨"openpilot Unavailable", "Waiting for controls to start", "controlsWaiting",
        AlertSize.MID, AlertStatus.NORMAL, AudibleAlert.NONE⟩
    else if controls_missing > CONTROLS_TIMEOUT ∧ is_pc = false then
      if cs.enabled = true ∧ controls_missing - CONTROLS_TIMEOUT < 10 then
        ⟨"TAKE CONTROL IMMEDIATELY", "Controls Unresponsive", "controlsUnresponsive",
          AlertSize.FULL, AlertStatus.CRITICAL, AudibleAlert.WARNING_IMMEDIATE⟩
      else
        ⟨"Controls Unresponsive", "Reboot Device", "controlsUnresponsivePermanent",
          AlertSize.MID, AlertStatus.NORMAL, AudibleAlert.NONE⟩
    else alert
  else alert

/-! ## `Sound::setAlert` (sound.cc, lines 58-76) -/

/-- Modelled from the spec: Qt's `QSoundEffect`, which is not part of the
excerpt, reduced to its loop counters: the configured loop count and the
number of loops remaining (0 when the effect is not playing,
`QSoundEffect::Infinite` for an endless loop). -/
structure QSoundEffect where
  loopCount : Int
  loopsRemaining : Int
deriving DecidableEq

/-- `QSoundEffect::Infinite` of Qt. -/
def QSoundEffect.Infinite : Int := -2

/-- Modelled from the spec: `QSoundEffect::stop()`; a stopped effect has no loop
remaining. -/
def QSoundEffect.stop (e : QSoundEffect) : QSoundEffect :=
  { e with loopsRemaining := 0 }

/-- Modelled from the spec: `QSoundEffect::setLoopCount(int)`. -/
def QSoundEffect.setLoopCount (e : QSoundEffect) (loops : Int) : QSoundEffect :=
  { e with loopCount := loops }

/-- Modelled from the spec: `QSoundEffect::play()`; the effect starts "with its
configured loop count". -/
def QSoundEffect.play (e : QSoundEffect) : QSoundEffect :=
  { e with loopsRemaining := e.loopCount }

/-- The members of `Sound` (declared in sound.h, which is not part of the
excerpt) that sound.cc uses: `current_alert`, the subscriber `sm`, and the map
`sounds` from an `AudibleAlert` to its pair (effect, configured loop count); a
key that the map does not hold gives `none`. -/
structure Sound where
  sm : SubMaster
  current_alert : Alert
  sounds : AudibleAlert → Option (QSoundEffect × Int)

/-- `void Sound::setAlert(const Alert &alert)`.  `none`: `sounds[alert.sound]`
names a sound that the map does not hold (in C++ a null effect is
dereferenced). -/
def Sound.setAlert (snd : Sound) (alert : Alert) : Option Sound :=
  if snd.current_alert.equal alert = false then
    let stopped : AudibleAlert → Option (QSoundEffect × Int) := fun k =>
      match snd.sounds k with
      | none => none
      | some (s, loops) =>
        if s.loopsRemaining > 1 ∨ s.loopsRemaining = QSoundEffect.Infinite then
          some (s.stop, loops)
        else some (s, loops)
    if alert.sound ≠ AudibleAlert.NONE then
      match stopped alert.sound with
      | none => none
      | some (s, loops) =>
        some { snd with
          current_alert := alert
          sounds := Function.update stopped alert.sound
            (some ((s.setLoopCount loops).play, loops)) }
    else some { snd with current_alert := alert, sounds := stopped }
  else some snd

/-! ## `Sound::update` (sound.cc, lines 36-56) -/

/-- `void Sound::update()`.  The argument `sm'` is the state of the subscriber
after `sm.update(0)`, which polls the message bus; `nanos_since_boot` and
`is_pc` are passed on to `Alert::get`.  The volume set through
`Hardware::set_volume` (lines 40-53) is an effect on the audio device, outside
the state. -/
def Sound.update (snd : Sound) (sm' : SubMaster) (nanos_since_boot : Nat) (is_pc : Bool) :
    Option Sound :=
  Sound.setAlert { snd with sm := sm' } (Alert.get sm' 0 nanos_since_boot is_pc)

/-! ## `Device` (ui.h, lines 410-442; ui.cc, lines 562-588 and 649-660) -/

/-- The members of `Device` that the wakefulness code reads or writes.  The
signals it emits and the display power it sets are effects outside the
state. -/
structure Device where
  awake : Bool
  interactive_timeout : Int
  ignition_on : Bool
deriving DecidableEq

/-- `void Device::setAwake(bool on)`. -/
def Device.setAwake (d : Device) (on_ : Bool) : Device :=
  if on_ ≠ d.awake then { d with awake := on_ } else d

/-- `void Device::resetInteractiveTimeout(int timeout)`.  `none`: the product
`timeout * UI_FREQ` overflows `int`, which is undefined in C++. -/
def Device.resetInteractiveTimeout (d : Device) (timeout : Int) : Option Device :=
  let timeout1 : Int := if timeout = -1 then (if d.ignition_on = true then 10 else 30) else timeout
  if INT_MIN ≤ timeout1 * UI_FREQ ∧ timeout1 * UI_FREQ ≤ INT_MAX then
    some { d with interactive_timeout := timeout1 * UI_FREQ }
  else none

/-- `void Device::updateWakefulness(const UIState &s)`.  The call
`resetInteractiveTimeout()` takes the default argument `-1`; the branch
`interactive_timeout > 0 && --interactive_timeout == 0` decrements the
countdown when it is positive (and emits `interactiveTimeout` at zero). -/
def Device.updateWakefulness (d : Device) (s : UIState) : Option Device :=
  let ignition_just_turned_off := !s.scene.ignition && d.ignition_on
  let d1 : Device := { d with ignition_on := s.scene.ignition }
  let d2 : Option Device :=
    if ignition_just_turned_off = true then d1.resetInteractiveTimeout (-1)
    else if d1.interactive_timeout > 0 then
      some { d1 with interactive_timeout := d1.interactive_timeout - 1 }
    else some d1
  match d2 with
  | none => none
  | some d3 => some (d3.setAwake (s.scene.ignition || decide (d3.interactive_timeout > 0)))

/-- The constructor `Device::Device` (lines 562-567), from the member
initialisers of ui.h: `setAwake(true); resetInteractiveTimeout();`. -/
def Device.construct : Option Device :=
  let d0 : Device := { awake := false, interactive_timeout := 0, ignition_on := false }
  (d0.setAwake true).resetInteractiveTimeout (-1)

/-- What is done to a `Device` after its construction: an `updateWakefulness`
tick with a UI state, or a call of `resetInteractiveTimeout`. -/
inductive Device.Event where
  | tick (s : UIState)
  | reset (timeout : Int)

/-- The state of a `Device` after a sequence of events. -/
def Device.run : List Device.Event → Device → Option Device
  | [], d => some d
  | Device.Event.tick s :: es, d =>
    match d.updateWakefulness s with
    | none => none
    | some d1 => Device.run es d1
  | Device.Event.reset timeout :: es, d =>
    match d.resetInteractiveTimeout timeout with
    | none => none
    | some d1 => Device.run es d1

/-- The timeout of a `reset` event is `-1`, or non-negative with a product
`timeout * UI_FREQ` that fits an `int`. -/
def Device.Event.timeout_ok : Device.Event → Bool
  | Device.Event.tick _ => true
  | Device.Event.reset timeout =>
    decide (timeout = -1 ∨ (0 ≤ timeout ∧ timeout * UI_FREQ ≤ INT_MAX))

/-! ## Auxiliary notions for the statements on `update_line_data` -/

/-- The loop body reads sample `i` inside the lists: `line_x[i]` exists and,
unless the sample is skipped for its negative forward distance, `line_y[i]` and
`line_z[i]` exist. -/
def update_line_data.sample_ok (line : XYZTData) (i : Nat) : Bool :=
  match line.x[i]? with
  | none => false
  | some xi => decide (xi < 0) || ((line.y[i]?).isSome && (line.z[i]?).isSome)

/-- The loop reads every sample `0..max_idx` inside the lists. -/
def update_line_data.input_ok (line : XYZTData) (max_idx : Int) : Bool :=
  (List.range (max_idx + 1).toNat).all (update_line_data.sample_ok line)

/-- The two vertices of a candidate sample: sample `i` passes the distance test
(`line_x[i] < 0` is false) and the visibility test (`l && r`), and `(left, right)`
are its two projections. -/
def update_line_data.candidate (md : ModelConstants) (s : UIState) (line : XYZTData)
    (y_off z_off : ℚ) (i : Nat) : Option (QPointF × QPointF) :=
  match line.x[i]?, update_line_data.left md s line y_off z_off i,
      update_line_data.right md s line y_off z_off i with
  | some xi, some (true, left), some (true, right) =>
    if xi < 0 then none else some (left, right)
  | _, _, _ => none

/-! ## Auxiliary notions for the statements on `update_model` -/

/-- The three coordinate lists of a line hold `TRAJECTORY_SIZE` samples or
more. -/
def XYZTData.full (line : XYZTData) : Bool :=
  decide (TRAJECTORY_SIZE ≤ line.x.length ∧ TRAJECTORY_SIZE ≤ line.y.length ∧
    TRAJECTORY_SIZE ≤ line.z.length)

/-- The lists that stand for the arrays `lane_line_probs[4]`, `road_edge_stds[2]`,
`lane_line_vertices[4]` and `road_edge_vertices[2]` of the scene have the sizes
that ui.h declares. -/
def UIScene.sized (scene : UIScene) : Bool :=
  decide (scene.lane_line_probs.length = 4 ∧ scene.road_edge_stds.length = 2 ∧
    scene.lane_line_vertices.length = 4 ∧ scene.road_edge_vertices.length = 2)

/-- `update_model` reads inside the lists of its two messages: the position that
it draws holds `TRAJECTORY_SIZE` samples, and the model carries four lane lines
with their probabilities and two road edges with their deviations, every one
of these lines with `TRAJECTORY_SIZE` samples. -/
def update_model.input_ok (model : ModelDataV2) (plan : UiPlan) : Bool :=
  (if plan.position.x.length < TRAJECTORY_SIZE then model.position else plan.position).full &&
    decide (4 ≤ model.laneLines.length ∧ 4 ≤ model.laneLineProbs.length ∧
      2 ≤ model.roadEdges.length ∧ 2 ≤ model.roadEdgeStds.length) &&
    (model.laneLines.take 4).all XYZTData.full &&
    (model.roadEdges.take 2).all XYZTData.full

/-! ## Auxiliary notions for the statements on `update_leads` -/

/-- The lead record `lead` is processed inside the lists: when its status is
true, `get_path_length_idx` reads `line_x` in bounds and returns an index, and
`line_z` is read in bounds at that index. -/
def update_leads.lead_ok (line : XYZTData) (lead : LeadData) : Bool :=
  if lead.status = true then
    match get_path_length_idx line lead.dRel with
    | none => false
    | some idx => (line.z[idx]?).isSome
  else true

/-! ## Auxiliary notions for the statements on `update_dmonitoring` -/

/-- The gain of the driver-pose filter: 0.7 on axis 0 for a negative raw angle,
0.9 on axis 0 otherwise, 0.4 on the axes 1 and 2. -/
def driver_pose_gain (i : Fin 3) (r : ℚ) : ℚ :=
  if i = 0 then (if r < 0 then 0.7 else 0.9) else 0.4

/-- Successive ticks of `update_dmonitoring` with the same driver state, one
tick for each fade state of the list. -/
def update_dmonitoring.run (sinf cosf : ℚ → ℚ) (driverstate : DriverStateV2) (is_rhd : Bool) :
    List ℚ → UIState → Option UIState
  | [], s => some s
  | fade :: fades, s =>
    match update_dmonitoring sinf cosf s driverstate fade is_rhd with
    | none => none
    | some s1 => update_dmonitoring.run sinf cosf driverstate is_rhd fades s1

/-- The identity matrix. -/
def mat3_identity : mat3 := ⟨1, 0, 0, 0, 1, 0, 0, 0, 1⟩

/-- The transpose of a row-major 3×3 matrix. -/
def mat3_transpose (a : mat3) : mat3 :=
  ⟨a.v0, a.v3, a.v6, a.v1, a.v4, a.v7, a.v2, a.v5, a.v8⟩

/-- The product of two row-major 3×3 matrices. -/
def mat3_mul (a b : mat3) : mat3 :=
  ⟨a.v0 * b.v0 + a.v1 * b.v3 + a.v2 * b.v6,
   a.v0 * b.v1 + a.v1 * b.v4 + a.v2 * b.v7,
   a.v0 * b.v2 + a.v1 * b.v5 + a.v2 * b.v8,
   a.v3 * b.v0 + a.v4 * b.v3 + a.v5 * b.v6,
   a.v3 * b.v1 + a.v4 * b.v4 + a.v5 * b.v7,
   a.v3 * b.v2 + a.v4 * b.v5 + a.v5 * b.v8,
   a.v6 * b.v0 + a.v7 * b.v3 + a.v8 * b.v6,
   a.v6 * b.v1 + a.v7 * b.v4 + a.v8 * b.v7,
   a.v6 * b.v2 + a.v7 * b.v5 + a.v8 * b.v8⟩

/-- The squared Euclidean norm `x^2 + y^2 + z^2` of a vector. -/
def vec3_norm_sq (a : vec3) : ℚ := a.v0 ^ 2 + a.v1 ^ 2 + a.v2 ^ 2

/-! ## Concrete inputs used by the witnesses and counterexamples -/

/-- The trajectory `x = 0, 10, ..., 320` (33 samples, step 10), on the centre
line (`y = 0`) and at camera height (`z = 0`). -/
def traj_step10 : XYZTData :=
  { x := [0, 10, 20, 30, 40, 50, 60, 70, 80, 90, 100, 110, 120, 130, 140, 150, 160,
          170, 180, 190, 200, 210, 220, 230, 240, 250, 260, 270, 280, 290, 300, 310, 320]
    y := List.replicate 33 0
    z := List.replicate 33 0 }

/-- A trajectory whose forward distance is not sorted: `0, 5, 100, 3, 3, ..., 3`
(33 samples). -/
def traj_unsorted : XYZTData :=
  { x := [0, 5, 100] ++ List.replicate 30 3
    y := List.replicate 33 0
    z := List.replicate 33 0 }

/-- A sorted trajectory that starts beyond the target: `10, 20, ..., 330`
(33 samples). -/
def traj_from10 : XYZTData :=
  { x := [10, 20, 30, 40, 50, 60, 70, 80, 90, 100, 110, 120, 130, 140, 150, 160, 170,
          180, 190, 200, 210, 220, 230, 240, 250, 260, 270, 280, 290, 300, 310, 320, 330]
    y := List.replicate 33 0
    z := List.replicate 33 0 }

/-- The values of the constants of `common/modeldata.h` used in the examples:
the two intrinsic matrices (focal lengths 2648 and 567, principal point
`(964, 604)`) and the draw distances 10 and 100. -/
def md_example : ModelConstants :=
  { FCAM_INTRINSIC_MATRIX := ⟨2648, 0, 964, 0, 2648, 604, 0, 0, 1⟩
    ECAM_INTRINSIC_MATRIX := ⟨567, 0, 964, 0, 567, 604, 0, 0, 1⟩
    MIN_DRAW_DISTANCE := 10
    MAX_DRAW_DISTANCE := 100 }

/-- A lead vehicle record with `status = false`. -/
def lead_none : LeadData := { status := false, dRel := 0, yRel := 0 }

/-- The default (empty) `controlsState` message: empty texts, the first
enumerator of every enum, `enabled = false`. -/
def controls_state_default : ControlsState :=
  { alertText1 := "", alertText2 := "", alertType := "", alertSize := AlertSize.NONE,
    alertStatus := AlertStatus.NORMAL, alertSound := AudibleAlert.NONE, enabled := false }

/-- A `SubMaster` on which nothing has been received yet. -/
def sm_example : SubMaster :=
  { frame := 0
    controlsState := { updated := false, rcv_frame := 0, rcv_time := 0,
                       msg := controls_state_default }
    radarState := { leadOne := lead_none, leadTwo := lead_none } }

/-- A freshly constructed scene: the field defaults of `UIScene` (ui.h), the
arrays zeroed and the polygons empty. -/
def scene_example : UIScene :=
  { wide_cam := true
    view_from_calib := DEFAULT_CALIBRATION
    view_from_wide_calib := DEFAULT_CALIBRATION
    lane_line_probs := [0, 0, 0, 0]
    road_edge_stds := [0, 0]
    track_vertices := []
    lane_line_vertices := [[], [], [], []]
    road_edge_vertices := [[], []]
    lead_vertices := [QPointF.null, QPointF.null]
    driver_pose_vals := fun _ => 0
    driver_pose_diff := fun _ => 0
    driver_pose_sins := fun _ => 0
    driver_pose_coss := fun _ => 0
    face_kpts_draw := List.replicate 33 ⟨0, 0, 0⟩
    ignition := false }

/-- A UI state with a 2160×1080 frame buffer, the default calibration, the
identity screen transform and no lead vehicle. -/
def ui_example : UIState :=
  { fb_w := 2160
    fb_h := 1080
    sm := sm_example
    scene := scene_example
    car_space_transform := ⟨1, 0, 0, 1, 0, 0⟩ }

/-- A flat road: three samples at 10, 20 and 40 metres on the centre line. -/
def line_flat : XYZTData := { x := [10, 20, 40], y := [0, 0, 0], z := [0, 0, 0] }

/-- A road whose second sample lies 3 metres lower than the first, so that its
projection falls below (greater screen-Y than) the projection of the first. -/
def line_dip : XYZTData := { x := [10, 20, 40], y := [0, 0, 0], z := [0, 3, 0] }

/-- A line that starts in the camera plane: forward distances `0, 10, 20, 40`
on the centre line.  Its first sample has the depth zero. -/
def line_from_zero : XYZTData :=
  { x := [0, 10, 20, 40], y := [0, 0, 0, 0], z := [0, 0, 0, 0] }

/-- A line through the optical centre of the camera: the samples `(10, 0, 1)`,
`(0, 0, 0)` and `(10, 0, 3)`.  The second sample projects to `(0/0, 0/0)`. -/
def line_nan : XYZTData := { x := [10, 0, 10], y := [0, 0, 0], z := [1, 0, 3] }

/-- A model output whose four lane lines, two road edges and position are the
trajectory `10, 20, ..., 330`, with lane-line probabilities `1, 1, 0, 0`. -/
def model_example : ModelDataV2 :=
  { position := traj_from10
    laneLines := [traj_from10, traj_from10, traj_from10, traj_from10]
    laneLineProbs := [1, 1, 0, 0]
    roadEdges := [traj_from10, traj_from10]
    roadEdgeStds := [1, 1] }

/-- A plan with a full-length position, the trajectory `10, 20, ..., 330`. -/
def plan_example : UiPlan := { position := traj_from10 }

/-- The example UI state with lead one tracked at the relative distance `d`. -/
def ui_with_lead (d : ℚ) : UIState :=
  { ui_example with
    sm := { sm_example with
      radarState := { leadOne := { status := true, dRel := d, yRel := 0 },
                      leadTwo := lead_none } } }

/-- A radar state with lead one tracked 20 metres ahead and 10 metres to the
side (visible), and lead two tracked 1 metre ahead and 100 metres to the side
(outside the clip region). -/
def radar_example : RadarState :=
  { leadOne := { status := true, dRel := 20, yRel := 10 }
    leadTwo := { status := true, dRel := 1, yRel := 100 } }

/-- A rational stand-in for `sinf` in the examples: the Taylor polynomial
`x - x^3/6`. -/
def sin_example (x : ℚ) : ℚ := x - x ^ 3 / 6

/-- A rational stand-in for `cosf` in the examples: the Taylor polynomial
`1 - x^2/2`. -/
def cos_example (x : ℚ) : ℚ := 1 - x ^ 2 / 2

/-- A driver state whose left face orientation is `(-1/2, 1, 1/4)` and whose
right face orientation is `(0, 0, 0)`. -/
def driver_state_example : DriverStateV2 :=
  { leftDriverData := { faceOrientation := [-1/2, 1, 1/4] }
    rightDriverData := { faceOrientation := [0, 0, 0] } }

/-- Sine caches with `sin^2 + cos^2 = 1` on every axis, together with
`coss_example`. -/
def sins_example : Fin 3 → ℚ := fun i => if i = 0 then 3/5 else if i = 1 then 0 else 5/13

/-- Cosine caches with `sin^2 + cos^2 = 1` on every axis, together with
`sins_example`. -/
def coss_example : Fin 3 → ℚ := fun i => if i = 0 then 4/5 else if i = 1 then 1 else 12/13

/-- A `controlsState` message that carries an engagement alert, with the
system enabled. -/
def controls_state_example : ControlsState :=
  { alertText1 := "Be ready to take over at any time"
    alertText2 := "Always keep hands on wheel and eyes on road"
    alertType := "startup/permanent"
    alertSize := AlertSize.MID
    alertStatus := AlertStatus.NORMAL
    alertSound := AudibleAlert.NONE
    enabled := true }

/-- A `SubMaster` at frame 500 whose last `controlsState` message came at
frame 10 and at the time `rcv_time` (nanoseconds), and was not updated in this
tick. -/
def sm_stale (rcv_time : Nat) : SubMaster :=
  { sm_example with
    frame := 500
    controlsState := { updated := false, rcv_frame := 10, rcv_time := rcv_time,
                       msg := controls_state_example } }

/-- A `SubMaster` at frame 500 on which `controlsState` has been received in
this tick. -/
def sm_fresh : SubMaster :=
  { sm_example with
    frame := 500
    controlsState := { updated := true, rcv_frame := 500, rcv_time := 25000000000,
                       msg := controls_state_example } }

/-- A `SubMaster` at the frame `frame` on which `controlsState` has never been
received. -/
def sm_silent (frame : Nat) : SubMaster := { sm_example with frame := frame }

/-- The alert of `controls_state_example`, as the banner shows it. -/
def alert_example : Alert :=
  ⟨"Be ready to take over at any time", "Always keep hands on wheel and eyes on road",
    "startup/permanent", AlertSize.MID, AlertStatus.NORMAL, AudibleAlert.NONE⟩

/-- The alert `alert_example` with another size and another status. -/
def alert_example_restyled : Alert :=
  ⟨"Be ready to take over at any time", "Always keep hands on wheel and eyes on road",
    "startup/permanent", AlertSize.FULL, AlertStatus.CRITICAL, AudibleAlert.NONE⟩

/-- A `Sound` whose current alert is `alert_example`, with a looping effect for
`WARNING_IMMEDIATE` that is playing. -/
def sound_example : Sound :=
  { sm := sm_example
    current_alert := alert_example
    sounds := fun k =>
      if k = AudibleAlert.WARNING_IMMEDIATE then some (⟨-2, -2⟩, -2) else none }

/-- The synthetic alert `controlsUnresponsive`, as a new alert for the sound
subsystem. -/
def alert_unresponsive : Alert :=
  ⟨"TAKE CONTROL IMMEDIATELY", "Controls Unresponsive", "controlsUnresponsive",
    AlertSize.FULL, AlertStatus.CRITICAL, AudibleAlert.WARNING_IMMEDIATE⟩

/-- The example UI state with the ignition flag `ignition`. -/
def ui_ignition (ignition : Bool) : UIState :=
  { ui_example with scene := { scene_example with ignition := ignition } }

/-- The freshly constructed `Device`: awake, with a countdown of 30 seconds. -/
def device_fresh : Device := { awake := true, interactive_timeout := 600, ignition_on := false }

/-! ## Lemmas on `get_path_length_idx` -/

/-- What the scan loop computes, started at index `i` with `max_idx = i - 1`:
it returns, and the returned index `r` closes the longest run of samples
`≤ path_height` that starts at `i`. -/
theorem get_path_length_idx.loop_spec (line_x : List ℚ) (t : ℚ)
    (hlen : TRAJECTORY_SIZE ≤ line_x.length) :
    ∀ (fuel i m : Nat), m + 1 = i → i ≤ TRAJECTORY_SIZE → TRAJECTORY_SIZE < fuel + i →
      ∃ r, get_path_length_idx.loop line_x t fuel i m = some r ∧ m ≤ r ∧ r < TRAJECTORY_SIZE ∧
        (∀ j, i ≤ j → j ≤ r → ∃ v, line_x[j]? = some v ∧ v ≤ t) ∧
        (r + 1 < TRAJECTORY_SIZE → ∃ v, line_x[r + 1]? = some v ∧ t < v) := by
  intro fuel
  induction fuel with
  | zero =>
    intro i m _ hi hf
    omega
  | succ fuel ih =>
    intro i m hm hi hf
    unfold get_path_length_idx.loop
    by_cases hlt : i < TRAJECTORY_SIZE
    · have hb : i < line_x.length := by omega
      simp only [hlt, if_true, List.getElem?_eq_getElem hb]
      by_cases hv : line_x[i] ≤ t
      · simp only [hv, if_true]
        obtain ⟨r, hr, hmr, hrT, hall, hstop⟩ := ih (i + 1) i rfl (by omega) (by omega)
        refine ⟨r, hr, by omega, hrT, ?_, hstop⟩
        intro j hij hjr
        rcases Nat.eq_or_lt_of_le hij with h | h
        · subst h
          exact ⟨line_x[i], List.getElem?_eq_getElem hb, hv⟩
        · exact hall j (by omega) hjr
      · simp only [hv, if_false]
        refine ⟨m, rfl, le_refl m, by omega, ?_, ?_⟩
        · intro j hij hjr
          omega
        · intro _
          rw [hm]
          exact ⟨line_x[i], List.getElem?_eq_getElem hb, lt_of_not_ge hv⟩
    · simp only [hlt, if_false]
      refine ⟨m, rfl, le_refl m, by omega, ?_, ?_⟩
      · intro j hij hjr
        omega
      · intro h
        omega

/-- The specification of `get_path_length_idx` on a trajectory of at least
`TRAJECTORY_SIZE` samples. -/
theorem get_path_length_idx_spec (line : XYZTData) (t : ℚ)
    (hlen : TRAJECTORY_SIZE ≤ line.x.length) :
    ∃ r, get_path_length_idx line t = some r ∧ r < TRAJECTORY_SIZE ∧
      (∀ j, 1 ≤ j → j ≤ r → ∃ v, line.x[j]? = some v ∧ v ≤ t) ∧
      (r + 1 < TRAJECTORY_SIZE → ∃ v, line.x[r + 1]? = some v ∧ t < v) := by
  obtain ⟨r, hr, _, hrT, hall, hstop⟩ :=
    get_path_length_idx.loop_spec line.x t hlen TRAJECTORY_SIZE 1 0 rfl
      (by unfold TRAJECTORY_SIZE; omega) (by omega)
  exact ⟨r, hr, hrT, hall, hstop⟩

/-- The scan never reads `line_x[0]`: started at an index `i ≥ 1`, the loop gives
the same result after sample 0 is overwritten. -/
theorem get_path_length_idx.loop_set_zero (line_x : List ℚ) (t v0 : ℚ) :
    ∀ (fuel i m : Nat), 1 ≤ i →
      get_path_length_idx.loop (line_x.set 0 v0) t fuel i m =
        get_path_length_idx.loop line_x t fuel i m := by
  intro fuel
  induction fuel with
  | zero =>
    intro i m _
    rfl
  | succ fuel ih =>
    intro i m hi
    have hne : 0 ≠ i := by omega
    unfold get_path_length_idx.loop
    rw [List.getElem?_set_ne hne, ih (i + 1) i (by omega)]

/-! ## Claims on `get_path_length_idx` -/

/-- C1: on a trajectory of (at least) `TRAJECTORY_SIZE` samples,
`get_path_length_idx` returns an index `r ≤ TRAJECTORY_SIZE - 1` such that every
sample `1..r` is `≤ t`, and `r` is the largest such index; it returns 0 when
`x[1] > t`; and `x[0]` is never examined (overwriting it changes nothing). -/
theorem C1_get_path_length_idx_longest_prefix (line : XYZTData) (t : ℚ)
    (hlen : TRAJECTORY_SIZE ≤ line.x.length) :
    ∃ r, get_path_length_idx line t = some r ∧ r ≤ TRAJECTORY_SIZE - 1 ∧
      (∀ j, 1 ≤ j → j ≤ r → ∃ v, line.x[j]? = some v ∧ v ≤ t) ∧
      (∀ i, i ≤ TRAJECTORY_SIZE - 1 →
        (∀ j, 1 ≤ j → j ≤ i → ∃ v, line.x[j]? = some v ∧ v ≤ t) → i ≤ r) ∧
      ((∃ v, line.x[1]? = some v ∧ t < v) → r = 0) ∧
      (∀ v0, get_path_length_idx ⟨line.x.set 0 v0, line.y, line.z⟩ t = some r) := by
  obtain ⟨r, hr, hrT, hall, hstop⟩ := get_path_length_idx_spec line t hlen
  have hmax : ∀ i, i ≤ TRAJECTORY_SIZE - 1 →
      (∀ j, 1 ≤ j → j ≤ i → ∃ v, line.x[j]? = some v ∧ v ≤ t) → i ≤ r := by
    intro i hi hpre
    by_contra hcon
    have hr1 : r + 1 < TRAJECTORY_SIZE := by omega
    obtain ⟨v, hv, hlt⟩ := hstop hr1
    obtain ⟨w, hw, hle⟩ := hpre (r + 1) (by omega) (by omega)
    rw [hv] at hw
    cases hw
    exact absurd hle (not_le_of_lt hlt)
  refine ⟨r, hr, by omega, hall, hmax, ?_, ?_⟩
  · rintro ⟨v, hv, hlt⟩
    by_contra hcon
    obtain ⟨w, hw, hle⟩ := hall 1 (le_refl 1) (by omega)
    rw [hv] at hw
    cases hw
    exact absurd hle (not_le_of_lt hlt)
  · intro v0
    unfold get_path_length_idx at hr ⊢
    rw [get_path_length_idx.loop_set_zero line.x t v0 TRAJECTORY_SIZE 1 0 (le_refl 1)]
    exact hr

/-- C1 at the trajectory `0, 10, ..., 320` and the target 90. -/
theorem C1_get_path_length_idx_longest_prefix_witness :
    TRAJECTORY_SIZE ≤ traj_step10.x.length ∧
    ∃ r, get_path_length_idx traj_step10 90 = some r ∧ r ≤ TRAJECTORY_SIZE - 1 ∧
      (∀ j, 1 ≤ j → j ≤ r → ∃ v, traj_step10.x[j]? = some v ∧ v ≤ 90) ∧
      (∀ i, i ≤ TRAJECTORY_SIZE - 1 →
        (∀ j, 1 ≤ j → j ≤ i → ∃ v, traj_step10.x[j]? = some v ∧ v ≤ 90) → i ≤ r) ∧
      ((∃ v, traj_step10.x[1]? = some v ∧ 90 < v) → r = 0) ∧
      (∀ v0, get_path_length_idx ⟨traj_step10.x.set 0 v0, traj_step10.y, traj_step10.z⟩ 90
        = some r) :=
  ⟨by decide, C1_get_path_length_idx_longest_prefix traj_step10 90 (by decide)⟩

/-- C2 (as stated) fails: on the unsorted trajectory `0, 5, 100, 3, ..., 3` with
target 10 the scan stops at index 1 although sample 32 is `3 ≤ 10`; and on the
sorted trajectory `10, 20, ..., 330` with target 5 it returns 0 although
`x[0] = 10` is not `≤ 5`. -/
theorem C2_counterexample :
    (get_path_length_idx traj_unsorted 10 = some 1 ∧
      traj_unsorted.x[32]? = some 3 ∧ (3 : ℚ) ≤ 10) ∧
    (get_path_length_idx traj_from10 5 = some 0 ∧
      traj_from10.x[0]? = some 10 ∧ ¬ ((10 : ℚ) ≤ 5)) := by
  decide

/-- C2 (amended): on a trajectory of at least `TRAJECTORY_SIZE` samples whose
forward distances are non-decreasing from index 1 on, the returned index `r`
satisfies, for every index `1 ≤ i ≤ TRAJECTORY_SIZE - 1`: `x[i] ≤ t` iff `i ≤ r`.
So `r` is the largest index in `[1, TRAJECTORY_SIZE - 1]` with `x[i] ≤ t`, and 0
when there is none. -/
theorem C2_get_path_length_idx_largest_on_sorted (line : XYZTData) (t : ℚ)
    (hlen : TRAJECTORY_SIZE ≤ line.x.length)
    (hsorted : (line.x.drop 1).Pairwise (fun a b => a ≤ b)) :
    ∃ r, get_path_length_idx line t = some r ∧ r ≤ TRAJECTORY_SIZE - 1 ∧
      ∀ i, 1 ≤ i → i ≤ TRAJECTORY_SIZE - 1 →
        ((∃ v, line.x[i]? = some v ∧ v ≤ t) ↔ i ≤ r) := by
  obtain ⟨r, hr, hrT, hall, hstop⟩ := get_path_length_idx_spec line t hlen
  refine ⟨r, hr, by omega, ?_⟩
  intro i hi1 hiT
  constructor
  · rintro ⟨v, hv, hvt⟩
    by_contra hcon
    have hr1 : r + 1 < TRAJECTORY_SIZE := by
      have : 0 < TRAJECTORY_SIZE := by unfold TRAJECTORY_SIZE; omega
      omega
    obtain ⟨w, hw, hlt⟩ := hstop hr1
    have hle : w ≤ v := by
      rcases Nat.eq_or_lt_of_le (show r + 1 ≤ i by omega) with h | h
      · rw [h, hv] at hw
        cases hw
        exact le_refl _
      · have hw2 : (line.x.drop 1)[r]? = some w := by
          rw [List.getElem?_drop, Nat.add_comm]
          exact hw
        have hv2 : (line.x.drop 1)[i - 1]? = some v := by
          rw [List.getElem?_drop, show 1 + (i - 1) = i by omega]
          exact hv
        obtain ⟨hwb, hwe⟩ := List.getElem?_eq_some.mp hw2
        obtain ⟨hvb, hve⟩ := List.getElem?_eq_some.mp hv2
        rw [← hwe, ← hve]
        exact List.pairwise_iff_getElem.mp hsorted r (i - 1) hwb hvb (by omega)
    exact absurd (lt_of_lt_of_le hlt (le_trans hle hvt)) (lt_irrefl t)
  · intro hir
    exact hall i hi1 hir

/-- C2 (amended) at the trajectory `0, 10, ..., 320` and the target 90. -/
theorem C2_get_path_length_idx_largest_on_sorted_witness :
    TRAJECTORY_SIZE ≤ traj_step10.x.length ∧
    (traj_step10.x.drop 1).Pairwise (fun a b => a ≤ b) ∧
    ∃ r, get_path_length_idx traj_step10 90 = some r ∧ r ≤ TRAJECTORY_SIZE - 1 ∧
      ∀ i, 1 ≤ i → i ≤ TRAJECTORY_SIZE - 1 →
        ((∃ v, traj_step10.x[i]? = some v ∧ v ≤ 90) ↔ i ≤ r) :=
  ⟨by decide, by decide,
    C2_get_path_length_idx_largest_on_sorted traj_step10 90 (by decide) (by decide)⟩

/-- C3: `get_path_length_idx` is monotone in its target: on a trajectory of at
least `TRAJECTORY_SIZE` samples, `t1 ≤ t2` gives
`get_path_length_idx(x, t1) ≤ get_path_length_idx(x, t2)`. -/
theorem C3_get_path_length_idx_monotone (line : XYZTData) (t1 t2 : ℚ)
    (hlen : TRAJECTORY_SIZE ≤ line.x.length) (ht : t1 ≤ t2) :
    ∃ r1 r2, get_path_length_idx line t1 = some r1 ∧
      get_path_length_idx line t2 = some r2 ∧ r1 ≤ r2 := by
  obtain ⟨r1, hr1, _, hall1, _⟩ := get_path_length_idx_spec line t1 hlen
  obtain ⟨r2, hr2, _, _, hstop2⟩ := get_path_length_idx_spec line t2 hlen
  refine ⟨r1, r2, hr1, hr2, ?_⟩
  by_contra hcon
  obtain ⟨v, hv, hlt⟩ := hstop2 (by omega)
  obtain ⟨w, hw, hle⟩ := hall1 (r2 + 1) (by omega) (by omega)
  rw [hv] at hw
  cases hw
  exact absurd (lt_of_lt_of_le hlt (le_trans hle ht)) (lt_irrefl t2)

/-- C3 at the trajectory `0, 10, ..., 320` and the targets `45 ≤ 90`. -/
theorem C3_get_path_length_idx_monotone_witness :
    TRAJECTORY_SIZE ≤ traj_step10.x.length ∧ (45 : ℚ) ≤ 90 ∧
    ∃ r1 r2, get_path_length_idx traj_step10 45 = some r1 ∧
      get_path_length_idx traj_step10 90 = some r2 ∧ r1 ≤ r2 :=
  ⟨by decide, by decide, C3_get_path_length_idx_monotone traj_step10 45 90 (by decide) (by decide)⟩

/-! ## Lemmas on `calib_frame_to_full_frame` -/

/-- Two numbers compare with `<` as rationals. -/
theorem qreal.num_lt_num (a b : ℚ) : qreal.num a < qreal.num b ↔ a < b := by
  show decide (a < b) = true ↔ a < b
  exact decide_eq_true_iff

/-- Two numbers compare with `<=` as rationals. -/
theorem qreal.num_le_num (a b : ℚ) : qreal.num a ≤ qreal.num b ↔ a ≤ b := by
  show decide (a ≤ b) = true ↔ a ≤ b
  exact decide_eq_true_iff

/-- On a point whose coordinates are numbers, every branch of `QTransform::map`
is the affine formula. -/
theorem QTransform.map_num (t : QTransform) (a b : ℚ) :
    t.map ⟨qreal.num a, qreal.num b⟩ =
      ⟨qreal.num (t.m11 * a + t.m21 * b + t.dx), qreal.num (t.m12 * a + t.m22 * b + t.dy)⟩ := by
  unfold QTransform.map
  by_cases h1 : t.m12 ≠ 0 ∨ t.m21 ≠ 0
  · rw [if_pos h1]
    rfl
  · rw [if_neg h1]
    have h12 : t.m12 = 0 := by
      by_contra h
      exact h1 (Or.inl h)
    have h21 : t.m21 = 0 := by
      by_contra h
      exact h1 (Or.inr h)
    by_cases h2 : t.m11 ≠ 1 ∨ t.m22 ≠ 1
    · rw [if_pos h2]
      simp only [qreal.mul, qreal.add, h12, h21, zero_mul, add_zero, zero_add]
    · rw [if_neg h2]
      have h11 : t.m11 = 1 := by
        by_contra h
        exact h2 (Or.inl h)
      have h22 : t.m22 = 1 := by
        by_contra h
        exact h2 (Or.inr h)
      by_cases h3 : t.dx ≠ 0 ∨ t.dy ≠ 0
      · rw [if_pos h3]
        simp only [qreal.add, h12, h21, h11, h22, zero_mul, one_mul, add_zero, zero_add]
      · rw [if_neg h3]
        have hdx : t.dx = 0 := by
          by_contra h
          exact h3 (Or.inl h)
        have hdy : t.dy = 0 := by
          by_contra h
          exact h3 (Or.inr h)
        simp only [h12, h21, h11, h22, hdx, hdy, zero_mul, one_mul, add_zero, zero_add]

/-- At a depth that is not zero the projected point has two numbers as
coordinates, given by the perspective divide and the affine formula. -/
theorem calib_frame_to_full_frame.point_num (md : ModelConstants) (s : UIState)
    (in_x in_y in_z : ℚ)
    (hz : (calib_frame_to_full_frame.KEp md s in_x in_y in_z).v2 ≠ 0) :
    calib_frame_to_full_frame.point md s in_x in_y in_z =
      ⟨qreal.num (s.car_space_transform.m11 *
            ((calib_frame_to_full_frame.KEp md s in_x in_y in_z).v0 /
              (calib_frame_to_full_frame.KEp md s in_x in_y in_z).v2) +
          s.car_space_transform.m21 *
            ((calib_frame_to_full_frame.KEp md s in_x in_y in_z).v1 /
              (calib_frame_to_full_frame.KEp md s in_x in_y in_z).v2) +
          s.car_space_transform.dx),
        qreal.num (s.car_space_transform.m12 *
            ((calib_frame_to_full_frame.KEp md s in_x in_y in_z).v0 /
              (calib_frame_to_full_frame.KEp md s in_x in_y in_z).v2) +
          s.car_space_transform.m22 *
            ((calib_frame_to_full_frame.KEp md s in_x in_y in_z).v1 /
              (calib_frame_to_full_frame.KEp md s in_x in_y in_z).v2) +
          s.car_space_transform.dy)⟩ := by
  unfold calib_frame_to_full_frame.point
  simp only [qreal.div, hz, if_false]
  exact QTransform.map_num _ _ _

/-- On a frame buffer of non-negative size the clip region rejects a point
exactly when a coordinate compares below `-500` or above the frame-buffer size
plus `500`. -/
theorem calib_frame_to_full_frame.clip_region_contains (s : UIState) (p : QPointF)
    (hw : 0 ≤ s.fb_w) (hh : 0 ≤ s.fb_h) :
    (calib_frame_to_full_frame.clip_region s).contains p = true ↔
      (¬ p.x < qreal.num (-500) ∧ ¬ p.x > qreal.num ((s.fb_w : ℚ) + 500) ∧
        ¬ p.y < qreal.num (-500) ∧ ¬ p.y > qreal.num ((s.fb_h : ℚ) + 500)) := by
  have hw' : (0 : ℚ) ≤ (s.fb_w : ℚ) := by exact_mod_cast hw
  have hh' : (0 : ℚ) ≤ (s.fb_h : ℚ) := by exact_mod_cast hh
  have h1 : ¬ ((s.fb_w : ℚ) + 2 * 500 < 0) := by linarith
  have h2 : ¬ ((s.fb_h : ℚ) + 2 * 500 < 0) := by linarith
  have h3 : ¬ ((-500 : ℚ) = -500 + ((s.fb_w : ℚ) + 2 * 500)) := by
    intro h
    linarith
  have h4 : ¬ ((-500 : ℚ) = -500 + ((s.fb_h : ℚ) + 2 * 500)) := by
    intro h
    linarith
  have h5 : (-500 : ℚ) + ((s.fb_w : ℚ) + 2 * 500) = (s.fb_w : ℚ) + 500 := by ring
  have h6 : (-500 : ℚ) + ((s.fb_h : ℚ) + 2 * 500) = (s.fb_h : ℚ) + 500 := by ring
  simp only [calib_frame_to_full_frame.clip_region, QRectF.contains, h1, h2, h3, h4, if_false]
  rw [h5, h6]
  by_cases hx : p.x < qreal.num (-500) ∨ p.x > qreal.num ((s.fb_w : ℚ) + 500)
  · rw [if_pos hx]
    constructor
    · intro h
      cases h
    · rintro ⟨ha, hb, _, _⟩
      rcases hx with hx | hx
      · exact absurd hx ha
      · exact absurd hx hb
  · rw [if_neg hx]
    have hx' := not_or.mp hx
    by_cases hy : p.y < qreal.num (-500) ∨ p.y > qreal.num ((s.fb_h : ℚ) + 500)
    · rw [if_pos hy]
      constructor
      · intro h
        cases h
      · rintro ⟨_, _, ha, hb⟩
        rcases hy with hy | hy
        · exact absurd hy ha
        · exact absurd hy hb
    · rw [if_neg hy]
      have hy' := not_or.mp hy
      exact ⟨fun _ => ⟨hx'.1, hx'.2, hy'.1, hy'.2⟩, fun _ => rfl⟩

/-- On a point whose coordinates are numbers the clip test is the screen
rectangle padded by 500 on every side, edges included. -/
theorem calib_frame_to_full_frame.clip_region_contains_num (s : UIState) (px py : ℚ)
    (hw : 0 ≤ s.fb_w) (hh : 0 ≤ s.fb_h) :
    (calib_frame_to_full_frame.clip_region s).contains ⟨qreal.num px, qreal.num py⟩ = true ↔
      (-500 ≤ px ∧ px ≤ (s.fb_w : ℚ) + 500 ∧ -500 ≤ py ∧ py ≤ (s.fb_h : ℚ) + 500) := by
  rw [calib_frame_to_full_frame.clip_region_contains s _ hw hh]
  show (¬ qreal.num px < qreal.num (-500) ∧ ¬ qreal.num ((s.fb_w : ℚ) + 500) < qreal.num px ∧
    ¬ qreal.num py < qreal.num (-500) ∧ ¬ qreal.num ((s.fb_h : ℚ) + 500) < qreal.num py) ↔ _
  rw [qreal.num_lt_num, qreal.num_lt_num, qreal.num_lt_num, qreal.num_lt_num,
    not_lt, not_lt, not_lt, not_lt]

/-- The content of `*out` after `calib_frame_to_full_frame`: the projected point
when the call returns true, the old content when it returns false. -/
theorem calib_frame_to_full_frame.out_spec (md : ModelConstants) (s : UIState)
    (in_x in_y in_z : ℚ) (out : QPointF) :
    ((calib_frame_to_full_frame md s in_x in_y in_z out).1 = true →
      (calib_frame_to_full_frame md s in_x in_y in_z out).2 =
        calib_frame_to_full_frame.point md s in_x in_y in_z) ∧
    ((calib_frame_to_full_frame md s in_x in_y in_z out).1 = false →
      (calib_frame_to_full_frame md s in_x in_y in_z out).2 = out) := by
  unfold calib_frame_to_full_frame
  by_cases hc : (calib_frame_to_full_frame.clip_region s).contains
      (calib_frame_to_full_frame.point md s in_x in_y in_z) = true
  · simp [hc]
  · simp [hc]

/-! ## Lemmas on `update_line_data` -/

/-- A sample is a candidate exactly when its forward distance is not negative
and both projections are reported visible. -/
theorem update_line_data.candidate_iff (md : ModelConstants) (s : UIState) (line : XYZTData)
    (y_off z_off : ℚ) (i : Nat) (left right : QPointF) :
    update_line_data.candidate md s line y_off z_off i = some (left, right) ↔
      ∃ xi, line.x[i]? = some xi ∧ 0 ≤ xi ∧
        update_line_data.left md s line y_off z_off i = some (true, left) ∧
        update_line_data.right md s line y_off z_off i = some (true, right) := by
  unfold update_line_data.candidate
  cases hx : line.x[i]? with
  | none => simp
  | some xi =>
    cases hl : update_line_data.left md s line y_off z_off i with
    | none => simp
    | some bl =>
      obtain ⟨fl, pl⟩ := bl
      cases hr : update_line_data.right md s line y_off z_off i with
      | none => cases fl <;> simp
      | some br =>
        obtain ⟨fr, pr⟩ := br
        cases fl <;> cases fr <;> by_cases hneg : xi < 0 <;> simp [hneg, not_le.mpr, le_of_not_lt]

/-- The loop body on a sample read inside the lists: a sample that is no
candidate leaves the state unchanged; a candidate is appended unless inversion
suppression skips it. -/
theorem update_line_data.body_eq (md : ModelConstants) (s : UIState) (line : XYZTData)
    (y_off z_off : ℚ) (allow_invert : Bool) (st : List QPointF × List QPointF) (i : Nat)
    (hok : update_line_data.sample_ok line i = true) :
    update_line_data.body md s line y_off z_off allow_invert st i =
      some (match update_line_data.candidate md s line y_off z_off i with
        | none => st
        | some c =>
          if allow_invert = false ∧ st.1.length ≠ 0 ∧ c.1.y > (st.1.getLastD QPointF.null).y then st
          else (st.1 ++ [c.1], c.2 :: st.2)) := by
  unfold update_line_data.sample_ok at hok
  unfold update_line_data.body update_line_data.candidate
  cases hx : line.x[i]? with
  | none => simp [hx] at hok
  | some xi =>
    simp only [hx] at hok ⊢
    by_cases hneg : xi < 0
    · simp only [hneg, if_true]
      cases hl : update_line_data.left md s line y_off z_off i with
      | none => rfl
      | some bl =>
        obtain ⟨fl, pl⟩ := bl
        cases hr : update_line_data.right md s line y_off z_off i with
        | none => cases fl <;> rfl
        | some br =>
          obtain ⟨fr, pr⟩ := br
          cases fl <;> cases fr <;> simp [hneg]
    · simp only [hneg, decide_False, Bool.false_or, Bool.and_eq_true,
        Option.isSome_iff_exists] at hok
      obtain ⟨⟨yi, hy⟩, ⟨zi, hz⟩⟩ := hok
      simp only [hneg, if_false]
      cases hl : update_line_data.left md s line y_off z_off i with
      | none => simp [update_line_data.left, hx, hy, hz] at hl
      | some bl =>
        obtain ⟨fl, pl⟩ := bl
        cases hr : update_line_data.right md s line y_off z_off i with
        | none => simp [update_line_data.right, hx, hy, hz] at hr
        | some br =>
          obtain ⟨fr, pr⟩ := br
          cases fl <;> cases fr <;> simp [hneg]
          split <;> rfl

/-- One more index in the loop: the fold over `range (n + 1)` is the fold over
`range n` followed by the body at `n`. -/
theorem update_line_data.fold_succ (md : ModelConstants) (s : UIState) (line : XYZTData)
    (y_off z_off : ℚ) (allow_invert : Bool) (n : Nat) :
    (List.range (n + 1)).foldlM (update_line_data.body md s line y_off z_off allow_invert)
        ([], []) =
      ((List.range n).foldlM (update_line_data.body md s line y_off z_off allow_invert)
        ([], [])).bind
        (fun st => update_line_data.body md s line y_off z_off allow_invert st n) := by
  rw [List.range_succ, List.foldlM_append]
  cases (List.range n).foldlM (update_line_data.body md s line y_off z_off allow_invert)
      ([], []) with
  | none => rfl
  | some st =>
    simp only [Option.bind_eq_bind, Option.some_bind, List.foldlM_cons, List.foldlM_nil]
    cases update_line_data.body md s line y_off z_off allow_invert st n <;> rfl

/-- The loop invariant of `update_line_data`: after the indices `0..n-1` the
state is built from a list `kept` of candidate samples with increasing indices,
`left_points` holding their left vertices in that order and `right_points`
their right vertices in reverse order.  With `allow_invert = true` every
candidate is kept. -/
theorem update_line_data.fold_inv (md : ModelConstants) (s : UIState) (line : XYZTData)
    (y_off z_off : ℚ) (allow_invert : Bool) :
    ∀ n : Nat, (∀ i, i < n → update_line_data.sample_ok line i = true) →
      ∃ kept : List (Nat × QPointF × QPointF),
        (List.range n).foldlM (update_line_data.body md s line y_off z_off allow_invert)
            ([], []) =
          some (kept.map (fun e => e.2.1), (kept.map (fun e => e.2.2)).reverse) ∧
        kept.Pairwise (fun a b => a.1 < b.1) ∧
        (∀ e ∈ kept, e.1 < n ∧ update_line_data.candidate md s line y_off z_off e.1 = some e.2) ∧
        (allow_invert = true → ∀ i, i < n → ∀ c,
          update_line_data.candidate md s line y_off z_off i = some c → (i, c) ∈ kept) := by
  intro n
  induction n with
  | zero =>
    intro _
    refine ⟨[], rfl, List.Pairwise.nil, ?_, ?_⟩
    · intro e he
      cases he
    · intro _ i hi
      omega
  | succ n ih =>
    intro hok
    obtain ⟨kept, hfold, hpw, hmem, hall⟩ := ih (fun i hi => hok i (by omega))
    rw [update_line_data.fold_succ, hfold, Option.some_bind,
      update_line_data.body_eq md s line y_off z_off allow_invert _ n (hok n (by omega))]
    have hkeep : ∀ e ∈ kept,
        e.1 < n + 1 ∧ update_line_data.candidate md s line y_off z_off e.1 = some e.2 := by
      intro e he
      exact ⟨by have := (hmem e he).1; omega, (hmem e he).2⟩
    cases hc : update_line_data.candidate md s line y_off z_off n with
    | none =>
      refine ⟨kept, rfl, hpw, hkeep, ?_⟩
      intro hai i hi c hci
      rcases Nat.eq_or_lt_of_le (Nat.le_of_lt_succ hi) with h | h
      · rw [h, hc] at hci
        cases hci
      · exact hall hai i h c hci
    | some c =>
      by_cases hsup : allow_invert = false ∧
          (kept.map (fun e : Nat × QPointF × QPointF => e.2.1)).length ≠ 0 ∧
          c.1.y > ((kept.map (fun e : Nat × QPointF × QPointF => e.2.1)).getLastD QPointF.null).y
      · refine ⟨kept, ?_, hpw, hkeep, ?_⟩
        · dsimp only
          rw [if_pos hsup]
        · intro hai
          rw [hai] at hsup
          exact absurd hsup.1 (by decide)
      · refine ⟨kept ++ [(n, c)], ?_, ?_, ?_, ?_⟩
        · dsimp only
          rw [if_neg hsup]
          simp
        · rw [List.pairwise_append]
          refine ⟨hpw, List.pairwise_singleton _ _, ?_⟩
          intro a ha b hb
          rw [List.mem_singleton] at hb
          rw [hb]
          exact (hmem a ha).1
        · intro e he
          rcases List.mem_append.mp he with h | h
          · exact hkeep e h
          · rw [List.mem_singleton] at h
            rw [h]
            exact ⟨by omega, hc⟩
        · intro hai i hi c2 hci
          rcases Nat.eq_or_lt_of_le (Nat.le_of_lt_succ hi) with h | h
          · subst h
            rw [hc] at hci
            cases hci
            exact List.mem_append.mpr (Or.inr (List.mem_singleton.mpr rfl))
          · exact List.mem_append.mpr (Or.inl (hall hai i h c2 hci))

/-- The state after the loop of `update_line_data` for the bound `max_idx`,
from the loop invariant. -/
theorem update_line_data.loop_inv (md : ModelConstants) (s : UIState) (line : XYZTData)
    (y_off z_off : ℚ) (max_idx : Int) (allow_invert : Bool)
    (hok : update_line_data.input_ok line max_idx = true) :
    ∃ kept : List (Nat × QPointF × QPointF),
      update_line_data.loop md s line y_off z_off max_idx allow_invert =
        some (kept.map (fun e => e.2.1), (kept.map (fun e => e.2.2)).reverse) ∧
      kept.Pairwise (fun a b => a.1 < b.1) ∧
      (∀ e ∈ kept, (e.1 : Int) ≤ max_idx ∧
        update_line_data.candidate md s line y_off z_off e.1 = some e.2) ∧
      (allow_invert = true → ∀ i : Nat, (i : Int) ≤ max_idx → ∀ c,
        update_line_data.candidate md s line y_off z_off i = some c → (i, c) ∈ kept) := by
  have hok' : ∀ i, i < (max_idx + 1).toNat →
      update_line_data.sample_ok line i = true := by
    intro i hi
    exact List.all_eq_true.mp hok i (List.mem_range.mpr hi)
  obtain ⟨kept, hfold, hpw, hmem, hall⟩ :=
    update_line_data.fold_inv md s line y_off z_off allow_invert (max_idx + 1).toNat hok'
  refine ⟨kept, hfold, hpw, ?_, ?_⟩
  · intro e he
    have h := (hmem e he).1
    exact ⟨by omega, (hmem e he).2⟩
  · intro hai i hi c hc
    exact hall hai i (by omega) c hc

/-- The two calls of the loop body, spelled out on the samples read. -/
theorem update_line_data.candidate_iff_calls (md : ModelConstants) (s : UIState)
    (line : XYZTData) (y_off z_off : ℚ) (i : Nat) (left right : QPointF) :
    update_line_data.candidate md s line y_off z_off i = some (left, right) ↔
      ∃ xi yi zi, line.x[i]? = some xi ∧ line.y[i]? = some yi ∧ line.z[i]? = some zi ∧
        0 ≤ xi ∧
        calib_frame_to_full_frame md s xi (yi - y_off) (zi + z_off) QPointF.null =
          (true, left) ∧
        calib_frame_to_full_frame md s xi (yi + y_off) (zi + z_off) QPointF.null =
          (true, right) := by
  rw [update_line_data.candidate_iff]
  unfold update_line_data.left update_line_data.right
  constructor
  · rintro ⟨xi, hx, hpos, hl, hr⟩
    rw [hx] at hl hr
    cases hy : line.y[i]? with
    | none => simp [hy] at hl
    | some yi =>
      cases hz : line.z[i]? with
      | none => simp [hy, hz] at hl
      | some zi =>
        simp only [hy, hz] at hl hr
        exact ⟨xi, yi, zi, hx, rfl, rfl, hpos, Option.some.inj hl, Option.some.inj hr⟩
  · rintro ⟨xi, yi, zi, hx, hy, hz, hpos, hl, hr⟩
    refine ⟨xi, hx, hpos, ?_, ?_⟩
    · simp only [hx, hy, hz]
      rw [hl]
    · simp only [hx, hy, hz]
      rw [hr]

/-- A candidate sample is read inside the lists. -/
theorem update_line_data.sample_ok_of_candidate (md : ModelConstants) (s : UIState)
    (line : XYZTData) (y_off z_off : ℚ) (i : Nat) (c : QPointF × QPointF)
    (hc : update_line_data.candidate md s line y_off z_off i = some c) :
    update_line_data.sample_ok line i = true := by
  obtain ⟨xi, yi, zi, hx, hy, hz, _, _, _⟩ :=
    (update_line_data.candidate_iff_calls md s line y_off z_off i c.1 c.2).mp hc
  unfold update_line_data.sample_ok
  simp [hx, hy, hz]

/-- The loop for the bound `n` is the loop for the bound `n - 1` followed by
the body at `n`. -/
theorem update_line_data.loop_succ (md : ModelConstants) (s : UIState) (line : XYZTData)
    (y_off z_off : ℚ) (allow_invert : Bool) (n : Nat) :
    update_line_data.loop md s line y_off z_off (n : Int) allow_invert =
      (update_line_data.loop md s line y_off z_off ((n : Int) - 1) allow_invert).bind
        (fun st => update_line_data.body md s line y_off z_off allow_invert st n) := by
  unfold update_line_data.loop
  have h1 : ((n : Int) + 1).toNat = n + 1 := by omega
  have h2 : ((n : Int) - 1 + 1).toNat = n := by omega
  rw [h1, h2, update_line_data.fold_succ]

/-- A pairwise relation on the values that `f` gives along `range n` relates
the values at any two indices `i < j < n`. -/
theorem update_line_data.rel_of_pairwise_filterMap {α : Type} (f : Nat → Option α)
    (R : α → α → Prop) :
    ∀ n : Nat, ((List.range n).filterMap f).Pairwise R →
      ∀ (i j : Nat) (a b : α), i < j → j < n → f i = some a → f j = some b → R a b := by
  intro n
  induction n with
  | zero =>
    intro _ i j a b _ hj
    omega
  | succ n ih =>
    intro hpw i j a b hij hj ha hb
    rw [List.range_succ, List.filterMap_append, List.pairwise_append] at hpw
    obtain ⟨hA, _, hAB⟩ := hpw
    rcases Nat.eq_or_lt_of_le (Nat.le_of_lt_succ hj) with h | h
    · subst h
      refine hAB a (List.mem_filterMap.mpr ⟨i, List.mem_range.mpr hij, ha⟩) b ?_
      simp [List.filterMap_cons, hb]
    · exact ih hA i j a b hij h ha hb

/-- When no candidate has a left-edge screen-Y greater than that of an earlier
candidate, the loop with inversion suppression and the loop without it reach
the same state. -/
theorem update_line_data.fold_suppression_idle (md : ModelConstants) (s : UIState)
    (line : XYZTData) (y_off z_off : ℚ) :
    ∀ n : Nat, (∀ i, i < n → update_line_data.sample_ok line i = true) →
      (∀ (i j : Nat) (ci cj : QPointF × QPointF), i < j → j < n →
        update_line_data.candidate md s line y_off z_off i = some ci →
        update_line_data.candidate md s line y_off z_off j = some cj → ¬ cj.1.y > ci.1.y) →
      (List.range n).foldlM (update_line_data.body md s line y_off z_off false) ([], []) =
        (List.range n).foldlM (update_line_data.body md s line y_off z_off true) ([], []) := by
  intro n
  induction n with
  | zero =>
    intro _ _
    rfl
  | succ n ih =>
    intro hok hmono
    have hok' : ∀ i, i < n → update_line_data.sample_ok line i = true :=
      fun i hi => hok i (by omega)
    obtain ⟨kept, hfold, _, hmem, _⟩ :=
      update_line_data.fold_inv md s line y_off z_off true n hok'
    rw [update_line_data.fold_succ, update_line_data.fold_succ,
      ih hok' (fun i j ci cj hij hj => hmono i j ci cj hij (by omega)), hfold,
      Option.some_bind, Option.some_bind,
      update_line_data.body_eq md s line y_off z_off false _ n (hok n (by omega)),
      update_line_data.body_eq md s line y_off z_off true _ n (hok n (by omega))]
    cases hc : update_line_data.candidate md s line y_off z_off n with
    | none => rfl
    | some c =>
      dsimp only
      have hT : ¬ (true = false ∧
          (kept.map (fun e : Nat × QPointF × QPointF => e.2.1)).length ≠ 0 ∧
          c.1.y > ((kept.map (fun e : Nat × QPointF × QPointF => e.2.1)).getLastD QPointF.null).y) := by
        intro h
        exact absurd h.1 (by decide)
      have hF : ¬ (false = false ∧
          (kept.map (fun e : Nat × QPointF × QPointF => e.2.1)).length ≠ 0 ∧
          c.1.y > ((kept.map (fun e : Nat × QPointF × QPointF => e.2.1)).getLastD QPointF.null).y) := by
        rintro ⟨_, hlen, hgt⟩
        rcases List.eq_nil_or_concat kept with hnil | ⟨init, e, hcat⟩
        · rw [hnil] at hlen
          exact hlen rfl
        · rw [hcat, List.concat_eq_append, List.map_append, List.map_singleton,
            List.getLastD_concat] at hgt
          have he : e ∈ kept := by
            rw [hcat, List.concat_eq_append]
            exact List.mem_append.mpr (Or.inr (List.mem_singleton.mpr rfl))
          obtain ⟨hlt, hce⟩ := hmem e he
          exact hmono e.1 n e.2 c hlt (by omega) hce hc hgt
      rw [if_neg hT, if_neg hF]

/-! ## Claims on `update_line_data` -/

/-- C4: for either inversion mode, on every input whose samples `0..max_idx` are
read inside the lists (samples of depth zero included: they project to
infinities or NaN, as in the code), `update_line_data` writes a polygon of even
length `2k`, where `k` is the number of retained samples `kept` (candidate
samples, in increasing index order): its first `k` vertices are the left
projections of the retained samples in that order, its last `k` vertices are
their right projections in reverse order, so vertex `j` and vertex `2k-1-j` come
from the same sample, and reversing the last `k` vertices gives the right
projections in ascending order. -/
theorem C4_update_line_data_closed_ring (md : ModelConstants) (s : UIState) (line : XYZTData)
    (y_off z_off : ℚ) (max_idx : Int) (allow_invert : Bool)
    (hok : update_line_data.input_ok line max_idx = true) :
    ∃ (kept : List (Nat × QPointF × QPointF)) (pvd : List QPointF),
      update_line_data md s line y_off z_off max_idx allow_invert = some pvd ∧
      pvd.length = 2 * kept.length ∧
      kept.Pairwise (fun a b => a.1 < b.1) ∧
      (∀ e ∈ kept, (e.1 : Int) ≤ max_idx ∧
        update_line_data.left md s line y_off z_off e.1 = some (true, e.2.1) ∧
        update_line_data.right md s line y_off z_off e.1 = some (true, e.2.2)) ∧
      pvd.take kept.length = kept.map (fun e => e.2.1) ∧
      pvd.drop kept.length = (kept.map (fun e => e.2.2)).reverse ∧
      (pvd.drop kept.length).reverse = kept.map (fun e => e.2.2) ∧
      (∀ j, j < kept.length → ∃ e, kept[j]? = some e ∧ pvd[j]? = some e.2.1 ∧
        pvd[2 * kept.length - 1 - j]? = some e.2.2) := by
  obtain ⟨kept, hloop, hpw, hmem, _⟩ :=
    update_line_data.loop_inv md s line y_off z_off max_idx allow_invert hok
  have hlenL : (kept.map (fun e : Nat × QPointF × QPointF => e.2.1)).length = kept.length :=
    List.length_map _ _
  have hlenR : (kept.map (fun e : Nat × QPointF × QPointF => e.2.2)).reverse.length
      = kept.length := by
    rw [List.length_reverse, List.length_map]
  have htake : (kept.map (fun e : Nat × QPointF × QPointF => e.2.1) ++
      (kept.map (fun e : Nat × QPointF × QPointF => e.2.2)).reverse).take kept.length =
        kept.map (fun e => e.2.1) := by
    conv_lhs => rw [← hlenL]
    exact List.take_left _ _
  have hdrop : (kept.map (fun e : Nat × QPointF × QPointF => e.2.1) ++
      (kept.map (fun e : Nat × QPointF × QPointF => e.2.2)).reverse).drop kept.length =
        (kept.map (fun e => e.2.2)).reverse := by
    conv_lhs => rw [← hlenL]
    exact List.drop_left _ _
  refine ⟨kept, kept.map (fun e => e.2.1) ++ (kept.map (fun e => e.2.2)).reverse,
    ?_, ?_, hpw, ?_, htake, hdrop, ?_, ?_⟩
  · unfold update_line_data
    rw [hloop]
    rfl
  · rw [List.length_append, hlenL, hlenR]
    omega
  · intro e he
    obtain ⟨hle, hc⟩ := hmem e he
    obtain ⟨_, _, _, hl, hr⟩ :=
      (update_line_data.candidate_iff md s line y_off z_off e.1 e.2.1 e.2.2).mp hc
    exact ⟨hle, hl, hr⟩
  · rw [hdrop, List.reverse_reverse]
  · intro j hj
    have hj' : kept[j]? = some kept[j] := List.getElem?_eq_getElem hj
    refine ⟨kept[j], hj', ?_, ?_⟩
    · rw [List.getElem?_append_left (by rw [hlenL]; exact hj), List.getElem?_map, hj']
      rfl
    · rw [List.getElem?_append_right (by rw [hlenL]; omega), hlenL,
        List.getElem?_reverse (by rw [List.length_map]; omega), List.length_map,
        List.getElem?_map, show kept.length - 1 - (2 * kept.length - 1 - j - kept.length) = j
          by omega, hj']
      rfl

/-- C4 on a line whose first sample lies in the camera plane (depth zero, an
infinite projection), with inversion suppression enabled. -/
theorem C4_update_line_data_closed_ring_witness :
    update_line_data.input_ok line_from_zero 3 = true ∧
    ∃ (kept : List (Nat × QPointF × QPointF)) (pvd : List QPointF),
      update_line_data md_example ui_example line_from_zero 1 1 3 false = some pvd ∧
      pvd.length = 2 * kept.length ∧
      kept.Pairwise (fun a b => a.1 < b.1) ∧
      (∀ e ∈ kept, (e.1 : Int) ≤ 3 ∧
        update_line_data.left md_example ui_example line_from_zero 1 1 e.1 =
          some (true, e.2.1) ∧
        update_line_data.right md_example ui_example line_from_zero 1 1 e.1 =
          some (true, e.2.2)) ∧
      pvd.take kept.length = kept.map (fun e => e.2.1) ∧
      pvd.drop kept.length = (kept.map (fun e => e.2.2)).reverse ∧
      (pvd.drop kept.length).reverse = kept.map (fun e => e.2.2) ∧
      (∀ j, j < kept.length → ∃ e, kept[j]? = some e ∧ pvd[j]? = some e.2.1 ∧
        pvd[2 * kept.length - 1 - j]? = some e.2.2) :=
  ⟨by decide,
    C4_update_line_data_closed_ring md_example ui_example line_from_zero 1 1 3 false (by decide)⟩

/-- C6 (as stated) fails in both directions.  On the flat road the second
sample's left projection is above the kept one (lower screen-Y, `12647/20 <
6607/10`) and it is not suppressed; on the road with a dip the second sample's
left projection is below the kept one (greater screen-Y, `3587/5 > 6607/10`)
and it is suppressed. -/
theorem C6_counterexample :
    (update_line_data.loop md_example ui_example line_flat 1 1 0 false =
        some ([⟨qreal.num (9073/10), qreal.num (6607/10)⟩], [⟨qreal.num (10207/10), qreal.num (6607/10)⟩]) ∧
      update_line_data.candidate md_example ui_example line_flat 1 1 1 =
        some (⟨qreal.num (18713/20), qreal.num (12647/20)⟩, ⟨qreal.num (19847/20), qreal.num (12647/20)⟩) ∧
      (12647/20 : ℚ) < 6607/10 ∧
      update_line_data.loop md_example ui_example line_flat 1 1 1 false =
        some ([⟨qreal.num (9073/10), qreal.num (6607/10)⟩, ⟨qreal.num (18713/20), qreal.num (12647/20)⟩],
          [⟨qreal.num (19847/20), qreal.num (12647/20)⟩, ⟨qreal.num (10207/10), qreal.num (6607/10)⟩])) ∧
    (update_line_data.loop md_example ui_example line_dip 1 1 0 false =
        some ([⟨qreal.num (9073/10), qreal.num (6607/10)⟩], [⟨qreal.num (10207/10), qreal.num (6607/10)⟩]) ∧
      update_line_data.candidate md_example ui_example line_dip 1 1 1 =
        some (⟨qreal.num (18713/20), qreal.num (3587/5)⟩, ⟨qreal.num (19847/20), qreal.num (3587/5)⟩) ∧
      ¬ ((3587/5 : ℚ) < 6607/10) ∧
      update_line_data.loop md_example ui_example line_dip 1 1 1 false =
        some ([⟨qreal.num (9073/10), qreal.num (6607/10)⟩], [⟨qreal.num (10207/10), qreal.num (6607/10)⟩])) := by
  decide!

/-- C6 (amended): with `allow_invert = false`, let `(L, R)` be the state of the
loop after the samples `0..n-1` and let sample `n` pass the distance and
visibility tests with projections `left` and `right`.  Then the sample is
either suppressed (the state stays `(L, R)`) or appended (`left` at the end of
`L`, `right` at the front of `R`), and it is suppressed exactly when a left-edge
point has already been kept and the sample's left projection has a greater
screen-Y than the most recently kept left-edge point `back` (it lies below it
on the screen). -/
theorem C6_update_line_data_suppression (md : ModelConstants) (s : UIState)
    (line : XYZTData) (y_off z_off : ℚ) (n : Nat) (L R : List QPointF)
    (left right : QPointF)
    (hrun : update_line_data.loop md s line y_off z_off ((n : Int) - 1) false = some (L, R))
    (hcand : update_line_data.candidate md s line y_off z_off n = some (left, right)) :
    (update_line_data.loop md s line y_off z_off (n : Int) false = some (L, R) ∨
      update_line_data.loop md s line y_off z_off (n : Int) false =
        some (L ++ [left], right :: R)) ∧
    (update_line_data.loop md s line y_off z_off (n : Int) false = some (L, R) ↔
      ∃ back, L.getLast? = some back ∧ back.y < left.y) := by
  have hok := update_line_data.sample_ok_of_candidate md s line y_off z_off n _ hcand
  have hstep : update_line_data.loop md s line y_off z_off (n : Int) false =
      some (if false = false ∧ L.length ≠ 0 ∧ left.y > (L.getLastD QPointF.null).y then (L, R)
        else (L ++ [left], right :: R)) := by
    rw [update_line_data.loop_succ, hrun, Option.some_bind,
      update_line_data.body_eq md s line y_off z_off false _ n hok, hcand]
  have hiff : (false = false ∧ L.length ≠ 0 ∧ left.y > (L.getLastD QPointF.null).y) ↔
      ∃ back, L.getLast? = some back ∧ back.y < left.y := by
    rcases List.eq_nil_or_concat L with hnil | ⟨init, e, hcat⟩
    · subst hnil
      simp
    · subst hcat
      simp
  by_cases hsup : false = false ∧ L.length ≠ 0 ∧ left.y > (L.getLastD QPointF.null).y
  · rw [if_pos hsup] at hstep
    exact ⟨Or.inl hstep, fun _ => hiff.mp hsup, fun _ => hstep⟩
  · rw [if_neg hsup] at hstep
    refine ⟨Or.inr hstep, fun h => ?_, fun h => absurd (hiff.mpr h) hsup⟩
    rw [hstep] at h
    have hlen := congrArg (fun st : List QPointF × List QPointF => st.1.length)
      (Option.some.inj h)
    simp at hlen

/-- C6 (amended) on the road with a dip: the second sample is suppressed. -/
theorem C6_update_line_data_suppression_witness :
    update_line_data.loop md_example ui_example line_dip 1 1 ((1 : Nat) - 1 : Int) false =
      some ([⟨qreal.num (9073/10), qreal.num (6607/10)⟩], [⟨qreal.num (10207/10), qreal.num (6607/10)⟩]) ∧
    update_line_data.candidate md_example ui_example line_dip 1 1 1 =
      some (⟨qreal.num (18713/20), qreal.num (3587/5)⟩, ⟨qreal.num (19847/20), qreal.num (3587/5)⟩) ∧
    (update_line_data.loop md_example ui_example line_dip 1 1 ((1 : Nat) : Int) false =
        some ([⟨qreal.num (9073/10), qreal.num (6607/10)⟩], [⟨qreal.num (10207/10), qreal.num (6607/10)⟩]) ∨
      update_line_data.loop md_example ui_example line_dip 1 1 ((1 : Nat) : Int) false =
        some ([⟨qreal.num (9073/10), qreal.num (6607/10)⟩] ++ [⟨qreal.num (18713/20), qreal.num (3587/5)⟩],
          ⟨qreal.num (19847/20), qreal.num (3587/5)⟩ :: [⟨qreal.num (10207/10), qreal.num (6607/10)⟩])) ∧
    (update_line_data.loop md_example ui_example line_dip 1 1 ((1 : Nat) : Int) false =
        some ([⟨qreal.num (9073/10), qreal.num (6607/10)⟩], [⟨qreal.num (10207/10), qreal.num (6607/10)⟩]) ↔
      ∃ back, [(⟨qreal.num (9073/10), qreal.num (6607/10)⟩ : QPointF)].getLast? = some back ∧
        back.y < (⟨qreal.num (18713/20), qreal.num (3587/5)⟩ : QPointF).y) :=
  ⟨by decide!, by decide!,
    C6_update_line_data_suppression md_example ui_example line_dip 1 1 1
      [⟨qreal.num (9073/10), qreal.num (6607/10)⟩] [⟨qreal.num (10207/10), qreal.num (6607/10)⟩] ⟨qreal.num (18713/20), qreal.num (3587/5)⟩ ⟨qreal.num (19847/20), qreal.num (3587/5)⟩
      (by decide!) (by decide!)⟩

/-- C7 (as stated) fails: on the road with a dip the two candidate samples have
left-edge screen-Y values `6607/10 ≤ 3587/5`, monotonic (increasing) along the
trajectory, and inversion suppression removes the second sample: the outputs
for `allow_invert = false` and `allow_invert = true` differ. -/
theorem C7_counterexample :
    update_line_data.candidate md_example ui_example line_dip 1 1 0 =
      some (⟨qreal.num (9073/10), qreal.num (6607/10)⟩, ⟨qreal.num (10207/10), qreal.num (6607/10)⟩) ∧
    update_line_data.candidate md_example ui_example line_dip 1 1 1 =
      some (⟨qreal.num (18713/20), qreal.num (3587/5)⟩, ⟨qreal.num (19847/20), qreal.num (3587/5)⟩) ∧
    (6607/10 : ℚ) ≤ 3587/5 ∧
    update_line_data md_example ui_example line_dip 1 1 1 false =
      some [⟨qreal.num (9073/10), qreal.num (6607/10)⟩, ⟨qreal.num (10207/10), qreal.num (6607/10)⟩] ∧
    update_line_data md_example ui_example line_dip 1 1 1 true =
      some [⟨qreal.num (9073/10), qreal.num (6607/10)⟩, ⟨qreal.num (18713/20), qreal.num (3587/5)⟩, ⟨qreal.num (19847/20), qreal.num (3587/5)⟩,
        ⟨qreal.num (10207/10), qreal.num (6607/10)⟩] ∧
    update_line_data md_example ui_example line_dip 1 1 1 false ≠
      update_line_data md_example ui_example line_dip 1 1 1 true := by
  decide!

/-- C7 (amended): with `allow_invert = false`, on every input whose samples
`0..max_idx` are read inside the lists and whose candidate samples' projected
left-edge screen-Y values never increase along the trajectory (no candidate's
value is greater than the value of an earlier candidate), `update_line_data`
suppresses no sample: its output equals the output for the same input with
`allow_invert = true`. -/
theorem C7_update_line_data_no_suppression (md : ModelConstants) (s : UIState)
    (line : XYZTData) (y_off z_off : ℚ) (max_idx : Int)
    (hok : update_line_data.input_ok line max_idx = true)
    (hmono : (((List.range (max_idx + 1).toNat).filterMap
        (update_line_data.candidate md s line y_off z_off)).map
          (fun c => c.1.y)).Pairwise (fun a b => ¬ b > a)) :
    ∃ pvd, update_line_data md s line y_off z_off max_idx false = some pvd ∧
      update_line_data md s line y_off z_off max_idx true = some pvd := by
  have hok' : ∀ i, i < (max_idx + 1).toNat →
      update_line_data.sample_ok line i = true := by
    intro i hi
    exact List.all_eq_true.mp hok i (List.mem_range.mpr hi)
  have hpw := List.pairwise_map.mp hmono
  have hrel := update_line_data.rel_of_pairwise_filterMap
    (update_line_data.candidate md s line y_off z_off)
    (fun a b : QPointF × QPointF => ¬ b.1.y > a.1.y) (max_idx + 1).toNat hpw
  have heq := update_line_data.fold_suppression_idle md s line y_off z_off
    (max_idx + 1).toNat hok' hrel
  obtain ⟨kept, hloop, _, _, _⟩ :=
    update_line_data.loop_inv md s line y_off z_off max_idx true hok
  refine ⟨kept.map (fun e => e.2.1) ++ (kept.map (fun e => e.2.2)).reverse, ?_, ?_⟩
  · unfold update_line_data update_line_data.loop
    rw [heq]
    unfold update_line_data.loop at hloop
    rw [hloop]
    rfl
  · unfold update_line_data
    rw [hloop]
    rfl

/-- C7 (amended) on the flat road, whose projected left edge rises on the
screen (screen-Y `6607/10, 12647/20, 24727/40`). -/
theorem C7_update_line_data_no_suppression_witness :
    update_line_data.input_ok line_flat 2 = true ∧
    (((List.range ((2 : Int) + 1).toNat).filterMap
        (update_line_data.candidate md_example ui_example line_flat 1 1)).map
          (fun c => c.1.y)).Pairwise (fun a b => ¬ b > a) ∧
    ∃ pvd, update_line_data md_example ui_example line_flat 1 1 2 false = some pvd ∧
      update_line_data md_example ui_example line_flat 1 1 2 true = some pvd :=
  ⟨by decide, by decide!,
    C7_update_line_data_no_suppression md_example ui_example line_flat 1 1 2
      (by decide) (by decide!)⟩

/-! ## Claims on `calib_frame_to_full_frame` -/

/-- C9 (as stated) fails: the point one metre behind the camera,
`(-1, 0, 0)`, has the depth `KEp.v[2] = -1 < 0`, and
`calib_frame_to_full_frame` reports it visible and writes the screen point
`(964, 604)` to `*out`. -/
theorem C9_counterexample :
    (calib_frame_to_full_frame.KEp md_example ui_example (-1) 0 0).v2 = -1 ∧
    ((-1 : ℚ) < 0) ∧
    calib_frame_to_full_frame md_example ui_example (-1) 0 0 ⟨qreal.num 7, qreal.num 7⟩ =
      (true, ⟨qreal.num 964, qreal.num 604⟩) := by
  decide!

/-- C9 (amended): `calib_frame_to_full_frame` has no depth guard.  For a point
of negative depth on a frame buffer of non-negative size the projected point
is a pair of numbers `(px, py)`, and the function applies the clip test alone:
it reports the point visible and writes the projected point to `*out` when that
point lies in the clip region `[-500, fb_w + 500] × [-500, fb_h + 500]`, and
reports it not visible, leaving `*out` unchanged, otherwise. -/
theorem C9_calib_frame_to_full_frame_negative_depth (md : ModelConstants) (s : UIState)
    (in_x in_y in_z : ℚ) (out : QPointF)
    (hz : (calib_frame_to_full_frame.KEp md s in_x in_y in_z).v2 < 0)
    (hw : 0 ≤ s.fb_w) (hh : 0 ≤ s.fb_h) :
    ∃ px py : ℚ,
      calib_frame_to_full_frame.point md s in_x in_y in_z = ⟨qreal.num px, qreal.num py⟩ ∧
      calib_frame_to_full_frame md s in_x in_y in_z out =
        if -500 ≤ px ∧ px ≤ (s.fb_w : ℚ) + 500 ∧ -500 ≤ py ∧ py ≤ (s.fb_h : ℚ) + 500
        then (true, calib_frame_to_full_frame.point md s in_x in_y in_z)
        else (false, out) := by
  obtain ⟨px, py, hp⟩ : ∃ px py : ℚ,
      calib_frame_to_full_frame.point md s in_x in_y in_z = ⟨qreal.num px, qreal.num py⟩ :=
    ⟨_, _, calib_frame_to_full_frame.point_num md s in_x in_y in_z (ne_of_lt hz)⟩
  refine ⟨px, py, hp, ?_⟩
  have hclip := calib_frame_to_full_frame.clip_region_contains_num s px py hw hh
  rw [← hp] at hclip
  unfold calib_frame_to_full_frame
  by_cases hc : (calib_frame_to_full_frame.clip_region s).contains
      (calib_frame_to_full_frame.point md s in_x in_y in_z) = true
  · simp only [hc, if_true]
    rw [if_pos (hclip.mp hc)]
  · simp only [hc]
    rw [if_neg (fun h => hc (hclip.mpr h))]
    rfl

/-- C9 (amended) at a point five metres behind the camera and ten metres to
the side, which projects outside the clip region. -/
theorem C9_calib_frame_to_full_frame_negative_depth_witness :
    (calib_frame_to_full_frame.KEp md_example ui_example (-5) 10 0).v2 < 0 ∧
    0 ≤ ui_example.fb_w ∧ 0 ≤ ui_example.fb_h ∧
    ∃ px py : ℚ,
      calib_frame_to_full_frame.point md_example ui_example (-5) 10 0 =
        ⟨qreal.num px, qreal.num py⟩ ∧
      calib_frame_to_full_frame md_example ui_example (-5) 10 0 ⟨qreal.num 7, qreal.num 7⟩ =
        if -500 ≤ px ∧ px ≤ (ui_example.fb_w : ℚ) + 500 ∧
            -500 ≤ py ∧ py ≤ (ui_example.fb_h : ℚ) + 500
        then (true, calib_frame_to_full_frame.point md_example ui_example (-5) 10 0)
        else (false, ⟨qreal.num 7, qreal.num 7⟩) :=
  ⟨by decide!, by decide, by decide,
    C9_calib_frame_to_full_frame_negative_depth md_example ui_example (-5) 10 0
      ⟨qreal.num 7, qreal.num 7⟩ (by decide!) (by decide) (by decide)⟩

/-! ## Lemmas on `update_model` -/

/-- `update_line_data` reads the UI state only through the frame-buffer size,
the screen transform, the camera flag and the two calibration matrices. -/
theorem update_line_data.congr_state (md : ModelConstants) (s s' : UIState)
    (hw : s'.fb_w = s.fb_w) (hh : s'.fb_h = s.fb_h)
    (ht : s'.car_space_transform = s.car_space_transform)
    (hc : s'.scene.wide_cam = s.scene.wide_cam)
    (hv : s'.scene.view_from_calib = s.scene.view_from_calib)
    (hvw : s'.scene.view_from_wide_calib = s.scene.view_from_wide_calib) :
    update_line_data md s' = update_line_data md s := by
  have hcal : calib_frame_to_full_frame md s' = calib_frame_to_full_frame md s := by
    funext in_x in_y in_z out
    simp only [calib_frame_to_full_frame, calib_frame_to_full_frame.KEp,
      calib_frame_to_full_frame.point, calib_frame_to_full_frame.clip_region,
      hw, hh, ht, hc, hv, hvw]
  have hl : update_line_data.left md s' = update_line_data.left md s := by
    funext line y_off z_off i
    simp only [update_line_data.left, hcal]
  have hr : update_line_data.right md s' = update_line_data.right md s := by
    funext line y_off z_off i
    simp only [update_line_data.right, hcal]
  have hb : update_line_data.body md s' = update_line_data.body md s := by
    funext line y_off z_off allow_invert st i
    simp only [update_line_data.body, hl, hr]
  funext line y_off z_off max_idx allow_invert
  simp only [update_line_data, update_line_data.loop, hb]

/-- The part of the UI state that the geometry pipeline reads but
`update_model` does not write. -/
theorem update_model.step_frame (md : ModelConstants) (model : ModelDataV2) (max_idx : Int)
    (step : UIState → Nat → Option UIState)
    (hstep : step = update_model.lane_line_step md model max_idx ∨
      step = update_model.road_edge_step md model max_idx) :
    ∀ (l : List Nat) (s s' : UIState), l.foldlM step s = some s' →
      s'.fb_w = s.fb_w ∧ s'.fb_h = s.fb_h ∧ s'.car_space_transform = s.car_space_transform ∧
      s'.scene.wide_cam = s.scene.wide_cam ∧
      s'.scene.view_from_calib = s.scene.view_from_calib ∧
      s'.scene.view_from_wide_calib = s.scene.view_from_wide_calib ∧ s'.sm = s.sm := by
  have hone : ∀ (s s' : UIState) (i : Nat), step s i = some s' →
      s'.fb_w = s.fb_w ∧ s'.fb_h = s.fb_h ∧ s'.car_space_transform = s.car_space_transform ∧
      s'.scene.wide_cam = s.scene.wide_cam ∧
      s'.scene.view_from_calib = s.scene.view_from_calib ∧
      s'.scene.view_from_wide_calib = s.scene.view_from_wide_calib ∧ s'.sm = s.sm := by
    intro s s' i h
    rcases hstep with hs | hs
    · subst hs
      unfold update_model.lane_line_step at h
      split at h
      · dsimp only at h
        split at h
        · cases h
        · split at h
          · cases h
          · cases h
            exact ⟨rfl, rfl, rfl, rfl, rfl, rfl, rfl⟩
      · cases h
    · subst hs
      unfold update_model.road_edge_step at h
      split at h
      · dsimp only at h
        split at h
        · cases h
        · cases h
          exact ⟨rfl, rfl, rfl, rfl, rfl, rfl, rfl⟩
      · cases h
  intro l
  induction l with
  | nil =>
    intro s s' h
    cases h
    exact ⟨rfl, rfl, rfl, rfl, rfl, rfl, rfl⟩
  | cons i l ih =>
    intro s s' h
    rw [List.foldlM_cons] at h
    cases h1 : step s i with
    | none =>
      rw [h1] at h
      cases h
    | some s1 =>
      rw [h1] at h
      obtain ⟨a1, a2, a3, a4, a5, a6, a7⟩ := hone s s1 i h1
      obtain ⟨b1, b2, b3, b4, b5, b6, b7⟩ := ih s1 s' h
      exact ⟨b1.trans a1, b2.trans a2, b3.trans a3, b4.trans a4, b5.trans a5, b6.trans a6,
        b7.trans a7⟩

/-! ## Lemmas on `float_round` -/

/-- The leading bit: `2^k ≤ n < 2^(k+1)` for `k = log2 fuel n`, when the fuel is
at least `n` and `n` is positive. -/
theorem float_round.log2_spec : ∀ (fuel n : Nat), 1 ≤ n → n ≤ fuel →
    2 ^ float_round.log2 fuel n ≤ n ∧ n < 2 ^ (float_round.log2 fuel n + 1) := by
  intro fuel
  induction fuel with
  | zero =>
    intro n h1 h2
    omega
  | succ fuel ih =>
    intro n h1 h2
    unfold float_round.log2
    by_cases h : 2 ≤ n
    · rw [if_pos h]
      obtain ⟨ha, hb⟩ := ih (n / 2) (by omega) (by omega)
      rw [pow_succ] at hb ⊢
      rw [pow_succ (2 : Nat) (float_round.log2 fuel (n / 2) + 1), pow_succ]
      generalize 2 ^ float_round.log2 fuel (n / 2) = p at ha hb ⊢
      constructor <;> omega
    · rw [if_neg h]
      constructor <;> simp <;> omega

/-- The exponent of a positive number. -/
theorem float_round.exponent_spec (a : ℚ) (ha : 0 < a) :
    (2 : ℚ) ^ float_round.exponent a ≤ a ∧ a < (2 : ℚ) ^ (float_round.exponent a + 1) := by
  have hnum : 0 < a.num := Rat.num_pos.mpr ha
  have hden : 0 < a.den := a.den_pos
  have hnat : 1 ≤ a.num.natAbs := by omega
  obtain ⟨hP1, hP2⟩ := float_round.log2_spec a.num.natAbs a.num.natAbs hnat le_rfl
  obtain ⟨hQ1, hQ2⟩ := float_round.log2_spec a.den a.den hden le_rfl
  unfold float_round.exponent
  dsimp only
  generalize float_round.log2 a.num.natAbs a.num.natAbs = P at hP1 hP2 ⊢
  generalize float_round.log2 a.den a.den = Q at hQ1 hQ2 ⊢
  have hA : a = (a.num.natAbs : ℚ) / (a.den : ℚ) := by
    have h1 : (a.num.natAbs : Int) = a.num := Int.natAbs_of_nonneg (le_of_lt hnum)
    have h2 : ((a.num.natAbs : ℚ)) = (a.num : ℚ) := by
      rw [← Int.cast_natCast, h1]
    rw [h2]
    exact (Rat.num_div_den a).symm
  have hN1 : (2 : ℚ) ^ P ≤ (a.num.natAbs : ℚ) := by exact_mod_cast hP1
  have hN2 : (a.num.natAbs : ℚ) < 2 * (2 : ℚ) ^ P := by
    have : (a.num.natAbs : ℚ) < (2 : ℚ) ^ (P + 1) := by exact_mod_cast hP2
    rw [pow_succ] at this
    linarith
  have hD1 : (2 : ℚ) ^ Q ≤ (a.den : ℚ) := by exact_mod_cast hQ1
  have hD2 : (a.den : ℚ) < 2 * (2 : ℚ) ^ Q := by
    have : (a.den : ℚ) < (2 : ℚ) ^ (Q + 1) := by exact_mod_cast hQ2
    rw [pow_succ] at this
    linarith
  have hpP : (0 : ℚ) < (2 : ℚ) ^ P := by positivity
  have hpQ : (0 : ℚ) < (2 : ℚ) ^ Q := by positivity
  have hDpos : (0 : ℚ) < (a.den : ℚ) := by exact_mod_cast hden
  have hzp : (2 : ℚ) ^ ((P : Int) - (Q : Int)) = (2 : ℚ) ^ P / (2 : ℚ) ^ Q := by
    rw [zpow_sub₀ (by norm_num : (2 : ℚ) ≠ 0), zpow_natCast, zpow_natCast]
  generalize (a.num.natAbs : ℚ) = N at hA hN1 hN2
  generalize (a.den : ℚ) = D at hA hD1 hD2 hDpos
  generalize (2 : ℚ) ^ P = pP at hzp hN1 hN2 hpP
  generalize (2 : ℚ) ^ Q = pQ at hzp hD1 hD2 hpQ
  by_cases h : (2 : ℚ) ^ ((P : Int) - (Q : Int)) ≤ a
  · rw [if_pos h]
    refine ⟨h, ?_⟩
    rw [zpow_add_one₀ (by norm_num : (2 : ℚ) ≠ 0), hzp, hA, div_mul_eq_mul_div,
      div_lt_div_iff₀ hDpos hpQ]
    nlinarith
  · rw [if_neg h]
    have h' := not_le.mp h
    refine ⟨?_, ?_⟩
    · rw [zpow_sub_one₀ (by norm_num : (2 : ℚ) ≠ 0), hzp, hA]
      rw [show pP / pQ * (2 : ℚ)⁻¹ = pP / (pQ * 2) by field_simp,
        div_le_div_iff₀ (by positivity) hDpos]
      nlinarith
    · rw [sub_add_cancel]
      exact h'

/-- What `float_round` computes on a number other than zero.  With `e` the
exponent of `|q|` (`2^e ≤ |q| < 2^(e+1)`), the result is `± m · 2^(e-23)` for an
integer significand `2^23 ≤ m ≤ 2^24`; it lies within half a unit in the last
place (`2^(e-24)`) of `q`, and when `q` is half-way between two such numbers
the significand `m` is even. -/
theorem float_round_spec (q : ℚ) (hq : q ≠ 0) :
    ∃ (e m : Int), (2 : ℚ) ^ e ≤ |q| ∧ |q| < (2 : ℚ) ^ (e + 1) ∧
      2 ^ 23 ≤ m ∧ m ≤ 2 ^ 24 ∧
      float_round q = (if q < 0 then -1 else 1) * (m : ℚ) * (2 : ℚ) ^ (e - 23) ∧
      |float_round q - q| ≤ (2 : ℚ) ^ (e - 24) ∧
      (|(m : ℚ) - |q| / (2 : ℚ) ^ (e - 23)| = 1 / 2 → m % 2 = 0) := by
  have ha : 0 < |q| := abs_pos.mpr hq
  obtain ⟨he1, he2⟩ := float_round.exponent_spec |q| ha
  unfold float_round
  rw [if_neg hq]
  dsimp only
  generalize float_round.exponent |q| = e at he1 he2 ⊢
  have hulp : (0 : ℚ) < (2 : ℚ) ^ (e - 23) := by positivity
  have hn1 : (2 : ℚ) ^ (23 : Nat) ≤ |q| / (2 : ℚ) ^ (e - 23) := by
    rw [le_div_iff₀ hulp, ← zpow_natCast, ← zpow_add₀ (by norm_num : (2 : ℚ) ≠ 0)]
    simpa using he1
  have hn2 : |q| / (2 : ℚ) ^ (e - 23) < (2 : ℚ) ^ (24 : Nat) := by
    rw [div_lt_iff₀ hulp, ← zpow_natCast, ← zpow_add₀ (by norm_num : (2 : ℚ) ≠ 0)]
    have : ((24 : Nat) : Int) + (e - 23) = e + 1 := by omega
    rw [this]
    exact he2
  have hq_eq : |q| = |q| / (2 : ℚ) ^ (e - 23) * (2 : ℚ) ^ (e - 23) := by
    field_simp
  generalize hn : |q| / (2 : ℚ) ^ (e - 23) = n at hn1 hn2 hq_eq ⊢
  have hf1 : ((Rat.floor n : Int) : ℚ) ≤ n := Int.floor_le n
  have hf2 : n < ((Rat.floor n : Int) : ℚ) + 1 := Int.lt_floor_add_one n
  have hf3 : (2 : Int) ^ 23 ≤ Rat.floor n := by
    apply Rat.le_floor.mpr
    exact_mod_cast hn1
  have hf4 : Rat.floor n < (2 : Int) ^ 24 := by
    have h : Int.floor n < (2 : Int) ^ 24 := by
      rw [Int.floor_lt]
      exact_mod_cast hn2
    exact h
  generalize Rat.floor n = f at hf1 hf2 hf3 hf4 ⊢
  have hm : ∀ m : Int, (m = f ∨ m = f + 1) → |(m : ℚ) - n| ≤ 1 / 2 →
      (|(m : ℚ) - n| = 1 / 2 → m % 2 = 0) →
      (2 : ℚ) ^ e ≤ |q| ∧ |q| < (2 : ℚ) ^ (e + 1) ∧ 2 ^ 23 ≤ m ∧ m ≤ 2 ^ 24 ∧
        (if q < 0 then -1 else 1) * (m : ℚ) * (2 : ℚ) ^ (e - 23) =
          (if q < 0 then -1 else 1) * (m : ℚ) * (2 : ℚ) ^ (e - 23) ∧
        |(if q < 0 then -1 else 1) * (m : ℚ) * (2 : ℚ) ^ (e - 23) - q| ≤
          (2 : ℚ) ^ (e - 24) ∧
        (|(m : ℚ) - n| = 1 / 2 → m % 2 = 0) := by
    intro m hmf hmn hev
    refine ⟨he1, he2, by rcases hmf with h | h <;> omega, by rcases hmf with h | h <;> omega,
      rfl, ?_, hev⟩
    have hhalf : (2 : ℚ) ^ (e - 24) = (2 : ℚ) ^ (e - 23) / 2 := by
      rw [show e - 24 = e - 23 - 1 by omega, zpow_sub_one₀ (by norm_num : (2 : ℚ) ≠ 0)]
      rfl
    have hdiff : (if q < 0 then (-1 : ℚ) else 1) * (m : ℚ) * (2 : ℚ) ^ (e - 23) - q =
        (if q < 0 then (-1 : ℚ) else 1) * (((m : ℚ) - n) * (2 : ℚ) ^ (e - 23)) := by
      by_cases hneg : q < 0
      · rw [if_pos hneg]
        have : |q| = -q := abs_of_neg hneg
        rw [this] at hq_eq
        linear_combination hq_eq
      · rw [if_neg hneg]
        have : |q| = q := abs_of_nonneg (not_lt.mp hneg)
        rw [this] at hq_eq
        linear_combination -hq_eq
    rw [hdiff, abs_mul, abs_mul, abs_of_pos hulp, hhalf]
    have hsign : |(if q < 0 then (-1 : ℚ) else 1)| = 1 := by
      by_cases hneg : q < 0
      · rw [if_pos hneg]
        norm_num
      · rw [if_neg hneg]
        norm_num
    rw [hsign, one_mul]
    nlinarith
  have habs_f : |(f : ℚ) - n| = n - (f : ℚ) := by
    rw [abs_sub_comm]
    exact abs_of_nonneg (by linarith)
  have habs_f1 : |((f + 1 : Int) : ℚ) - n| = (f : ℚ) + 1 - n := by
    push_cast
    exact abs_of_nonneg (by linarith)
  have hfin : ∀ m : Int, (m = f ∨ m = f + 1) → |(m : ℚ) - n| ≤ 1 / 2 →
      (|(m : ℚ) - n| = 1 / 2 → m % 2 = 0) →
      ∃ (e' m' : Int), (2 : ℚ) ^ e' ≤ |q| ∧ |q| < (2 : ℚ) ^ (e' + 1) ∧
        2 ^ 23 ≤ m' ∧ m' ≤ 2 ^ 24 ∧
        (if q < 0 then -1 else 1) * (m : ℚ) * (2 : ℚ) ^ (e - 23) =
          (if q < 0 then -1 else 1) * (m' : ℚ) * (2 : ℚ) ^ (e' - 23) ∧
        |(if q < 0 then -1 else 1) * (m : ℚ) * (2 : ℚ) ^ (e - 23) - q| ≤
          (2 : ℚ) ^ (e' - 24) ∧
        (|(m' : ℚ) - |q| / (2 : ℚ) ^ (e' - 23)| = 1 / 2 → m' % 2 = 0) := by
    intro m hmf hmn hev
    obtain ⟨a1, a2, a3, a4, a5, a6, a7⟩ := hm m hmf hmn hev
    exact ⟨e, m, a1, a2, a3, a4, a5, a6, by rw [hn]; exact a7⟩
  by_cases h1 : n - (f : ℚ) < 1 / 2
  · rw [if_pos h1]
    refine hfin f (Or.inl rfl) (by rw [habs_f]; linarith) ?_
    intro h
    rw [habs_f] at h
    linarith
  · rw [if_neg h1]
    by_cases h2 : 1 / 2 < n - (f : ℚ)
    · rw [if_pos h2]
      refine hfin (f + 1) (Or.inr rfl) (by rw [habs_f1]; linarith) ?_
      intro h
      rw [habs_f1] at h
      linarith
    · rw [if_neg h2]
      by_cases h3 : f % 2 = 0
      · rw [if_pos h3]
        exact hfin f (Or.inl rfl) (by rw [habs_f]; linarith) (fun _ => h3)
      · rw [if_neg h3]
        exact hfin (f + 1) (Or.inr rfl) (by rw [habs_f1]; linarith) (fun _ => by omega)

/-- The rounding to `float` on known values: `0.1f`, `0.9f`, `18.2f`; numbers
with a short significand are unchanged; a tie goes to the even significand
(`2^24 + 1` down, `2^24 + 3` up); the rounding is odd. -/
theorem float_round_examples :
    float_round (1/10) = 13421773/134217728 ∧
    float_round (9/10) = 7549747/8388608 ∧
    float_round (91/5) = 4771021/262144 ∧
    float_round 28 = 28 ∧ float_round 90 = 90 ∧ float_round (3/8) = 3/8 ∧
    float_round 16777217 = 16777216 ∧ float_round 16777219 = 16777220 ∧
    float_round (-91/5) = -4771021/262144 := by
  decide!

/-! ## The draw distance of the path and the run of `update_model` -/

/-- With a tracked lead at the relative distance `d`, the draw distance of the
path is `clamp(fl(l - min(0.35 l, 10)), 0, m)` with `l = fl(2 d)`, where `fl` is
the rounding to `float`; when `2 d` is a `float`, `0.35 l` is `0.7 d`. -/
theorem update_model.path_distance_lead (lead_one : LeadData) (m : ℚ)
    (hlead : lead_one.status = true) :
    update_model.path_distance lead_one m =
        std_clamp (float_round (float_round (2 * lead_one.dRel) -
          min (0.35 * float_round (2 * lead_one.dRel)) 10)) 0 m ∧
      (float_round (2 * lead_one.dRel) = 2 * lead_one.dRel →
        update_model.path_distance lead_one m =
          std_clamp (float_round (2 * lead_one.dRel - min (0.7 * lead_one.dRel) 10)) 0 m) := by
  unfold update_model.path_distance
  rw [if_pos hlead]
  have h2 : lead_one.dRel * 2 = 2 * lead_one.dRel := by ring
  dsimp only
  rw [h2, mul_comm (float_round (2 * lead_one.dRel)) 0.35]
  refine ⟨rfl, fun h => ?_⟩
  rw [h]
  have h1 : (0.35 : ℚ) * (2 * lead_one.dRel) = 0.7 * lead_one.dRel := by
    norm_num
    ring
  rw [h1]

/-- A line with `TRAJECTORY_SIZE` samples is read inside its lists up to every
index below `TRAJECTORY_SIZE`. -/
theorem update_line_data.input_ok_of_full (line : XYZTData) (hfull : line.full = true)
    (idx : Nat) (hidx : idx < TRAJECTORY_SIZE) :
    update_line_data.input_ok line (idx : Int) = true := by
  unfold XYZTData.full at hfull
  obtain ⟨hx, hy, hz⟩ := of_decide_eq_true hfull
  unfold update_line_data.input_ok
  rw [List.all_eq_true]
  intro i hi
  have hi' : i < idx + 1 := by
    have := List.mem_range.mp hi
    omega
  unfold update_line_data.sample_ok
  rw [List.getElem?_eq_getElem (show i < line.x.length by omega),
    List.getElem?_eq_getElem (show i < line.y.length by omega),
    List.getElem?_eq_getElem (show i < line.z.length by omega)]
  simp

/-- On a line with `TRAJECTORY_SIZE` samples `update_line_data` writes a polygon,
for every index bound below `TRAJECTORY_SIZE`. -/
theorem update_line_data.returns_of_full (md : ModelConstants) (s : UIState) (line : XYZTData)
    (y_off z_off : ℚ) (allow_invert : Bool) (hfull : line.full = true)
    (idx : Nat) (hidx : idx < TRAJECTORY_SIZE) :
    ∃ pvd, update_line_data md s line y_off z_off (idx : Int) allow_invert = some pvd := by
  obtain ⟨kept, hloop, _, _, _⟩ :=
    update_line_data.loop_inv md s line y_off z_off (idx : Int) allow_invert
      (update_line_data.input_ok_of_full line hfull idx hidx)
  refine ⟨kept.map (fun e => e.2.1) ++ (kept.map (fun e => e.2.2)).reverse, ?_⟩
  unfold update_line_data
  rw [hloop]
  rfl

/-- The lane-line loop of `update_model` returns on lines with `TRAJECTORY_SIZE`
samples; it leaves the size of `lane_line_probs` and the road-edge polygons as
they were. -/
theorem update_model.lane_line_loop_returns (md : ModelConstants) (model : ModelDataV2)
    (idx : Nat) (hidx : idx < TRAJECTORY_SIZE) :
    ∀ (n : Nat) (s : UIState), n ≤ model.laneLines.length → n ≤ model.laneLineProbs.length →
      n ≤ s.scene.lane_line_probs.length →
      (∀ (i : Nat) (line : XYZTData), i < n → model.laneLines[i]? = some line →
        line.full = true) →
      ∃ s1, (List.range n).foldlM (update_model.lane_line_step md model (idx : Int)) s =
          some s1 ∧
        s1.scene.lane_line_probs.length = s.scene.lane_line_probs.length ∧
        s1.scene.road_edge_vertices = s.scene.road_edge_vertices := by
  intro n
  induction n with
  | zero =>
    intro s _ _ _ _
    exact ⟨s, rfl, rfl, rfl⟩
  | succ n ih =>
    intro s h1 h2 h3 hfull
    obtain ⟨s1, hfold, hlen, hre⟩ := ih s (by omega) (by omega) (by omega)
      (fun i line hi hl => hfull i line (by omega) hl)
    have hline : model.laneLines[n]? = some model.laneLines[n] :=
      List.getElem?_eq_getElem (by omega)
    have hprob : model.laneLineProbs[n]? = some model.laneLineProbs[n] :=
      List.getElem?_eq_getElem (by omega)
    have hset : (s1.scene.lane_line_probs.set n model.laneLineProbs[n])[n]? =
        some model.laneLineProbs[n] := by
      rw [List.getElem?_set_self (by omega)]
    obtain ⟨pvd, hpvd⟩ := update_line_data.returns_of_full md
      { s1 with scene := { s1.scene with
          lane_line_probs := s1.scene.lane_line_probs.set n model.laneLineProbs[n] } }
      model.laneLines[n] (0.025 * model.laneLineProbs[n]) 0 true
      (hfull n _ (by omega) hline) idx hidx
    have hstep : update_model.lane_line_step md model (idx : Int) s1 n =
        some { s1 with scene := { s1.scene with
          lane_line_probs := s1.scene.lane_line_probs.set n model.laneLineProbs[n],
          lane_line_vertices := s1.scene.lane_line_vertices.set n pvd } } := by
      unfold update_model.lane_line_step
      simp only [hline, hprob, hset, hpvd]
    refine ⟨{ s1 with scene := { s1.scene with
        lane_line_probs := s1.scene.lane_line_probs.set n model.laneLineProbs[n],
        lane_line_vertices := s1.scene.lane_line_vertices.set n pvd } }, ?_, ?_, ?_⟩
    · rw [List.range_succ, List.foldlM_append, hfold]
      simp only [Option.bind_eq_bind, Option.some_bind, List.foldlM_cons, List.foldlM_nil, hstep]
      rfl
    · simp only [List.length_set]
      exact hlen
    · exact hre

/-- The road-edge loop of `update_model` returns on lines with `TRAJECTORY_SIZE`
samples. -/
theorem update_model.road_edge_loop_returns (md : ModelConstants) (model : ModelDataV2)
    (idx : Nat) (hidx : idx < TRAJECTORY_SIZE) :
    ∀ (n : Nat) (s : UIState), n ≤ model.roadEdges.length → n ≤ model.roadEdgeStds.length →
      (∀ (i : Nat) (line : XYZTData), i < n → model.roadEdges[i]? = some line →
        line.full = true) →
      ∃ s1, (List.range n).foldlM (update_model.road_edge_step md model (idx : Int)) s =
          some s1 := by
  intro n
  induction n with
  | zero =>
    intro s _ _ _
    exact ⟨s, rfl⟩
  | succ n ih =>
    intro s h1 h2 hfull
    obtain ⟨s1, hfold⟩ := ih s (by omega) (by omega)
      (fun i line hi hl => hfull i line (by omega) hl)
    have hline : model.roadEdges[n]? = some model.roadEdges[n] :=
      List.getElem?_eq_getElem (by omega)
    have hstd : model.roadEdgeStds[n]? = some model.roadEdgeStds[n] :=
      List.getElem?_eq_getElem (by omega)
    obtain ⟨pvd, hpvd⟩ := update_line_data.returns_of_full md
      { s1 with scene := { s1.scene with
          road_edge_stds := s1.scene.road_edge_stds.set n model.roadEdgeStds[n] } }
      model.roadEdges[n] 0.025 0 true (hfull n _ (by omega) hline) idx hidx
    have hstep : update_model.road_edge_step md model (idx : Int) s1 n =
        some { s1 with scene := { s1.scene with
          road_edge_stds := s1.scene.road_edge_stds.set n model.roadEdgeStds[n],
          road_edge_vertices := s1.scene.road_edge_vertices.set n pvd } } := by
      unfold update_model.road_edge_step
      simp only [hline, hstd, hpvd]
    refine ⟨{ s1 with scene := { s1.scene with
        road_edge_stds := s1.scene.road_edge_stds.set n model.roadEdgeStds[n],
        road_edge_vertices := s1.scene.road_edge_vertices.set n pvd } }, ?_⟩
    rw [List.range_succ, List.foldlM_append, hfold]
    simp only [Option.bind_eq_bind, Option.some_bind, List.foldlM_cons, List.foldlM_nil, hstep]
    rfl

/-- An element read below the bound `n` belongs to the first `n` elements. -/
theorem update_model.mem_take {α : Type} (l : List α) (n i : Nat) (a : α) (hi : i < n)
    (ha : l[i]? = some a) : a ∈ l.take n := by
  have h : (l.take n)[i]? = some a := by
    rw [List.getElem?_take_of_lt hi]
    exact ha
  exact List.getElem?_mem h

/-- On a scene whose arrays have their declared sizes, and with messages that
are read inside their lists, `update_model` returns. -/
theorem update_model.returns (md : ModelConstants) (s : UIState) (model : ModelDataV2)
    (plan : UiPlan) (hscene : s.scene.sized = true)
    (hok : update_model.input_ok model plan = true) :
    ∃ s', update_model md s model plan = some s' := by
  unfold UIScene.sized at hscene
  obtain ⟨hs1, _, hs3, hs4⟩ := of_decide_eq_true hscene
  unfold update_model.input_ok at hok
  simp only [Bool.and_eq_true, decide_eq_true_eq, List.all_eq_true] at hok
  obtain ⟨⟨⟨hpos, hm1, hm2, hm3, hm4⟩, hlanes⟩, hedges⟩ := hok
  have hposx : TRAJECTORY_SIZE ≤
      (if plan.position.x.length < TRAJECTORY_SIZE then model.position
        else plan.position).x.length := by
    unfold XYZTData.full at hpos
    exact (of_decide_eq_true hpos).1
  unfold update_model
  dsimp only
  generalize (if plan.position.x.length < TRAJECTORY_SIZE then model.position
    else plan.position) = pp at hpos hposx ⊢
  have hlast : pp.x[TRAJECTORY_SIZE - 1]? = some pp.x[TRAJECTORY_SIZE - 1] :=
    List.getElem?_eq_getElem (by unfold TRAJECTORY_SIZE at hposx ⊢; omega)
  have hmax : update_model.max_distance md pp =
      some (std_clamp pp.x[TRAJECTORY_SIZE - 1] md.MIN_DRAW_DISTANCE md.MAX_DRAW_DISTANCE) := by
    unfold update_model.max_distance
    rw [hlast]
  have hline0 : model.laneLines[0]? = some model.laneLines[0] :=
    List.getElem?_eq_getElem (by omega)
  have hfull0 : (model.laneLines[0]).full = true :=
    hlanes _ (update_model.mem_take model.laneLines 4 0 _ (by omega) hline0)
  obtain ⟨idx, hidx, hidxT, _, _⟩ := get_path_length_idx_spec model.laneLines[0]
    (std_clamp pp.x[TRAJECTORY_SIZE - 1] md.MIN_DRAW_DISTANCE md.MAX_DRAW_DISTANCE)
    (by
      unfold XYZTData.full at hfull0
      exact (of_decide_eq_true hfull0).1)
  obtain ⟨s1, hlane, _, hre⟩ := update_model.lane_line_loop_returns md model idx hidxT
    s.scene.lane_line_vertices.length s (by omega) (by omega) (by omega)
    (fun i line hi hl =>
      hlanes line (update_model.mem_take model.laneLines 4 i line (by omega) hl))
  obtain ⟨s2, hroad⟩ := update_model.road_edge_loop_returns md model idx hidxT
    s1.scene.road_edge_vertices.length s1 (by rw [hre]; omega) (by rw [hre]; omega)
    (fun i line hi hl =>
      hedges line (update_model.mem_take model.roadEdges 2 i line (by rw [hre] at hi; omega) hl))
  obtain ⟨idx2, hidx2, hidx2T, _, _⟩ := get_path_length_idx_spec pp
    (update_model.path_distance s2.sm.radarState.leadOne
      (std_clamp pp.x[TRAJECTORY_SIZE - 1] md.MIN_DRAW_DISTANCE md.MAX_DRAW_DISTANCE)) hposx
  obtain ⟨pvd, hpvd⟩ := update_line_data.returns_of_full md s2 pp 0.9 1.22 false hpos
    idx2 hidx2T
  simp only [hmax, hline0, hidx, hlane, hroad, hidx2, hpvd]
  exact ⟨_, rfl⟩

/-! ## Claims on `update_model` -/

/-- C10 (as stated) fails: with lead one at `d = 14` and `m = 100` the code's
draw distance is `2·14 - min(0.7·14, 10) = 18.2` rounded to `float`,
`4771021/262144 = 18.2000008`, not `2·14 - min(0.35·14, 10) = 23.1` (nor its
rounding to `float`).  On `x = 0, 10, ..., 320` the two distances select
`max_idx` 1 and 2; and in a run of `update_model` on the path
`10, 20, ..., 330` the polygon written to `track_vertices` is the one for
`max_idx = 0`, while the distance 23.1 selects `max_idx = 1` and another
polygon. -/
theorem C10_counterexample :
    update_model.path_distance ⟨true, 14, 0⟩ 100 = 4771021/262144 ∧
    std_clamp (2 * 14 - min (0.35 * 14) 10) 0 100 = 231/10 ∧
    float_round (231/10) = 12111053/524288 ∧
    get_path_length_idx traj_step10 (4771021/262144) = some 1 ∧
    get_path_length_idx traj_step10 (231/10) = some 2 ∧
    get_path_length_idx traj_step10 (12111053/524288) = some 2 ∧
    update_model.max_distance md_example traj_from10 = some 100 ∧
    (update_model md_example (ui_with_lead 14) model_example plan_example).map
        (fun s => s.scene.track_vertices) =
      update_line_data md_example (ui_with_lead 14) traj_from10 0.9 1.22 0 false ∧
    get_path_length_idx traj_from10 (231/10) = some 1 ∧
    update_line_data md_example (ui_with_lead 14) traj_from10 0.9 1.22 0 false ≠
      update_line_data md_example (ui_with_lead 14) traj_from10 0.9 1.22 1 false := by
  decide!

/-- C10 (amended): on a scene whose arrays have their declared sizes and with
messages that are read inside their lists, a run of `update_model` in which
lead one has status true and relative distance `d` returns, and the path's draw
distance is `clamp(fl(l - min(0.35 l, 10)), 0, m)` with `l = fl(2 d)`, where `fl`
rounds to `float` and
`m = clamp(x[TRAJECTORY_SIZE-1], MIN_DRAW_DISTANCE, MAX_DRAW_DISTANCE)` is the
draw distance before the lead is considered; when `2 d` is a `float` this is
`clamp(fl(2 d - min(0.7 d, 10)), 0, m)`.  The polygon written to
`track_vertices` is the one `update_line_data` builds (half-width 0.9, vertical
offset 1.22, inversion suppression enabled) up to the index that
`get_path_length_idx` returns for that distance. -/
theorem C10_update_model_path_draw_distance (md : ModelConstants) (s : UIState)
    (model : ModelDataV2) (plan : UiPlan)
    (hlead : s.sm.radarState.leadOne.status = true)
    (hscene : s.scene.sized = true)
    (hok : update_model.input_ok model plan = true) :
    ∃ (x_last m : ℚ) (max_idx : Nat) (pvd : List QPointF),
      (if plan.position.x.length < TRAJECTORY_SIZE then model.position
        else plan.position).x[TRAJECTORY_SIZE - 1]? = some x_last ∧
      m = std_clamp x_last md.MIN_DRAW_DISTANCE md.MAX_DRAW_DISTANCE ∧
      update_model.path_distance s.sm.radarState.leadOne m =
        std_clamp (float_round (float_round (2 * s.sm.radarState.leadOne.dRel) -
          min (0.35 * float_round (2 * s.sm.radarState.leadOne.dRel)) 10)) 0 m ∧
      (float_round (2 * s.sm.radarState.leadOne.dRel) = 2 * s.sm.radarState.leadOne.dRel →
        update_model.path_distance s.sm.radarState.leadOne m =
          std_clamp (float_round (2 * s.sm.radarState.leadOne.dRel -
            min (0.7 * s.sm.radarState.leadOne.dRel) 10)) 0 m) ∧
      get_path_length_idx
          (if plan.position.x.length < TRAJECTORY_SIZE then model.position else plan.position)
          (update_model.path_distance s.sm.radarState.leadOne m) = some max_idx ∧
      update_line_data md s
          (if plan.position.x.length < TRAJECTORY_SIZE then model.position else plan.position)
          0.9 1.22 max_idx false = some pvd ∧
      (update_model md s model plan).map (fun s' => s'.scene.track_vertices) = some pvd := by
  obtain ⟨s', hs'⟩ := update_model.returns md s model plan hscene hok
  rw [hs', Option.map_some']
  unfold update_model at hs'
  dsimp only at hs'
  split at hs'
  · cases hs'
  · rename_i m hm
    split at hs'
    · cases hs'
    · rename_i line0 _
      split at hs'
      · cases hs'
      · rename_i max_idx _
        split at hs'
        · cases hs'
        · rename_i s1 hs1
          split at hs'
          · cases hs'
          · rename_i s2 hs2
            obtain ⟨a1, a2, a3, a4, a5, a6, a7⟩ :=
              update_model.step_frame md model max_idx _ (Or.inl rfl) _ s s1 hs1
            obtain ⟨b1, b2, b3, b4, b5, b6, b7⟩ :=
              update_model.step_frame md model max_idx _ (Or.inr rfl) _ s1 s2 hs2
            have hsm : s2.sm = s.sm := b7.trans a7
            have hcongr : update_line_data md s2 = update_line_data md s :=
              update_line_data.congr_state md s s2 (b1.trans a1) (b2.trans a2) (b3.trans a3)
                (b4.trans a4) (b5.trans a5) (b6.trans a6)
            rw [hsm, hcongr] at hs'
            split at hs'
            · cases hs'
            · rename_i max_idx2 hidx
              split at hs'
              · cases hs'
              · rename_i pvd hpvd
                cases hs'
                unfold update_model.max_distance at hm
                split at hm
                · cases hm
                · rename_i x_last hx
                  cases hm
                  exact ⟨x_last, _, max_idx2, pvd, hx, rfl,
                    (update_model.path_distance_lead _ _ hlead).1,
                    (update_model.path_distance_lead _ _ hlead).2, hidx, hpvd, rfl⟩

/-- C10 (amended) on a run with lead one at `d = 50` and `m = 100`: `2 d = 100`
is a `float`, the draw distance is 90; on `x = 0, 10, ..., 320` the distance 90
gives `max_idx = 9`. -/
theorem C10_update_model_path_draw_distance_witness :
    (ui_with_lead 50).sm.radarState.leadOne.status = true ∧
    (ui_with_lead 50).scene.sized = true ∧
    update_model.input_ok model_example plan_example = true ∧
    float_round (2 * 50) = 2 * 50 ∧
    std_clamp (float_round (2 * 50 - min (0.7 * 50) 10)) 0 100 = 90 ∧
    get_path_length_idx traj_step10 90 = some 9 ∧
    ∃ (x_last m : ℚ) (max_idx : Nat) (pvd : List QPointF),
      (if plan_example.position.x.length < TRAJECTORY_SIZE then model_example.position
        else plan_example.position).x[TRAJECTORY_SIZE - 1]? = some x_last ∧
      m = std_clamp x_last md_example.MIN_DRAW_DISTANCE md_example.MAX_DRAW_DISTANCE ∧
      update_model.path_distance (ui_with_lead 50).sm.radarState.leadOne m =
        std_clamp (float_round (float_round (2 * (ui_with_lead 50).sm.radarState.leadOne.dRel) -
          min (0.35 * float_round (2 * (ui_with_lead 50).sm.radarState.leadOne.dRel)) 10)) 0 m ∧
      (float_round (2 * (ui_with_lead 50).sm.radarState.leadOne.dRel) =
          2 * (ui_with_lead 50).sm.radarState.leadOne.dRel →
        update_model.path_distance (ui_with_lead 50).sm.radarState.leadOne m =
          std_clamp (float_round (2 * (ui_with_lead 50).sm.radarState.leadOne.dRel -
            min (0.7 * (ui_with_lead 50).sm.radarState.leadOne.dRel) 10)) 0 m) ∧
      get_path_length_idx
          (if plan_example.position.x.length < TRAJECTORY_SIZE then model_example.position
            else plan_example.position)
          (update_model.path_distance (ui_with_lead 50).sm.radarState.leadOne m) =
        some max_idx ∧
      update_line_data md_example (ui_with_lead 50)
          (if plan_example.position.x.length < TRAJECTORY_SIZE then model_example.position
            else plan_example.position)
          0.9 1.22 max_idx false = some pvd ∧
      (update_model md_example (ui_with_lead 50) model_example plan_example).map
        (fun s' => s'.scene.track_vertices) = some pvd :=
  ⟨by decide, by decide, by decide, by decide!, by decide!, by decide,
    C10_update_model_path_draw_distance md_example (ui_with_lead 50) model_example plan_example
      (by decide) (by decide) (by decide)⟩

/-! ## Lemmas on `update_leads` -/

/-- One iteration of the loop of `update_leads` on a lead that is processed
inside the lists: only `lead_vertices[i]` can change, and it receives the
content of the output parameter of the projection. -/
theorem update_leads.body_spec (md : ModelConstants) (rs : RadarState) (line : XYZTData)
    (s : UIState) (i : Nat) (hi : i < s.scene.lead_vertices.length)
    (hok : update_leads.lead_ok line (if i = 0 then rs.leadOne else rs.leadTwo) = true) :
    ∃ s', update_leads.body md rs line s i = some s' ∧
      s' = { s with scene := { s.scene with lead_vertices := s'.scene.lead_vertices } } ∧
      s'.scene.lead_vertices.length = s.scene.lead_vertices.length ∧
      (∀ j, j ≠ i → s'.scene.lead_vertices[j]? = s.scene.lead_vertices[j]?) ∧
      ((if i = 0 then rs.leadOne else rs.leadTwo).status = false →
        s'.scene.lead_vertices[i]? = s.scene.lead_vertices[i]?) ∧
      ((if i = 0 then rs.leadOne else rs.leadTwo).status = true →
        ∃ (idx : Nat) (z : ℚ) (out : QPointF) (ret : Bool) (out' : QPointF),
          get_path_length_idx line (if i = 0 then rs.leadOne else rs.leadTwo).dRel = some idx ∧
          line.z[idx]? = some z ∧ s.scene.lead_vertices[i]? = some out ∧
          calib_frame_to_full_frame md s (if i = 0 then rs.leadOne else rs.leadTwo).dRel
            (-(if i = 0 then rs.leadOne else rs.leadTwo).yRel) (z + 1.22) out =
              (ret, out') ∧
          s'.scene.lead_vertices[i]? = some out' ∧
          (ret = true → out' = calib_frame_to_full_frame.point md s
            (if i = 0 then rs.leadOne else rs.leadTwo).dRel
            (-(if i = 0 then rs.leadOne else rs.leadTwo).yRel) (z + 1.22)) ∧
          (ret = false → out' = out)) := by
  unfold update_leads.body
  unfold update_leads.lead_ok at hok
  generalize (if i = 0 then rs.leadOne else rs.leadTwo) = lead at hok ⊢
  dsimp only
  by_cases hst : lead.status = true
  · rw [if_pos hst] at hok ⊢
    cases hidx : get_path_length_idx line lead.dRel with
    | none => simp [hidx] at hok
    | some idx =>
      simp only [hidx] at hok ⊢
      obtain ⟨z, hz⟩ := Option.isSome_iff_exists.mp hok
      have hout : s.scene.lead_vertices[i]? = some s.scene.lead_vertices[i] :=
        List.getElem?_eq_getElem hi
      simp only [hz, hout]
      refine ⟨_, rfl, rfl, by simp, ?_, ?_, ?_⟩
      · intro j hj
        exact List.getElem?_set_ne (Ne.symm hj)
      · intro h
        rw [hst] at h
        cases h
      · intro _
        have hspec := calib_frame_to_full_frame.out_spec md s lead.dRel (-lead.yRel)
          (z + 1.22) s.scene.lead_vertices[i]
        refine ⟨idx, z, s.scene.lead_vertices[i],
          (calib_frame_to_full_frame md s lead.dRel (-lead.yRel) (z + 1.22)
            s.scene.lead_vertices[i]).1,
          (calib_frame_to_full_frame md s lead.dRel (-lead.yRel) (z + 1.22)
            s.scene.lead_vertices[i]).2,
          rfl, hz, rfl, rfl, ?_, hspec.1, hspec.2⟩
        simp [List.getElem?_set_self, hi]
  · rw [if_neg hst]
    refine ⟨s, rfl, rfl, rfl, fun _ _ => rfl, fun _ => rfl, fun h => absurd h hst⟩

/-- Writing `lead_vertices` does not change what the projection reads. -/
theorem update_leads.frame_projection (md : ModelConstants) (s : UIState)
    (lv : List QPointF) :
    calib_frame_to_full_frame md
        { s with scene := { s.scene with lead_vertices := lv } } =
      calib_frame_to_full_frame md s ∧
    calib_frame_to_full_frame.point md
        { s with scene := { s.scene with lead_vertices := lv } } =
      calib_frame_to_full_frame.point md s :=
  ⟨rfl, rfl⟩

/-! ## Claims on `update_leads` -/

/-- C11: on a scene with its two `lead_vertices` and on leads that are processed
inside the lists (`get_path_length_idx` and the read of `line_z` stay in
bounds), `update_leads` returns a state that differs from the input
state in `scene.lead_vertices` alone.  For `i = 0, 1`: when lead `i` has status
false, `lead_vertices[i]` keeps its value; when it has status true, the
projection of `(dRel, -yRel, z + 1.22)` is called with `z` the path height at
the index `get_path_length_idx(line, dRel)`, and `lead_vertices[i]` holds the
projected point when the call reports it visible and its previous value when
it does not. -/
theorem C11_update_leads_frame (md : ModelConstants) (s : UIState) (rs : RadarState)
    (line : XYZTData)
    (hlv : s.scene.lead_vertices.length = 2)
    (hok1 : update_leads.lead_ok line rs.leadOne = true)
    (hok2 : update_leads.lead_ok line rs.leadTwo = true) :
    ∃ s', update_leads md s rs line = some s' ∧
      s' = { s with scene := { s.scene with lead_vertices := s'.scene.lead_vertices } } ∧
      s'.scene.lead_vertices.length = 2 ∧
      ∀ (i : Nat) (lead : LeadData), (i = 0 ∧ lead = rs.leadOne ∨ i = 1 ∧ lead = rs.leadTwo) →
        (lead.status = false → s'.scene.lead_vertices[i]? = s.scene.lead_vertices[i]?) ∧
        (lead.status = true →
          ∃ (idx : Nat) (z : ℚ) (out : QPointF) (ret : Bool) (out' : QPointF),
            get_path_length_idx line lead.dRel = some idx ∧
            line.z[idx]? = some z ∧ s.scene.lead_vertices[i]? = some out ∧
            calib_frame_to_full_frame md s lead.dRel (-lead.yRel) (z + 1.22) out =
              (ret, out') ∧
            s'.scene.lead_vertices[i]? = some out' ∧
            (ret = true →
              out' = calib_frame_to_full_frame.point md s lead.dRel (-lead.yRel) (z + 1.22)) ∧
            (ret = false → out' = out)) := by
  obtain ⟨s1, hb1, he1, hl1, hne1, hf1, ht1⟩ :=
    update_leads.body_spec md rs line s 0 (by omega) hok1
  obtain ⟨hcal, hpt⟩ := update_leads.frame_projection md s s1.scene.lead_vertices
  rw [← he1] at hcal hpt
  obtain ⟨s2, hb2, he2, hl2, hne2, hf2, ht2⟩ :=
    update_leads.body_spec md rs line s1 1 (by omega) hok2
  simp only [if_pos rfl, if_neg (show ¬ (1 = 0) by decide)] at hf1 ht1 hf2 ht2
  refine ⟨s2, ?_, ?_, by omega, ?_⟩
  · unfold update_leads
    rw [show List.range 2 = [0, 1] by rfl, List.foldlM_cons, hb1]
    simp only [Option.bind_eq_bind, Option.some_bind, List.foldlM_cons, hb2, List.foldlM_nil]
    rfl
  · rw [he2]
    conv_lhs => rw [he1]
  · intro i lead hcase
    rcases hcase with ⟨hi, hlead⟩ | ⟨hi, hlead⟩
    · subst hi
      subst hlead
      have h0 : s2.scene.lead_vertices[0]? = s1.scene.lead_vertices[0]? :=
        hne2 0 (by decide)
      refine ⟨fun h => ?_, fun h => ?_⟩
      · rw [h0]
        exact hf1 h
      · obtain ⟨idx, z, out, ret, out', h1, h2, h3, h4, h5, h6, h7⟩ := ht1 h
        exact ⟨idx, z, out, ret, out', h1, h2, h3, h4, by rw [h0]; exact h5, h6, h7⟩
    · subst hi
      subst hlead
      have h1s : s1.scene.lead_vertices[1]? = s.scene.lead_vertices[1]? :=
        hne1 1 (by decide)
      refine ⟨fun h => ?_, fun h => ?_⟩
      · rw [hf2 h]
        exact h1s
      · obtain ⟨idx, z, out, ret, out', h1, h2, h3, h4, h5, h6, h7⟩ := ht2 h
        rw [hcal] at h4
        rw [hpt] at h6
        exact ⟨idx, z, out, ret, out', h1, h2, by rw [← h1s]; exact h3, h4, h5, h6, h7⟩

/-- C11 on the example state, with lead one visible and lead two outside the
clip region. -/
theorem C11_update_leads_frame_witness :
    ui_example.scene.lead_vertices.length = 2 ∧
    update_leads.lead_ok traj_from10 radar_example.leadOne = true ∧
    update_leads.lead_ok traj_from10 radar_example.leadTwo = true ∧
    ∃ s', update_leads md_example ui_example radar_example traj_from10 = some s' ∧
      s' = { ui_example with
        scene := { ui_example.scene with lead_vertices := s'.scene.lead_vertices } } ∧
      s'.scene.lead_vertices.length = 2 ∧
      ∀ (i : Nat) (lead : LeadData),
        (i = 0 ∧ lead = radar_example.leadOne ∨ i = 1 ∧ lead = radar_example.leadTwo) →
        (lead.status = false →
          s'.scene.lead_vertices[i]? = ui_example.scene.lead_vertices[i]?) ∧
        (lead.status = true →
          ∃ (idx : Nat) (z : ℚ) (out : QPointF) (ret : Bool) (out' : QPointF),
            get_path_length_idx traj_from10 lead.dRel = some idx ∧
            traj_from10.z[idx]? = some z ∧ ui_example.scene.lead_vertices[i]? = some out ∧
            calib_frame_to_full_frame md_example ui_example lead.dRel (-lead.yRel) (z + 1.22)
              out = (ret, out') ∧
            s'.scene.lead_vertices[i]? = some out' ∧
            (ret = true → out' = calib_frame_to_full_frame.point md_example ui_example
              lead.dRel (-lead.yRel) (z + 1.22)) ∧
            (ret = false → out' = out)) :=
  ⟨by decide, by decide!, by decide!,
    C11_update_leads_frame md_example ui_example radar_example traj_from10
      (by decide) (by decide!) (by decide!)⟩

/-! ## Lemmas on `update_dmonitoring` -/

/-- The first loop of `update_dmonitoring` in closed form, when the three raw
angles are read in bounds: every axis is filtered on its own. -/
theorem update_dmonitoring.axes_eq (sinf cosf : ℚ → ℚ) (driver_orient : List ℚ) (fade : ℚ)
    (scene : UIScene) (hlen : 3 ≤ driver_orient.length) :
    (List.finRange 3).foldlM (update_dmonitoring.axis sinf cosf driver_orient fade) scene =
      some { scene with
        driver_pose_diff := fun i => |scene.driver_pose_vals i -
          driver_pose_gain i (driver_orient.getD i.val 0) * driver_orient.getD i.val 0|
        driver_pose_vals := fun i =>
          0.8 * (driver_pose_gain i (driver_orient.getD i.val 0) * driver_orient.getD i.val 0) +
            (1 - 0.8) * scene.driver_pose_vals i
        driver_pose_sins := fun i => sinf
          ((0.8 * (driver_pose_gain i (driver_orient.getD i.val 0) * driver_orient.getD i.val 0) +
            (1 - 0.8) * scene.driver_pose_vals i) * (1 - fade))
        driver_pose_coss := fun i => cosf
          ((0.8 * (driver_pose_gain i (driver_orient.getD i.val 0) * driver_orient.getD i.val 0) +
            (1 - 0.8) * scene.driver_pose_vals i) * (1 - fade)) } := by
  have hread : ∀ i : Fin 3, driver_orient[i.val]? = some (driver_orient.getD i.val 0) := by
    intro i
    have hi : i.val < driver_orient.length := by omega
    rw [List.getElem?_eq_getElem hi, List.getD_eq_getElem _ _ hi]
  have hfin : List.finRange 3 = [0, 1, 2] := by rfl
  rw [hfin]
  simp only [List.foldlM_cons, List.foldlM_nil, update_dmonitoring.axis, hread,
    Option.bind_eq_bind, Option.some_bind, Option.pure_def]
  congr 1
  cases scene
  simp only [UIScene.mk.injEq, true_and, and_true]
  refine ⟨?_, ?_, ?_, ?_⟩ <;>
  · funext i
    fin_cases i <;> simp [Function.update, driver_pose_gain]

/-- One tick of `update_dmonitoring` when the three raw angles are read in
bounds: the tick returns, and the new state is described axis by axis. -/
theorem update_dmonitoring.spec (sinf cosf : ℚ → ℚ) (s : UIState) (ds : DriverStateV2)
    (fade : ℚ) (is_rhd : Bool) (orient : List ℚ)
    (horient : orient = if is_rhd then ds.rightDriverData.faceOrientation
      else ds.leftDriverData.faceOrientation)
    (hlen : 3 ≤ orient.length) :
    ∃ s', update_dmonitoring sinf cosf s ds fade is_rhd = some s' ∧
      (∀ i : Fin 3, orient[i.val]? = some (orient.getD i.val 0)) ∧
      (∀ i : Fin 3, s'.scene.driver_pose_vals i =
        0.8 * (driver_pose_gain i (orient.getD i.val 0) * orient.getD i.val 0) +
          (1 - 0.8) * s.scene.driver_pose_vals i) ∧
      (∀ i : Fin 3, s'.scene.driver_pose_diff i =
        |s.scene.driver_pose_vals i -
          driver_pose_gain i (orient.getD i.val 0) * orient.getD i.val 0|) ∧
      (∀ i : Fin 3, s'.scene.driver_pose_sins i =
        sinf (s'.scene.driver_pose_vals i * (1 - fade))) ∧
      (∀ i : Fin 3, s'.scene.driver_pose_coss i =
        cosf (s'.scene.driver_pose_vals i * (1 - fade))) ∧
      s'.scene.face_kpts_draw = default_face_kpts_3d.map
        (update_dmonitoring.draw
          (update_dmonitoring.r_xyz s'.scene.driver_pose_sins s'.scene.driver_pose_coss)
          fade) := by
  have hread : ∀ i : Fin 3, orient[i.val]? = some (orient.getD i.val 0) := by
    intro i
    have hi : i.val < orient.length := by omega
    rw [List.getElem?_eq_getElem hi, List.getD_eq_getElem _ _ hi]
  unfold update_dmonitoring
  rw [← horient]
  dsimp only
  rw [update_dmonitoring.axes_eq sinf cosf orient fade s.scene hlen]
  exact ⟨_, rfl, hread, fun _ => rfl, fun _ => rfl, fun _ => rfl, fun _ => rfl, rfl⟩

/-- The filter error of one axis shrinks by the factor 0.2 in one tick. -/
theorem update_dmonitoring.error_step (g r old : ℚ) :
    0.8 * (g * r) + (1 - 0.8) * old - g * r = 0.2 * (old - g * r) := by
  norm_num
  ring

/-! ## Claims on `update_dmonitoring` -/

/-- C12: when the three raw angles are read in bounds, one tick of
`update_dmonitoring` sets, for each axis `i` with raw angle `r`,
`filtered' = 0.8*g*r + 0.2*filtered` with the gain `g` of `driver_pose_gain`;
and after the ticks of any list of fade states under the same raw input the
error `filtered - g*r` is `0.2^n` times the initial error, `n` being the number
of ticks (exact rational arithmetic). -/
theorem C12_update_dmonitoring_filter (sinf cosf : ℚ → ℚ) (s : UIState) (ds : DriverStateV2)
    (is_rhd : Bool)
    (hlen : 3 ≤ (if is_rhd then ds.rightDriverData.faceOrientation
      else ds.leftDriverData.faceOrientation).length) :
    (∀ fade : ℚ, ∃ s', update_dmonitoring sinf cosf s ds fade is_rhd = some s' ∧
      ∀ i : Fin 3, ∃ r,
        (if is_rhd then ds.rightDriverData.faceOrientation
          else ds.leftDriverData.faceOrientation)[i.val]? = some r ∧
        s'.scene.driver_pose_vals i =
          0.8 * driver_pose_gain i r * r + 0.2 * s.scene.driver_pose_vals i) ∧
    (∀ fades : List ℚ, ∃ sn, update_dmonitoring.run sinf cosf ds is_rhd fades s = some sn ∧
      ∀ i : Fin 3, ∃ r,
        (if is_rhd then ds.rightDriverData.faceOrientation
          else ds.leftDriverData.faceOrientation)[i.val]? = some r ∧
        sn.scene.driver_pose_vals i - driver_pose_gain i r * r =
          0.2 ^ fades.length * (s.scene.driver_pose_vals i - driver_pose_gain i r * r)) := by
  constructor
  · intro fade
    obtain ⟨s', hs', hread, hvals, _⟩ :=
      update_dmonitoring.spec sinf cosf s ds fade is_rhd _ rfl hlen
    refine ⟨s', hs', fun i => ⟨_, hread i, ?_⟩⟩
    rw [hvals i]
    norm_num
    ring
  · intro fades
    induction fades generalizing s with
    | nil =>
      refine ⟨s, rfl, fun i => ?_⟩
      have hi : i.val < (if is_rhd then ds.rightDriverData.faceOrientation
          else ds.leftDriverData.faceOrientation).length := by omega
      refine ⟨_, List.getElem?_eq_getElem hi, ?_⟩
      simp
    | cons fade fades ih =>
      obtain ⟨s1, hs1, hread, hvals, _⟩ :=
        update_dmonitoring.spec sinf cosf s ds fade is_rhd _ rfl hlen
      obtain ⟨sn, hsn, hn⟩ := ih s1
      refine ⟨sn, ?_, fun i => ?_⟩
      · unfold update_dmonitoring.run
        rw [hs1]
        exact hsn
      · obtain ⟨r, hr, herr⟩ := hn i
        refine ⟨r, hr, ?_⟩
        have hr' : r = (if is_rhd then ds.rightDriverData.faceOrientation
            else ds.leftDriverData.faceOrientation).getD i.val 0 := by
          have h := hread i
          rw [hr] at h
          exact Option.some.inj h
        rw [herr, hvals i, ← hr', update_dmonitoring.error_step, List.length_cons, pow_succ]
        ring

/-- C12 on the example driver state (left face orientation `(-1/2, 1, 1/4)`). -/
theorem C12_update_dmonitoring_filter_witness :
    3 ≤ (if false then driver_state_example.rightDriverData.faceOrientation
      else driver_state_example.leftDriverData.faceOrientation).length ∧
    (∀ fade : ℚ, ∃ s', update_dmonitoring sin_example cos_example ui_example
        driver_state_example fade false = some s' ∧
      ∀ i : Fin 3, ∃ r,
        (if false then driver_state_example.rightDriverData.faceOrientation
          else driver_state_example.leftDriverData.faceOrientation)[i.val]? = some r ∧
        s'.scene.driver_pose_vals i =
          0.8 * driver_pose_gain i r * r + 0.2 * ui_example.scene.driver_pose_vals i) ∧
    (∀ fades : List ℚ, ∃ sn, update_dmonitoring.run sin_example cos_example
        driver_state_example false fades ui_example = some sn ∧
      ∀ i : Fin 3, ∃ r,
        (if false then driver_state_example.rightDriverData.faceOrientation
          else driver_state_example.leftDriverData.faceOrientation)[i.val]? = some r ∧
        sn.scene.driver_pose_vals i - driver_pose_gain i r * r =
          0.2 ^ fades.length *
            (ui_example.scene.driver_pose_vals i - driver_pose_gain i r * r)) :=
  ⟨by decide,
    C12_update_dmonitoring_filter sin_example cos_example ui_example driver_state_example false
      (by decide)⟩

/-- C13 (as stated) fails: from the filtered angles `(0, 0, 0)` and the raw
angles `(-1/2, 1, 1/4)`, one tick gives on axis 1 the filtered angle `8/25`
and `driver_pose_diff[1] = 2/5`, while `|old - new| = |0 - 8/25| = 8/25`. -/
theorem C13_counterexample :
    ui_example.scene.driver_pose_vals 1 = 0 ∧
    (update_dmonitoring sin_example cos_example ui_example driver_state_example 0 false).map
      (fun s' => (s'.scene.driver_pose_vals 1, s'.scene.driver_pose_diff 1)) =
        some (8/25, 2/5) ∧
    |(0 : ℚ) - 8/25| = 8/25 ∧ (8/25 : ℚ) ≠ 2/5 := by
  decide!

/-- C13 (amended): after a tick of `update_dmonitoring` whose three raw angles
are read in bounds, for each axis `i` with raw angle `r`,
`scene.driver_pose_diff[i]` equals `|old driver_pose_vals[i] - g*r|`, the
absolute difference between the filtered angle before the tick and the
gain-scaled raw angle; this is 1.25 times the absolute difference between the
filtered angle before the tick and the filtered angle after the tick. -/
theorem C13_update_dmonitoring_diff (sinf cosf : ℚ → ℚ) (s : UIState) (ds : DriverStateV2)
    (fade : ℚ) (is_rhd : Bool)
    (hlen : 3 ≤ (if is_rhd then ds.rightDriverData.faceOrientation
      else ds.leftDriverData.faceOrientation).length) :
    ∃ s', update_dmonitoring sinf cosf s ds fade is_rhd = some s' ∧
      ∀ i : Fin 3, ∃ r,
        (if is_rhd then ds.rightDriverData.faceOrientation
          else ds.leftDriverData.faceOrientation)[i.val]? = some r ∧
        s'.scene.driver_pose_diff i =
          |s.scene.driver_pose_vals i - driver_pose_gain i r * r| ∧
        s'.scene.driver_pose_diff i =
          1.25 * |s.scene.driver_pose_vals i - s'.scene.driver_pose_vals i| := by
  obtain ⟨s', hs', hread, hvals, hdiff, _⟩ :=
    update_dmonitoring.spec sinf cosf s ds fade is_rhd _ rfl hlen
  refine ⟨s', hs', fun i => ⟨_, hread i, hdiff i, ?_⟩⟩
  rw [hdiff i, hvals i]
  have h : ∀ old t : ℚ, old - (0.8 * t + (1 - 0.8) * old) = 0.8 * (old - t) := by
    intro old t
    ring
  rw [h, abs_mul, abs_of_pos (by norm_num : (0 : ℚ) < 0.8), ← mul_assoc]
  norm_num

/-- C13 (amended) on the example driver state. -/
theorem C13_update_dmonitoring_diff_witness :
    3 ≤ (if false then driver_state_example.rightDriverData.faceOrientation
      else driver_state_example.leftDriverData.faceOrientation).length ∧
    ∃ s', update_dmonitoring sin_example cos_example ui_example driver_state_example 0 false =
        some s' ∧
      ∀ i : Fin 3, ∃ r,
        (if false then driver_state_example.rightDriverData.faceOrientation
          else driver_state_example.leftDriverData.faceOrientation)[i.val]? = some r ∧
        s'.scene.driver_pose_diff i =
          |ui_example.scene.driver_pose_vals i - driver_pose_gain i r * r| ∧
        s'.scene.driver_pose_diff i =
          1.25 * |ui_example.scene.driver_pose_vals i - s'.scene.driver_pose_vals i| :=
  ⟨by decide,
    C13_update_dmonitoring_diff sin_example cos_example ui_example driver_state_example 0 false
      (by decide)⟩

/-- Every template keypoint has the depth 8. -/
theorem default_face_kpts_3d_depth : ∀ kpt ∈ default_face_kpts_3d, kpt.v2 = 8 := by
  decide!

/-- With the identity matrix, a keypoint of depth 8 is drawn unchanged for
every fade state. -/
theorem update_dmonitoring.draw_identity (fade : ℚ) (kpt : vec3) (h : kpt.v2 = 8) :
    update_dmonitoring.draw mat3_identity fade kpt = kpt := by
  cases kpt with
  | mk x y z =>
    simp only at h
    subst h
    simp only [update_dmonitoring.draw, matvecmul3, mat3_identity, vec3.mk.injEq]
    refine ⟨by ring, by ring, by ring⟩

/-- C14: in a tick of `update_dmonitoring` whose three raw angles are read in
bounds, with `sinf 0 = 0` and `cosf 0 = 1`: when the three angles fed to the
sine/cosine caches (filtered angle times `1 - fade_state`) are 0, every sine is
0 and every cosine is 1, the matrix `r_xyz` is the 3×3 identity, and every
drawn keypoint equals its template keypoint, of depth 8, for every
`fade_state`. -/
theorem C14_update_dmonitoring_identity (sinf cosf : ℚ → ℚ) (s : UIState)
    (ds : DriverStateV2) (fade : ℚ) (is_rhd : Bool)
    (hlen : 3 ≤ (if is_rhd then ds.rightDriverData.faceOrientation
      else ds.leftDriverData.faceOrientation).length)
    (hsin : sinf 0 = 0) (hcos : cosf 0 = 1) :
    ∃ s', update_dmonitoring sinf cosf s ds fade is_rhd = some s' ∧
      ((∀ i : Fin 3, s'.scene.driver_pose_vals i * (1 - fade) = 0) →
        (∀ i : Fin 3, s'.scene.driver_pose_sins i = 0 ∧ s'.scene.driver_pose_coss i = 1) ∧
        update_dmonitoring.r_xyz s'.scene.driver_pose_sins s'.scene.driver_pose_coss =
          mat3_identity ∧
        s'.scene.face_kpts_draw = default_face_kpts_3d ∧
        (∀ kpt ∈ s'.scene.face_kpts_draw, kpt.v2 = 8)) := by
  obtain ⟨s', hs', _, _, _, hsins, hcoss, hdraw⟩ :=
    update_dmonitoring.spec sinf cosf s ds fade is_rhd _ rfl hlen
  refine ⟨s', hs', fun hzero => ?_⟩
  have hs0 : ∀ i : Fin 3, s'.scene.driver_pose_sins i = 0 := by
    intro i
    rw [hsins i, hzero i, hsin]
  have hc1 : ∀ i : Fin 3, s'.scene.driver_pose_coss i = 1 := by
    intro i
    rw [hcoss i, hzero i, hcos]
  have hR : update_dmonitoring.r_xyz s'.scene.driver_pose_sins s'.scene.driver_pose_coss =
      mat3_identity := by
    simp [update_dmonitoring.r_xyz, mat3_identity, hs0, hc1]
  have hkp : s'.scene.face_kpts_draw = default_face_kpts_3d := by
    rw [hdraw, hR]
    conv_rhs => rw [← List.map_id default_face_kpts_3d]
    apply List.map_congr_left
    intro kpt hk
    exact update_dmonitoring.draw_identity fade kpt (default_face_kpts_3d_depth kpt hk)
  refine ⟨fun i => ⟨hs0 i, hc1 i⟩, hR, hkp, ?_⟩
  rw [hkp]
  exact default_face_kpts_3d_depth

/-- C14 on the example driver state with `fade_state = 1`. -/
theorem C14_update_dmonitoring_identity_witness :
    3 ≤ (if false then driver_state_example.rightDriverData.faceOrientation
      else driver_state_example.leftDriverData.faceOrientation).length ∧
    sin_example 0 = 0 ∧ cos_example 0 = 1 ∧
    ∃ s', update_dmonitoring sin_example cos_example ui_example driver_state_example 1 false =
        some s' ∧
      ((∀ i : Fin 3, s'.scene.driver_pose_vals i * (1 - 1) = 0) →
        (∀ i : Fin 3, s'.scene.driver_pose_sins i = 0 ∧ s'.scene.driver_pose_coss i = 1) ∧
        update_dmonitoring.r_xyz s'.scene.driver_pose_sins s'.scene.driver_pose_coss =
          mat3_identity ∧
        s'.scene.face_kpts_draw = default_face_kpts_3d ∧
        (∀ kpt ∈ s'.scene.face_kpts_draw, kpt.v2 = 8)) :=
  ⟨by decide, by decide!, by decide!,
    C14_update_dmonitoring_identity sin_example cos_example ui_example driver_state_example 1
      false (by decide) (by decide!) (by decide!)⟩

/-- C15: for sine/cosine caches with `s_i^2 + c_i^2 = 1` on the three axes, the
matrix `r_xyz` built by `update_dmonitoring` is orthogonal, `R * R^T = I`, and
rotating a keypoint by it preserves the squared Euclidean norm
`x^2 + y^2 + z^2` (before the depth blend is applied). -/
theorem C15_update_dmonitoring_r_xyz_orthogonal (sins coss : Fin 3 → ℚ)
    (hunit : ∀ i : Fin 3, sins i ^ 2 + coss i ^ 2 = 1) :
    mat3_mul (update_dmonitoring.r_xyz sins coss)
        (mat3_transpose (update_dmonitoring.r_xyz sins coss)) = mat3_identity ∧
    ∀ kpt : vec3,
      vec3_norm_sq (matvecmul3 (update_dmonitoring.r_xyz sins coss) kpt) =
        vec3_norm_sq kpt := by
  have h0 := hunit 0
  have h1 := hunit 1
  have h2 := hunit 2
  constructor
  · simp only [mat3_mul, mat3_transpose, update_dmonitoring.r_xyz, mat3_identity,
      mat3.mk.injEq]
    generalize sins 0 = a at h0 ⊢
    generalize coss 0 = A at h0 ⊢
    generalize sins 1 = b at h1 ⊢
    generalize coss 1 = B at h1 ⊢
    generalize sins 2 = c at h2 ⊢
    generalize coss 2 = C at h2 ⊢
    refine ⟨?_, ?_, ?_, ?_, ?_, ?_, ?_, ?_, ?_⟩
    · linear_combination B ^ 2 * h2 + h1
    · linear_combination (-a * b * B) * h2
    · linear_combination (A * b * B) * h2
    · linear_combination (-a * b * B) * h2
    · linear_combination (a ^ 2 * b ^ 2 + A ^ 2) * h2 + a ^ 2 * h1 + h0
    · linear_combination (a * A * (1 - b ^ 2)) * h2 - (a * A) * h1
    · linear_combination (A * b * B) * h2
    · linear_combination (a * A * (1 - b ^ 2)) * h2 - (a * A) * h1
    · linear_combination (A ^ 2 * b ^ 2 + a ^ 2) * h2 + A ^ 2 * h1 + h0
  · intro kpt
    cases kpt with
    | mk x y z =>
      simp only [vec3_norm_sq, matvecmul3, update_dmonitoring.r_xyz]
      generalize sins 0 = a at h0 ⊢
      generalize coss 0 = A at h0 ⊢
      generalize sins 1 = b at h1 ⊢
      generalize coss 1 = B at h1 ⊢
      generalize sins 2 = c at h2 ⊢
      generalize coss 2 = C at h2 ⊢
      linear_combination
        (x ^ 2 * (b ^ 2 * C ^ 2 + c ^ 2) + y ^ 2 * (b ^ 2 * c ^ 2 + C ^ 2) + z ^ 2 * B ^ 2 +
          2 * x * y * (C * c * (b ^ 2 - 1)) + 2 * x * z * (b * B * C) +
          2 * y * z * (b * B * c)) * h0 +
        (x ^ 2 * C ^ 2 + y ^ 2 * c ^ 2 + z ^ 2 + 2 * x * y * (C * c)) * h1 +
        (x ^ 2 + y ^ 2) * h2

/-- C15 on the caches with sines `(3/5, 0, 5/13)` and cosines `(4/5, 1, 12/13)`. -/
theorem C15_update_dmonitoring_r_xyz_orthogonal_witness :
    (∀ i : Fin 3, sins_example i ^ 2 + coss_example i ^ 2 = 1) ∧
    mat3_mul (update_dmonitoring.r_xyz sins_example coss_example)
        (mat3_transpose (update_dmonitoring.r_xyz sins_example coss_example)) =
      mat3_identity ∧
    ∀ kpt : vec3,
      vec3_norm_sq (matvecmul3 (update_dmonitoring.r_xyz sins_example coss_example) kpt) =
        vec3_norm_sq kpt :=
  ⟨by decide!,
    C15_update_dmonitoring_r_xyz_orthogonal sins_example coss_example (by decide!)⟩

/-! ## Lemmas on `Alert::get` -/

/-- `Alert::get` when the timeout branch (line 62) is not entered: the alert is
the one of lines 54-60. -/
theorem Alert.get_of_no_timeout (sm : SubMaster) (started_frame now : Nat) (is_pc : Bool)
    (h : ¬ (sm.controlsState.updated = false ∧
      ((sm.frame : Int) - (started_frame : Int)) % 2 ^ 64 > 5 * (UI_FREQ : Int))) :
    Alert.get sm started_frame now is_pc =
      if sm.controlsState.rcv_frame ≥ started_frame then
        ⟨sm.controlsState.msg.alertText1, sm.controlsState.msg.alertText2,
          sm.controlsState.msg.alertType, sm.controlsState.msg.alertSize,
          sm.controlsState.msg.alertStatus, sm.controlsState.msg.alertSound⟩
      else Alert.empty := by
  unfold Alert.get
  simp only [if_neg h]

/-- A whole number of seconds from 0 to `INT_MAX` is converted to `int`
unchanged. -/
theorem double_to_int_of_le (q : Int) (h0 : 0 ≤ q) (h1 : q ≤ INT_MAX) : double_to_int q = q := by
  unfold double_to_int
  rw [if_pos ⟨by unfold INT_MIN; omega, h1⟩]

/-- A staleness of `3·10^18` nanoseconds (more than `2^31` seconds) does not fit
the `int` `controls_missing`: with the conversion result of x86-64 the timeout
test `controls_missing > 5` fails and `Alert::get` returns the alert of the last
message; one nanosecond below `2^31` seconds it returns
`controlsUnresponsivePermanent`. -/
theorem Alert.get_beyond_int_range :
    Alert.get (sm_stale 0) 5 3000000000000000000 false = alert_example ∧
    Alert.get (sm_stale 0) 5 2147483647999999999 false =
      ⟨"Controls Unresponsive", "Reboot Device", "controlsUnresponsivePermanent",
        AlertSize.MID, AlertStatus.NORMAL, AudibleAlert.NONE⟩ := by
  decide

/-- `Alert::get` when the timeout branch is entered and a message has been
received since the start: the staleness in whole seconds, as the `int`
`controls_missing`, decides. -/
theorem Alert.get_of_timeout (sm : SubMaster) (started_frame now : Nat) (is_pc : Bool)
    (h : sm.controlsState.updated = false ∧
      ((sm.frame : Int) - (started_frame : Int)) % 2 ^ 64 > 5 * (UI_FREQ : Int))
    (hrcv : started_frame ≤ sm.controlsState.rcv_frame) :
    Alert.get sm started_frame now is_pc =
      if double_to_int
            ((((now : Int) - (sm.controlsState.rcv_time : Int)) % 2 ^ 64) / 10 ^ 9) > 5 ∧
          is_pc = false then
        if sm.controlsState.msg.enabled = true ∧
            double_to_int
              ((((now : Int) - (sm.controlsState.rcv_time : Int)) % 2 ^ 64) / 10 ^ 9) - 5 <
                10 then
          ⟨"TAKE CONTROL IMMEDIATELY", "Controls Unresponsive", "controlsUnresponsive",
            AlertSize.FULL, AlertStatus.CRITICAL, AudibleAlert.WARNING_IMMEDIATE⟩
        else
          ⟨"Controls Unresponsive", "Reboot Device", "controlsUnresponsivePermanent",
            AlertSize.MID, AlertStatus.NORMAL, AudibleAlert.NONE⟩
      else
        ⟨sm.controlsState.msg.alertText1, sm.controlsState.msg.alertText2,
          sm.controlsState.msg.alertType, sm.controlsState.msg.alertSize,
          sm.controlsState.msg.alertStatus, sm.controlsState.msg.alertSound⟩ := by
  unfold Alert.get
  have hge : sm.controlsState.rcv_frame ≥ started_frame := hrcv
  have hlt : ¬ sm.controlsState.rcv_frame < started_frame := by omega
  simp only [if_pos h, if_pos hge, if_neg hlt]

/-! ## Claims on `Alert::get` -/

/-- C16 (as stated) fails: with the last `controlsState` message received at
frame 10, after the start at frame 5, not updated in the tick at frame 500 and
stale for 7 seconds on a device, `Alert::get` returns the synthetic alert
`controlsUnresponsive`, not the alert fields of the message. -/
theorem C16_counterexample :
    (5 : Nat) ≤ (sm_stale 0).controlsState.rcv_frame ∧
    Alert.get (sm_stale 0) 5 7000000000 false =
      ⟨"TAKE CONTROL IMMEDIATELY", "Controls Unresponsive", "controlsUnresponsive",
        AlertSize.FULL, AlertStatus.CRITICAL, AudibleAlert.WARNING_IMMEDIATE⟩ ∧
    Alert.get (sm_stale 0) 5 7000000000 false ≠
      ⟨(sm_stale 0).controlsState.msg.alertText1, (sm_stale 0).controlsState.msg.alertText2,
        (sm_stale 0).controlsState.msg.alertType, (sm_stale 0).controlsState.msg.alertSize,
        (sm_stale 0).controlsState.msg.alertStatus,
        (sm_stale 0).controlsState.msg.alertSound⟩ := by
  decide

/-- C16 (amended): on every tick in which the last receive frame of
`controlsState` is `≥ started_frame` and the timeout does not apply, namely
`controlsState` was updated in this tick, or at most `5 * UI_FREQ` frames have
elapsed since the start, or the staleness is below 6 seconds, or the device is
a PC, `Alert::get` returns exactly the alert fields of the latest
`controlsState` message (the empty alert when those fields are empty).  The
frame counter and the clock are `uint64_t` values that have not wrapped. -/
theorem C16_alert_get_adopts_message (sm : SubMaster) (started_frame now : Nat)
    (is_pc : Bool)
    (hframe : started_frame ≤ sm.frame ∧ sm.frame < 2 ^ 64)
    (hclock : sm.controlsState.rcv_time ≤ now ∧ now < 2 ^ 64)
    (hrcv : started_frame ≤ sm.controlsState.rcv_frame)
    (hfresh : sm.controlsState.updated = true ∨ sm.frame - started_frame ≤ 5 * UI_FREQ ∨
      now - sm.controlsState.rcv_time < 6 * 10 ^ 9 ∨ is_pc = true) :
    Alert.get sm started_frame now is_pc =
      ⟨sm.controlsState.msg.alertText1, sm.controlsState.msg.alertText2,
        sm.controlsState.msg.alertType, sm.controlsState.msg.alertSize,
        sm.controlsState.msg.alertStatus, sm.controlsState.msg.alertSound⟩ ∧
    (sm.controlsState.msg.alertText1 = "" → sm.controlsState.msg.alertText2 = "" →
      sm.controlsState.msg.alertType = "" → sm.controlsState.msg.alertSize = AlertSize.NONE →
      sm.controlsState.msg.alertStatus = AlertStatus.NORMAL →
      sm.controlsState.msg.alertSound = AudibleAlert.NONE →
      Alert.get sm started_frame now is_pc = Alert.empty) := by
  have hmain : Alert.get sm started_frame now is_pc =
      ⟨sm.controlsState.msg.alertText1, sm.controlsState.msg.alertText2,
        sm.controlsState.msg.alertType, sm.controlsState.msg.alertSize,
        sm.controlsState.msg.alertStatus, sm.controlsState.msg.alertSound⟩ := by
    by_cases h : sm.controlsState.updated = false ∧
        ((sm.frame : Int) - (started_frame : Int)) % 2 ^ 64 > 5 * (UI_FREQ : Int)
    · rw [Alert.get_of_timeout sm started_frame now is_pc h hrcv]
      have hnot : ¬ (double_to_int
            ((((now : Int) - (sm.controlsState.rcv_time : Int)) % 2 ^ 64) / 10 ^ 9) > 5 ∧
          is_pc = false) := by
        rintro ⟨hst, hpc⟩
        obtain ⟨hupd, hel⟩ := h
        unfold UI_FREQ at hfresh hel
        rcases hfresh with h1 | h2 | h3 | h4
        · rw [hupd] at h1
          cases h1
        · omega
        · rw [double_to_int_of_le _ (by omega) (by unfold INT_MAX; omega)] at hst
          omega
        · rw [hpc] at h4
          cases h4
      rw [if_neg hnot]
    · rw [Alert.get_of_no_timeout sm started_frame now is_pc h, if_pos hrcv]
  refine ⟨hmain, ?_⟩
  intro h1 h2 h3 h4 h5 h6
  rw [hmain, h1, h2, h3, h4, h5, h6]
  rfl

/-- C16 (amended) on a message that is 5.5 seconds old. -/
theorem C16_alert_get_adopts_message_witness :
    ((5 : Nat) ≤ (sm_stale 0).frame ∧ (sm_stale 0).frame < 2 ^ 64) ∧
    ((sm_stale 0).controlsState.rcv_time ≤ 5500000000 ∧ 5500000000 < 2 ^ 64) ∧
    (5 : Nat) ≤ (sm_stale 0).controlsState.rcv_frame ∧
    ((sm_stale 0).controlsState.updated = true ∨ (sm_stale 0).frame - 5 ≤ 5 * UI_FREQ ∨
      5500000000 - (sm_stale 0).controlsState.rcv_time < 6 * 10 ^ 9 ∨ false = true) ∧
    Alert.get (sm_stale 0) 5 5500000000 false =
      ⟨(sm_stale 0).controlsState.msg.alertText1, (sm_stale 0).controlsState.msg.alertText2,
        (sm_stale 0).controlsState.msg.alertType, (sm_stale 0).controlsState.msg.alertSize,
        (sm_stale 0).controlsState.msg.alertStatus,
        (sm_stale 0).controlsState.msg.alertSound⟩ ∧
    ((sm_stale 0).controlsState.msg.alertText1 = "" →
      (sm_stale 0).controlsState.msg.alertText2 = "" →
      (sm_stale 0).controlsState.msg.alertType = "" →
      (sm_stale 0).controlsState.msg.alertSize = AlertSize.NONE →
      (sm_stale 0).controlsState.msg.alertStatus = AlertStatus.NORMAL →
      (sm_stale 0).controlsState.msg.alertSound = AudibleAlert.NONE →
      Alert.get (sm_stale 0) 5 5500000000 false = Alert.empty) :=
  ⟨by decide, by decide, by decide, by decide,
    C16_alert_get_adopts_message (sm_stale 0) 5 5500000000 false (by decide) (by decide)
      (by decide) (by decide)⟩

/-- C17: on every tick in which `controlsState` was updated, `Alert::get`
returns no synthetic alert, whatever the frame counter, the clock, the
platform and the enabled flag: it returns the message's alert fields when
`controls_frame >= started_frame` and the empty alert otherwise. -/
theorem C17_alert_get_updated (sm : SubMaster) (started_frame now : Nat) (is_pc : Bool)
    (hupd : sm.controlsState.updated = true) :
    Alert.get sm started_frame now is_pc =
      if sm.controlsState.rcv_frame ≥ started_frame then
        ⟨sm.controlsState.msg.alertText1, sm.controlsState.msg.alertText2,
          sm.controlsState.msg.alertType, sm.controlsState.msg.alertSize,
          sm.controlsState.msg.alertStatus, sm.controlsState.msg.alertSound⟩
      else Alert.empty := by
  apply Alert.get_of_no_timeout
  rintro ⟨h, _⟩
  rw [hupd] at h
  cases h

/-- C17 on a tick in which `controlsState` has been received. -/
theorem C17_alert_get_updated_witness :
    sm_fresh.controlsState.updated = true ∧
    Alert.get sm_fresh 5 60000000000 false =
      if sm_fresh.controlsState.rcv_frame ≥ 5 then
        ⟨sm_fresh.controlsState.msg.alertText1, sm_fresh.controlsState.msg.alertText2,
          sm_fresh.controlsState.msg.alertType, sm_fresh.controlsState.msg.alertSize,
          sm_fresh.controlsState.msg.alertStatus, sm_fresh.controlsState.msg.alertSound⟩
      else Alert.empty :=
  ⟨by decide, C17_alert_get_updated sm_fresh 5 60000000000 false (by decide)⟩

/-- C18: on every tick with `frame >= started_frame` (a `uint64_t` that has not
wrapped) and `controls_frame < started_frame`, `Alert::get` returns the
synthetic `controlsWaiting` alert if and only if `controlsState` was not
updated in this tick and `frame - started_frame > 5 * UI_FREQ`; otherwise it
returns the empty alert.  The result is the same for every clock value, every
receive time, every platform and every enabled flag. -/
theorem C18_alert_get_waiting (sm : SubMaster) (started_frame now : Nat) (is_pc : Bool)
    (hframe : started_frame ≤ sm.frame ∧ sm.frame < 2 ^ 64)
    (hrcv : sm.controlsState.rcv_frame < started_frame) :
    (Alert.get sm started_frame now is_pc =
        ⟨"openpilot Unavailable", "Waiting for controls to start", "controlsWaiting",
          AlertSize.MID, AlertStatus.NORMAL, AudibleAlert.NONE⟩ ↔
      (sm.controlsState.updated = false ∧ sm.frame - started_frame > 5 * UI_FREQ)) ∧
    (¬ (sm.controlsState.updated = false ∧ sm.frame - started_frame > 5 * UI_FREQ) →
      Alert.get sm started_frame now is_pc = Alert.empty) ∧
    (∀ (now' rcv_time' : Nat) (is_pc' enabled' : Bool),
      Alert.get
        { sm with
          controlsState := { sm.controlsState with
            rcv_time := rcv_time'
            msg := { sm.controlsState.msg with enabled := enabled' } } }
        started_frame now' is_pc' =
      Alert.get sm started_frame now is_pc) := by
  have hnge : ¬ sm.controlsState.rcv_frame ≥ started_frame := by omega
  have hcond : (sm.controlsState.updated = false ∧
      ((sm.frame : Int) - (started_frame : Int)) % 2 ^ 64 > 5 * (UI_FREQ : Int)) ↔
      (sm.controlsState.updated = false ∧ sm.frame - started_frame > 5 * UI_FREQ) := by
    unfold UI_FREQ
    constructor
    · rintro ⟨h1, h2⟩
      exact ⟨h1, by omega⟩
    · rintro ⟨h1, h2⟩
      exact ⟨h1, by omega⟩
  have hval : ∀ (sm2 : SubMaster) (now2 : Nat) (pc2 : Bool),
      sm2.frame = sm.frame → sm2.controlsState.updated = sm.controlsState.updated →
      sm2.controlsState.rcv_frame = sm.controlsState.rcv_frame →
      Alert.get sm2 started_frame now2 pc2 =
        if sm.controlsState.updated = false ∧ sm.frame - started_frame > 5 * UI_FREQ then
          ⟨"openpilot Unavailable", "Waiting for controls to start", "controlsWaiting",
            AlertSize.MID, AlertStatus.NORMAL, AudibleAlert.NONE⟩
        else Alert.empty := by
    intro sm2 now2 pc2 e1 e2 e3
    unfold Alert.get
    rw [e1, e2, e3]
    by_cases h : sm.controlsState.updated = false ∧ sm.frame - started_frame > 5 * UI_FREQ
    · simp only [if_pos h, if_pos (hcond.mpr h), if_pos hrcv]
    · simp only [if_neg h, if_neg (fun h' => h (hcond.mp h')), if_neg hnge]
  have hself := hval sm now is_pc rfl rfl rfl
  refine ⟨?_, ?_, ?_⟩
  · rw [hself]
    by_cases h : sm.controlsState.updated = false ∧ sm.frame - started_frame > 5 * UI_FREQ
    · rw [if_pos h]
      exact ⟨fun _ => h, fun _ => rfl⟩
    · rw [if_neg h]
      constructor
      · intro habs
        exact absurd habs (by decide)
      · intro h'
        exact absurd h' h
  · intro h
    rw [hself, if_neg h]
  · intro now' rcv_time' is_pc' enabled'
    rw [hself]
    exact hval _ now' is_pc' rfl rfl rfl

/-- C18 on a `SubMaster` that has never received `controlsState`, 101 frames
after the start. -/
theorem C18_alert_get_waiting_witness :
    ((1 : Nat) ≤ (sm_silent 102).frame ∧ (sm_silent 102).frame < 2 ^ 64) ∧
    (sm_silent 102).controlsState.rcv_frame < 1 ∧
    (Alert.get (sm_silent 102) 1 0 false =
        ⟨"openpilot Unavailable", "Waiting for controls to start", "controlsWaiting",
          AlertSize.MID, AlertStatus.NORMAL, AudibleAlert.NONE⟩ ↔
      ((sm_silent 102).controlsState.updated = false ∧
        (sm_silent 102).frame - 1 > 5 * UI_FREQ)) ∧
    (¬ ((sm_silent 102).controlsState.updated = false ∧
        (sm_silent 102).frame - 1 > 5 * UI_FREQ) →
      Alert.get (sm_silent 102) 1 0 false = Alert.empty) ∧
    (∀ (now' rcv_time' : Nat) (is_pc' enabled' : Bool),
      Alert.get
        { sm_silent 102 with
          controlsState := { (sm_silent 102).controlsState with
            rcv_time := rcv_time'
            msg := { (sm_silent 102).controlsState.msg with enabled := enabled' } } }
        1 now' is_pc' =
      Alert.get (sm_silent 102) 1 0 false) :=
  ⟨by decide, by decide, C18_alert_get_waiting (sm_silent 102) 1 0 false (by decide) (by decide)⟩

/-- C20: for every current alert `c` and new alert `a` that agree on `text1`,
`text2`, `type` and `sound`, `Sound::setAlert(a)` is a no-op, also when `a`
differs from `c` in status or size: `current_alert` stays `c`, and no sound
effect is stopped or started (the whole state is unchanged). -/
theorem C20_sound_setAlert_noop (snd : Sound) (a : Alert)
    (h1 : snd.current_alert.text1 = a.text1) (h2 : snd.current_alert.text2 = a.text2)
    (h3 : snd.current_alert.type = a.type) (h4 : snd.current_alert.sound = a.sound) :
    Sound.setAlert snd a = some snd ∧
    (∀ snd', Sound.setAlert snd a = some snd' →
      snd'.current_alert = snd.current_alert ∧ snd'.sounds = snd.sounds) := by
  have heq : snd.current_alert.equal a = true := by
    unfold Alert.equal
    exact decide_eq_true ⟨h1, h2, h3, h4⟩
  have hres : Sound.setAlert snd a = some snd := by
    unfold Sound.setAlert
    rw [if_neg (by rw [heq]; decide)]
  refine ⟨hres, ?_⟩
  intro snd' h
  rw [hres] at h
  cases h
  exact ⟨rfl, rfl⟩

/-- C20 on a new alert that differs from the current one in size and status
alone. -/
theorem C20_sound_setAlert_noop_witness :
    sound_example.current_alert.text1 = alert_example_restyled.text1 ∧
    sound_example.current_alert.text2 = alert_example_restyled.text2 ∧
    sound_example.current_alert.type = alert_example_restyled.type ∧
    sound_example.current_alert.sound = alert_example_restyled.sound ∧
    sound_example.current_alert.size ≠ alert_example_restyled.size ∧
    sound_example.current_alert.status ≠ alert_example_restyled.status ∧
    Sound.setAlert sound_example alert_example_restyled = some sound_example ∧
    (∀ snd', Sound.setAlert sound_example alert_example_restyled = some snd' →
      snd'.current_alert = sound_example.current_alert ∧
      snd'.sounds = sound_example.sounds) :=
  ⟨by decide, by decide, by decide, by decide, by decide, by decide,
    C20_sound_setAlert_noop sound_example alert_example_restyled (by decide) (by decide)
      (by decide) (by decide)⟩

/-- C21: when the new alert `a` differs from `current_alert` in `text1`,
`text2`, `type` or `sound`, and the map `sounds` holds the sound of `a` when it
is not `NONE`, `Sound::setAlert(a)` sets `current_alert` to `a`, stops every
sound effect whose `loopsRemaining` is greater than 1 or `Infinite` and leaves
every other effect untouched, and then, if and only if `a.sound` is not `NONE`,
sets that sound's loop count to its configured value and plays it (a looping
effect for the same sound is stopped, then restarted). -/
theorem C21_sound_setAlert_change (snd : Sound) (a : Alert)
    (hdiff : snd.current_alert.text1 ≠ a.text1 ∨ snd.current_alert.text2 ≠ a.text2 ∨
      snd.current_alert.type ≠ a.type ∨ snd.current_alert.sound ≠ a.sound)
    (hkey : a.sound ≠ AudibleAlert.NONE → (snd.sounds a.sound).isSome = true) :
    ∃ snd', Sound.setAlert snd a = some snd' ∧ snd'.current_alert = a ∧ snd'.sm = snd.sm ∧
      ∀ k : AudibleAlert,
        (snd.sounds k = none → snd'.sounds k = none) ∧
        (∀ (e : QSoundEffect) (loops : Int), snd.sounds k = some (e, loops) →
          snd'.sounds k = some
            (if k = a.sound ∧ a.sound ≠ AudibleAlert.NONE then
              ((if e.loopsRemaining > 1 ∨ e.loopsRemaining = QSoundEffect.Infinite then e.stop
                else e).setLoopCount loops).play
            else if e.loopsRemaining > 1 ∨ e.loopsRemaining = QSoundEffect.Infinite then e.stop
            else e, loops)) := by
  have hne : snd.current_alert.equal a = false := by
    unfold Alert.equal
    apply decide_eq_false
    rintro ⟨h1, h2, h3, h4⟩
    rcases hdiff with h | h | h | h
    · exact h h1
    · exact h h2
    · exact h h3
    · exact h h4
  unfold Sound.setAlert
  rw [if_pos hne]
  dsimp only
  by_cases hs : a.sound ≠ AudibleAlert.NONE
  · rw [if_pos hs]
    obtain ⟨⟨e0, loops0⟩, he0⟩ := Option.isSome_iff_exists.mp (hkey hs)
    simp only [he0]
    by_cases hl0 : e0.loopsRemaining > 1 ∨ e0.loopsRemaining = QSoundEffect.Infinite
    · simp only [if_pos hl0]
      refine ⟨_, rfl, rfl, rfl, fun k => ⟨fun hk => ?_, fun e loops hk => ?_⟩⟩
      · have hka : k ≠ a.sound := by
          intro h
          rw [h, he0] at hk
          cases hk
        simp only [Function.update_noteq hka, hk]
      · by_cases hka : k = a.sound
        · subst hka
          rw [he0] at hk
          cases hk
          simp only [Function.update_same, hs, hl0, if_true, not_false_eq_true, and_self, ne_eq]
        · simp only [Function.update_noteq hka, hk, hka, false_and, if_false]
          split <;> rfl
    · simp only [if_neg hl0]
      refine ⟨_, rfl, rfl, rfl, fun k => ⟨fun hk => ?_, fun e loops hk => ?_⟩⟩
      · have hka : k ≠ a.sound := by
          intro h
          rw [h, he0] at hk
          cases hk
        simp only [Function.update_noteq hka, hk]
      · by_cases hka : k = a.sound
        · subst hka
          rw [he0] at hk
          cases hk
          simp only [Function.update_same, hs, hl0, if_false, not_false_eq_true, and_self,
            ne_eq, if_true]
        · simp only [Function.update_noteq hka, hk, hka, false_and, if_false]
          split <;> rfl
  · rw [if_neg hs]
    refine ⟨_, rfl, rfl, rfl, fun k => ⟨fun hk => ?_, fun e loops hk => ?_⟩⟩
    · simp only [hk]
    · have hcond : ¬ (k = a.sound ∧ a.sound ≠ AudibleAlert.NONE) := fun h => hs h.2
      simp only [hk, if_neg hcond]
      split <;> rfl

/-- C21 on a new alert with the sound `WARNING_IMMEDIATE`, whose looping effect
is playing. -/
theorem C21_sound_setAlert_change_witness :
    (sound_example.current_alert.text1 ≠ alert_unresponsive.text1 ∨
      sound_example.current_alert.text2 ≠ alert_unresponsive.text2 ∨
      sound_example.current_alert.type ≠ alert_unresponsive.type ∨
      sound_example.current_alert.sound ≠ alert_unresponsive.sound) ∧
    (alert_unresponsive.sound ≠ AudibleAlert.NONE →
      (sound_example.sounds alert_unresponsive.sound).isSome = true) ∧
    ∃ snd', Sound.setAlert sound_example alert_unresponsive = some snd' ∧
      snd'.current_alert = alert_unresponsive ∧ snd'.sm = sound_example.sm ∧
      ∀ k : AudibleAlert,
        (sound_example.sounds k = none → snd'.sounds k = none) ∧
        (∀ (e : QSoundEffect) (loops : Int), sound_example.sounds k = some (e, loops) →
          snd'.sounds k = some
            (if k = alert_unresponsive.sound ∧ alert_unresponsive.sound ≠ AudibleAlert.NONE then
              ((if e.loopsRemaining > 1 ∨ e.loopsRemaining = QSoundEffect.Infinite then e.stop
                else e).setLoopCount loops).play
            else if e.loopsRemaining > 1 ∨ e.loopsRemaining = QSoundEffect.Infinite then e.stop
            else e, loops)) :=
  ⟨by decide, by decide,
    C21_sound_setAlert_change sound_example alert_unresponsive (by decide) (by decide)⟩

/-! ## Lemmas on `Device` -/

/-- `resetInteractiveTimeout` with the default argument, or with a
non-negative timeout whose product fits an `int`, returns and leaves a
non-negative countdown. -/
theorem Device.resetInteractiveTimeout_nonneg (d : Device) (timeout : Int)
    (hok : timeout = -1 ∨ (0 ≤ timeout ∧ timeout * UI_FREQ ≤ INT_MAX)) :
    ∃ d', d.resetInteractiveTimeout timeout = some d' ∧ 0 ≤ d'.interactive_timeout := by
  unfold Device.resetInteractiveTimeout
  dsimp only
  unfold UI_FREQ INT_MAX INT_MIN at *
  by_cases h1 : timeout = -1
  · rw [if_pos h1]
    by_cases hi : d.ignition_on = true
    · rw [if_pos hi, if_pos (by omega)]
      exact ⟨_, rfl, by simp⟩
    · rw [if_neg hi, if_pos (by omega)]
      exact ⟨_, rfl, by simp⟩
  · rw [if_neg h1]
    rcases hok with h | ⟨h0, hmax⟩
    · exact absurd h h1
    · rw [if_pos (by omega)]
      refine ⟨_, rfl, ?_⟩
      show 0 ≤ timeout * ((20 : Nat) : Int)
      omega

/-- `setAwake` changes neither the countdown nor the ignition flag. -/
theorem Device.setAwake_countdown (d : Device) (b : Bool) :
    (d.setAwake b).interactive_timeout = d.interactive_timeout ∧
    (d.setAwake b).ignition_on = d.ignition_on := by
  unfold Device.setAwake
  split <;> exact ⟨rfl, rfl⟩

/-- One `updateWakefulness` tick: it returns; a tick in which the ignition has
just turned off sets the countdown to `30 * UI_FREQ`, any other tick lowers a
positive countdown by one and leaves any other countdown unchanged. -/
theorem Device.updateWakefulness_countdown (d : Device) (s : UIState) :
    ∃ d', d.updateWakefulness s = some d' ∧
      d'.interactive_timeout =
        if (!s.scene.ignition && d.ignition_on) = true then 30 * (UI_FREQ : Int)
        else if d.interactive_timeout > 0 then d.interactive_timeout - 1
        else d.interactive_timeout := by
  unfold Device.updateWakefulness
  dsimp only
  by_cases hoff : (!s.scene.ignition && d.ignition_on) = true
  · have hign : s.scene.ignition = false := by
      cases h : s.scene.ignition
      · rfl
      · rw [h] at hoff
        simp at hoff
    have hreset : Device.resetInteractiveTimeout
        { d with ignition_on := s.scene.ignition } (-1) =
        some { d with
          ignition_on := s.scene.ignition, interactive_timeout := 30 * (UI_FREQ : Int) } := by
      rw [hign]
      simp [Device.resetInteractiveTimeout, UI_FREQ, INT_MAX, INT_MIN]
    rw [if_pos hoff, if_pos hoff, hreset]
    exact ⟨_, rfl, (Device.setAwake_countdown _ _).1⟩
  · rw [if_neg hoff, if_neg hoff]
    by_cases hpos : d.interactive_timeout > 0
    · rw [if_pos hpos, if_pos hpos]
      exact ⟨_, rfl, (Device.setAwake_countdown _ _).1⟩
    · rw [if_neg hpos, if_neg hpos]
      exact ⟨_, rfl, (Device.setAwake_countdown _ _).1⟩

/-- A non-negative countdown stays non-negative along every sequence of events
whose `reset` timeouts are `-1` or non-negative. -/
theorem Device.run_nonneg :
    ∀ (events : List Device.Event) (d : Device),
      events.all Device.Event.timeout_ok = true → 0 ≤ d.interactive_timeout →
      ∃ d', Device.run events d = some d' ∧ 0 ≤ d'.interactive_timeout := by
  intro events
  induction events with
  | nil =>
    intro d _ hd
    exact ⟨d, rfl, hd⟩
  | cons e es ih =>
    intro d hall hd
    rw [List.all_cons, Bool.and_eq_true] at hall
    cases e with
    | tick s =>
      obtain ⟨d1, h1, hval⟩ := Device.updateWakefulness_countdown d s
      have hd1 : 0 ≤ d1.interactive_timeout := by
        rw [hval]
        unfold UI_FREQ
        split
        · decide
        · split <;> omega
      obtain ⟨d', hrun, hd'⟩ := ih d1 hall.2 hd1
      refine ⟨d', ?_, hd'⟩
      unfold Device.run
      rw [h1]
      exact hrun
    | reset timeout =>
      have hok : timeout = -1 ∨ (0 ≤ timeout ∧ timeout * UI_FREQ ≤ INT_MAX) := by
        have h := hall.1
        unfold Device.Event.timeout_ok at h
        exact of_decide_eq_true h
      obtain ⟨d1, h1, hd1⟩ := Device.resetInteractiveTimeout_nonneg d timeout hok
      obtain ⟨d', hrun, hd'⟩ := ih d1 hall.2 hd1
      refine ⟨d', ?_, hd'⟩
      unfold Device.run
      rw [h1]
      exact hrun

/-! ## Claims on `Device` -/

/-- C22 (as stated) fails twice.  From the freshly constructed device,
`resetInteractiveTimeout(-2)` leaves the countdown `-40 < 0`.  And after
`resetInteractiveTimeout(100)` and a tick with the ignition on the countdown is
1999, and the next tick, in which the ignition turns off, sets it to 600: a
single tick lowers it by 1399. -/
theorem C22_counterexample :
    Device.construct = some device_fresh ∧
    Device.run [Device.Event.reset (-2)] device_fresh = some ⟨true, -40, false⟩ ∧
    ((-40 : Int) < 0) ∧
    Device.run [Device.Event.reset 100, Device.Event.tick (ui_ignition true)] device_fresh =
      some ⟨true, 1999, true⟩ ∧
    Device.updateWakefulness ⟨true, 1999, true⟩ (ui_ignition false) =
      some ⟨true, 600, false⟩ ∧
    ((600 : Int) < 1999 - 1) := by
  decide

/-- C22 (amended): in every state reachable from a freshly constructed `Device`
through `updateWakefulness` ticks and `resetInteractiveTimeout(timeout)` calls
whose timeout is `-1` or non-negative (with `timeout * UI_FREQ` within `int`),
the countdown `interactive_timeout` is never negative; and from such a state a
single `updateWakefulness` tick sets it to `30 * UI_FREQ` when the ignition has
just turned off, and otherwise lowers it by at most one and never raises
it. -/
theorem C22_device_countdown (events : List Device.Event)
    (hok : events.all Device.Event.timeout_ok = true) :
    ∃ d0 d, Device.construct = some d0 ∧ Device.run events d0 = some d ∧
      0 ≤ d.interactive_timeout ∧
      ∀ s : UIState, ∃ d', d.updateWakefulness s = some d' ∧
        0 ≤ d'.interactive_timeout ∧
        ((!s.scene.ignition && d.ignition_on) = true →
          d'.interactive_timeout = 30 * (UI_FREQ : Int)) ∧
        ((!s.scene.ignition && d.ignition_on) = false →
          d.interactive_timeout - 1 ≤ d'.interactive_timeout ∧
          d'.interactive_timeout ≤ d.interactive_timeout) := by
  have hc : Device.construct = some device_fresh := by decide
  obtain ⟨d, hrun, hd⟩ := Device.run_nonneg events device_fresh hok (by decide)
  refine ⟨device_fresh, d, hc, hrun, hd, fun s => ?_⟩
  obtain ⟨d', h', hval⟩ := Device.updateWakefulness_countdown d s
  refine ⟨d', h', ?_, ?_, ?_⟩
  · rw [hval]
    unfold UI_FREQ
    split
    · decide
    · split <;> omega
  · intro hoff
    rw [hval, if_pos hoff]
  · intro hoff
    have hno : ¬ ((!s.scene.ignition && d.ignition_on) = true) := by
      rw [hoff]
      decide
    rw [hval, if_neg hno]
    split <;> omega

/-- C22 (amended) on a run with a reset to 100 seconds, a tick with the
ignition on and a reset with the default argument. -/
theorem C22_device_countdown_witness :
    [Device.Event.reset 100, Device.Event.tick (ui_ignition true),
      Device.Event.reset (-1)].all Device.Event.timeout_ok = true ∧
    ∃ d0 d, Device.construct = some d0 ∧
      Device.run [Device.Event.reset 100, Device.Event.tick (ui_ignition true),
        Device.Event.reset (-1)] d0 = some d ∧
      0 ≤ d.interactive_timeout ∧
      ∀ s : UIState, ∃ d', d.updateWakefulness s = some d' ∧
        0 ≤ d'.interactive_timeout ∧
        ((!s.scene.ignition && d.ignition_on) = true →
          d'.interactive_timeout = 30 * (UI_FREQ : Int)) ∧
        ((!s.scene.ignition && d.ignition_on) = false →
          d.interactive_timeout - 1 ≤ d'.interactive_timeout ∧
          d'.interactive_timeout ≤ d.interactive_timeout) :=
  ⟨by decide,
    C22_device_countdown [Device.Event.reset 100, Device.Event.tick (ui_ignition true),
      Device.Event.reset (-1)] (by decide)⟩

/-! ## The left edge under inversion suppression -/

/-- With `allow_invert = false` the left points kept by the loop never step to a
greater screen-Y: none compares greater than the one before it. -/
theorem update_line_data.fold_left_descending (md : ModelConstants) (s : UIState)
    (line : XYZTData) (y_off z_off : ℚ) :
    ∀ n : Nat, (∀ i, i < n → update_line_data.sample_ok line i = true) →
      ∃ st, (List.range n).foldlM (update_line_data.body md s line y_off z_off false)
          ([], []) = some st ∧
        st.1.Chain' (fun a b : QPointF => ¬ b.y > a.y) := by
  intro n
  induction n with
  | zero =>
    intro _
    exact ⟨([], []), rfl, List.chain'_nil⟩
  | succ n ih =>
    intro hok
    obtain ⟨st, hfold, hch⟩ := ih (fun i hi => hok i (by omega))
    rw [update_line_data.fold_succ, hfold, Option.some_bind,
      update_line_data.body_eq md s line y_off z_off false st n (hok n (by omega))]
    cases hc : update_line_data.candidate md s line y_off z_off n with
    | none => exact ⟨st, rfl, hch⟩
    | some c =>
      dsimp only
      by_cases hsup : false = false ∧ st.1.length ≠ 0 ∧ c.1.y > (st.1.getLastD QPointF.null).y
      · rw [if_pos hsup]
        exact ⟨st, rfl, hch⟩
      · rw [if_neg hsup]
        refine ⟨_, rfl, ?_⟩
        rw [List.chain'_append]
        refine ⟨hch, List.chain'_singleton _, ?_⟩
        intro x hx y hy
        simp only [List.head?_cons, Option.mem_def, Option.some.injEq] at hx hy
        subst hy
        have hne : st.1.length ≠ 0 := by
          intro h0
          rw [List.length_eq_zero.mp h0] at hx
          cases hx
        have hlast : (st.1.getLastD QPointF.null) = x := by
          rw [List.getLastD_eq_getLast?, hx]
          rfl
        intro hgt
        exact hsup ⟨rfl, hne, by rw [hlast]; exact hgt⟩

/-! ## Claim on the left edge -/

/-- C23 (as stated) fails on a left edge with a NaN vertex.  The line
`line_nan` drawn with `y_off = 0`, `z_off = 0` has the left projections
`(964, 660.7)`, `(NaN, NaN)` and `(964, 774.1)`; the NaN point is reported
visible, and every comparison with it is false, so inversion suppression skips
neither it nor the sample after it: all three are kept.  The second vertex's
screen-Y is not less than or equal to the first one's, nor the third one's to
the second one's, and the edge rises from `660.7` to `774.1`. -/
theorem C23_counterexample :
    update_line_data.input_ok line_nan 2 = true ∧
    update_line_data md_example ui_example line_nan 0 0 2 false =
      some [⟨qreal.num 964, qreal.num (6607/10)⟩, ⟨qreal.nan, qreal.nan⟩,
        ⟨qreal.num 964, qreal.num (7741/10)⟩, ⟨qreal.num 964, qreal.num (7741/10)⟩,
        ⟨qreal.nan, qreal.nan⟩, ⟨qreal.num 964, qreal.num (6607/10)⟩] ∧
    ¬ (qreal.nan ≤ qreal.num (6607/10)) ∧
    ¬ (qreal.num (7741/10) ≤ qreal.nan) ∧
    ¬ ((7741/10 : ℚ) ≤ 6607/10) := by
  decide!

/-- C23 (amended): with `allow_invert = false`, on every input whose samples
`0..max_idx` are read inside the lists, the left edge of the polygon written by
`update_line_data` (the first half of the output) never steps to a greater
screen-Y: for every pair of consecutive left-edge vertices the later vertex's
screen-Y is not greater than the earlier one's.  When the screen-Y of every
left-edge vertex is a number (no vertex is the NaN projection of a zero-depth
sample), the later vertex's screen-Y is less than or equal to the earlier
one's. -/
theorem C23_update_line_data_left_edge_descending (md : ModelConstants) (s : UIState)
    (line : XYZTData) (y_off z_off : ℚ) (max_idx : Int)
    (hok : update_line_data.input_ok line max_idx = true) :
    ∃ pvd, update_line_data md s line y_off z_off max_idx false = some pvd ∧
      (pvd.take (pvd.length / 2)).Chain' (fun a b : QPointF => ¬ b.y > a.y) ∧
      (∀ (j : Nat) (a b : QPointF), j + 1 < pvd.length / 2 →
        pvd[j]? = some a → pvd[j + 1]? = some b → ¬ b.y > a.y) ∧
      ((∀ a ∈ pvd.take (pvd.length / 2), ∃ q : ℚ, a.y = qreal.num q) →
        ∀ (j : Nat) (a b : QPointF), j + 1 < pvd.length / 2 →
          pvd[j]? = some a → pvd[j + 1]? = some b → b.y ≤ a.y) := by
  have hok' : ∀ i, i < (max_idx + 1).toNat →
      update_line_data.sample_ok line i = true := by
    intro i hi
    exact List.all_eq_true.mp hok i (List.mem_range.mpr hi)
  obtain ⟨kept, hloop, _, _, _⟩ :=
    update_line_data.loop_inv md s line y_off z_off max_idx false hok
  obtain ⟨st, hfold, hch⟩ :=
    update_line_data.fold_left_descending md s line y_off z_off (max_idx + 1).toNat hok'
  have hst : st = (kept.map (fun e => e.2.1), (kept.map (fun e => e.2.2)).reverse) := by
    unfold update_line_data.loop at hloop
    rw [hfold] at hloop
    exact Option.some.inj hloop
  rw [hst] at hch
  dsimp only at hch
  have hlenL : (kept.map (fun e : Nat × QPointF × QPointF => e.2.1)).length = kept.length :=
    List.length_map _ _
  have hlen : (kept.map (fun e : Nat × QPointF × QPointF => e.2.1) ++
      (kept.map (fun e : Nat × QPointF × QPointF => e.2.2)).reverse).length / 2 =
        kept.length := by
    rw [List.length_append, List.length_reverse, List.length_map, List.length_map]
    omega
  have htake : (kept.map (fun e : Nat × QPointF × QPointF => e.2.1) ++
      (kept.map (fun e : Nat × QPointF × QPointF => e.2.2)).reverse).take kept.length =
        kept.map (fun e => e.2.1) := by
    conv_lhs => rw [← hlenL]
    exact List.take_left _ _
  have hpair : ∀ (j : Nat) (a b : QPointF), j + 1 < kept.length →
      (kept.map (fun e : Nat × QPointF × QPointF => e.2.1) ++
        (kept.map (fun e : Nat × QPointF × QPointF => e.2.2)).reverse)[j]? = some a →
      (kept.map (fun e : Nat × QPointF × QPointF => e.2.1) ++
        (kept.map (fun e : Nat × QPointF × QPointF => e.2.2)).reverse)[j + 1]? = some b →
      ¬ b.y > a.y ∧ a ∈ kept.map (fun e : Nat × QPointF × QPointF => e.2.1) ∧
        b ∈ kept.map (fun e : Nat × QPointF × QPointF => e.2.1) := by
    intro j a b hj ha hb
    rw [List.getElem?_append_left (by rw [hlenL]; omega)] at ha hb
    obtain ⟨hja, hea⟩ := List.getElem?_eq_some.mp ha
    obtain ⟨hjb, heb⟩ := List.getElem?_eq_some.mp hb
    have h := List.chain'_iff_get.mp hch j (by omega)
    rw [← hea, ← heb]
    exact ⟨h, List.getElem_mem _, List.getElem_mem _⟩
  refine ⟨kept.map (fun e => e.2.1) ++ (kept.map (fun e => e.2.2)).reverse, ?_, ?_, ?_, ?_⟩
  · unfold update_line_data
    rw [hloop]
    rfl
  · rw [hlen, htake]
    exact hch
  · intro j a b hj ha hb
    rw [hlen] at hj
    exact (hpair j a b hj ha hb).1
  · intro hnum j a b hj ha hb
    rw [hlen] at hj
    rw [hlen, htake] at hnum
    obtain ⟨hngt, hma, hmb⟩ := hpair j a b hj ha hb
    obtain ⟨qa, hqa⟩ := hnum a hma
    obtain ⟨qb, hqb⟩ := hnum b hmb
    rw [hqa, hqb] at hngt ⊢
    rw [qreal.num_le_num]
    exact not_lt.mp (fun h => hngt ((qreal.num_lt_num qa qb).mpr h))

/-- C23 (amended) on the road with a dip, where the second sample is
suppressed. -/
theorem C23_update_line_data_left_edge_descending_witness :
    update_line_data.input_ok line_dip 2 = true ∧
    ∃ pvd, update_line_data md_example ui_example line_dip 1 1 2 false = some pvd ∧
      (pvd.take (pvd.length / 2)).Chain' (fun a b : QPointF => ¬ b.y > a.y) ∧
      (∀ (j : Nat) (a b : QPointF), j + 1 < pvd.length / 2 →
        pvd[j]? = some a → pvd[j + 1]? = some b → ¬ b.y > a.y) ∧
      ((∀ a ∈ pvd.take (pvd.length / 2), ∃ q : ℚ, a.y = qreal.num q) →
        ∀ (j : Nat) (a b : QPointF), j + 1 < pvd.length / 2 →
          pvd[j]? = some a → pvd[j + 1]? = some b → b.y ≤ a.y) :=
  ⟨by decide,
    C23_update_line_data_left_edge_descending md_example ui_example line_dip 1 1 2
      (by decide)⟩

/-! ## Claims on `Sound::update` -/

